import Mathlib

/-!
# hifi voxel server: a shallow embedding of parts of the sources

Sources embedded here

* `libraries/shared/src/UDPSocket.cpp`: `socketMatch`, `packSocket`, `unpackSocket`, `receive`,
  `send`, `setBlockingReceiveTimeoutInUsecs`;
* `libraries/voxel-server-library/src/VoxelServer.cpp`: the constructor, `parsePayload`,
  `civetwebRequestHandler`, the option handling of `VoxelServer::run`, the receive loop of
  `VoxelServer::run` and what `run` does after the loop;
* `interface/src/PairingHandler.cpp`: `sendPairRequest`;
* `interface/src/avatar/MyAvatar.cpp`: `renderScreenTint`, `applyHardCollision`.

The jurisdiction map and the processing of batched edits have no code among the sources; they
are modelled from the design document and marked so.

Machine integers are natural numbers or integers with the reductions modulo `2 ^ w` written out.
Pointers that may be `NULL` are `Option`s.  Buffers of `unsigned char` are lists of bytes, or
functions from the offset to the byte where the code writes through a raw pointer.  The `float`
values of `applyHardCollision` are taken in a linearly ordered field of exact arithmetic.
-/

set_option autoImplicit false

/-! ## Conversions between the integer types of C -/

/-- Conversion of an integer value to `int` (32 bits, two's complement). -/
def toInt (v : Int) : Int :=
  (v + 2 ^ 31) % 2 ^ 32 - 2 ^ 31

/-- Conversion of an integer value to `size_t` (64 bits, unsigned), as the usual arithmetic
conversions do to an `int` that is compared with a `size_t`. -/
def toSizeT (v : Int) : Nat :=
  (v % 2 ^ 64).toNat

/-! ## UDPSocket.cpp -/

namespace UDPSocket

/-- Address family of IPv4 sockets, as given by `<sys/socket.h>`. -/
def AF_INET : Nat := 2

/-- A `sockaddr`, seen through the `sockaddr_in` cast the code applies: the family, the IPv4
address `sin_addr.s_addr` (32 bits) and the port `sin_port` (16 bits). -/
structure sockaddr where
  sa_family : Nat
  s_addr : Nat
  sin_port : Nat
deriving DecidableEq, Repr

/-- Embedding of `socketMatch(const sockaddr* first, const sockaddr* second)`; a `NULL` pointer
is `none`. -/
def socketMatch (first second : Option sockaddr) : Bool :=
  match first, second with
  | some firstIn, some secondIn =>
    if firstIn.sa_family ≠ secondIn.sa_family then
      -- not the same family, can't be equal
      false
    else if firstIn.sa_family = AF_INET then
      firstIn.s_addr == secondIn.s_addr && firstIn.sin_port == secondIn.sin_port
    else
      false
  | _, _ => false

/-- The assignment `packStore[i] = v` through an `unsigned char*`: the value is reduced to a
byte, every other offset keeps its content. -/
def storeByte (packStore : Nat → Nat) (i v : Nat) : Nat → Nat :=
  fun j => if j = i then v % 256 else packStore j

/-- Embedding of `packSocket(unsigned char* packStore, in_addr_t inAddress,
in_port_t networkOrderPort)`: the memory after the six stores, and the returned count. -/
def packSocket (packStore : Nat → Nat) (inAddress networkOrderPort : Nat) : (Nat → Nat) × Int :=
  let m0 := storeByte packStore 0 (inAddress >>> 24)
  let m1 := storeByte m0 1 (inAddress >>> 16)
  let m2 := storeByte m1 2 (inAddress >>> 8)
  let m3 := storeByte m2 3 inAddress
  let m4 := storeByte m3 4 (networkOrderPort >>> 8)
  let m5 := storeByte m4 5 networkOrderPort
  (m5, 6)

/-- Embedding of `unpackSocket(const unsigned char* packedData, sockaddr* unpackDestSocket)`:
the destination socket after the three assignments, and the returned count.  The sum for
`s_addr` is stored in 32 bits and the one for `sin_port` in 16 bits. -/
def unpackSocket (packedData : Nat → Nat) (unpackDestSocket : sockaddr) : sockaddr × Int :=
  let destinationSocket := { unpackDestSocket with sa_family := AF_INET }
  let destinationSocket := { destinationSocket with
    s_addr := ((packedData 0 <<< 24) + (packedData 1 <<< 16) + (packedData 2 <<< 8)
                + packedData 3) % 2 ^ 32 }
  let destinationSocket := { destinationSocket with
    sin_port := ((packedData 4 <<< 8) + packedData 5) % 2 ^ 16 }
  (destinationSocket, 6)

/-- Embedding of the return value of `UDPSocket::receive`: `*receivedBytes` is what `recvfrom`
returned, and the call reports `*receivedBytes > 0`. -/
def receive (recvfromResult : Int) : Bool :=
  decide (recvfromResult > 0)

/-- The local constant `DEFAULT_BLOCKING_SOCKET_TIMEOUT_USECS` of the constructor
`UDPSocket::UDPSocket`, a `const int` initialised with `0.5 * 1000000`. -/
def DEFAULT_BLOCKING_SOCKET_TIMEOUT_USECS : Int := 500000

/-- Embedding of `UDPSocket::setBlockingReceiveTimeoutInUsecs(int timeoutUsecs)`: the
`struct timeval` (`tv_sec`, `tv_usec`) handed to `setsockopt(..., SO_RCVTIMEO, ...)`. -/
def setBlockingReceiveTimeoutInUsecs (timeoutUsecs : Int) : Int × Int :=
  (timeoutUsecs.tdiv 1000000, timeoutUsecs.tmod 1000000)

/-- Embedding of `UDPSocket::send(sockaddr* destAddress, const void* data, size_t byteLength)`.
`sendto` gives the `ssize_t` that the system call returns for the destination and the length;
the result is the `int` returned together with the `sendto` calls made. -/
def send (sendto : sockaddr → Nat → Int) (destAddress : Option sockaddr) (byteLength : Nat) :
    Int × List (sockaddr × Nat) :=
  match destAddress with
  | some dest =>
    -- send data via UDP
    let sent_bytes := toInt (sendto dest byteLength)
    if toSizeT sent_bytes ≠ byteLength then
      (0, [(dest, byteLength)])
    else
      (sent_bytes, [(dest, byteLength)])
  | none => (0, [])

end UDPSocket

/-! ## VoxelServer.cpp: what the sources use and do not define -/

open UDPSocket (sockaddr)

/-- Constants and helper functions that `VoxelServer.cpp` takes from headers that are not among
the sources (`SharedUtil.h`, `VoxelServerConsts.h`, `PacketHeaders.h`, `NodeList.h`).  They are
parameters of the embedding: every theorem holds whatever they are, up to the hypotheses it
states. -/
structure Externals where
  /-- The call `getCmdOption(argc, argv, option)` of `SharedUtil.h`; `NULL` is `none`. -/
  getCmdOption : List String → String → Option String
  /-- The call `cmdOptionExists(argc, argv, option)` of `SharedUtil.h`. -/
  cmdOptionExists : List String → String → Bool
  /-- The constant of `VoxelServerConsts.h`, an `int`. -/
  INTERVALS_PER_SECOND : Int
  PACKET_TYPE_VOXEL_QUERY : Nat
  PACKET_TYPE_VOXEL_JURISDICTION_REQUEST : Nat
  PACKET_TYPE_SET_VOXEL : Nat
  PACKET_TYPE_SET_VOXEL_DESTRUCTIVE : Nat
  PACKET_TYPE_ERASE_VOXEL : Nat
  PACKET_TYPE_Z_COMMAND : Nat
  /-- The call `packetVersionMatch(packetData)` of `PacketHeaders.h`. -/
  packetVersionMatch : List Nat → Bool
  /-- The call `numBytesForPacketHeader(packetData)` of `PacketHeaders.h`. -/
  numBytesForPacketHeader : List Nat → Nat
  NUM_BYTES_RFC4122_UUID : Nat
  MAX_SILENT_DOMAIN_SERVER_CHECK_INS : Int
  DOMAIN_SERVER_CHECK_IN_USECS : Nat

/-- The six packet types that `VoxelServer::run` tells apart are pairwise distinct. -/
def Externals.distinctPacketTypes (x : Externals) : Prop :=
  [x.PACKET_TYPE_VOXEL_QUERY, x.PACKET_TYPE_VOXEL_JURISDICTION_REQUEST, x.PACKET_TYPE_SET_VOXEL,
    x.PACKET_TYPE_SET_VOXEL_DESTRUCTIVE, x.PACKET_TYPE_ERASE_VOXEL,
    x.PACKET_TYPE_Z_COMMAND].Nodup

instance (x : Externals) : Decidable x.distinctPacketTypes := by
  unfold Externals.distinctPacketTypes
  infer_instance

/-- The digits read by `atoi`: the value of the longest prefix of decimal digits, continuing
from `acc`. -/
def atoiDigits : List Char → Int → Int
  | [], acc => acc
  | c :: cs, acc =>
    if 48 ≤ c.toNat ∧ c.toNat ≤ 57 then atoiDigits cs (acc * 10 + ((c.toNat : Int) - 48))
    else acc

/-- The white space of `isspace` in the C locale: space, `\t`, `\n`, `\v`, `\f`, `\r`. -/
def isspace (c : Char) : Bool :=
  c.toNat == 32 || (9 ≤ c.toNat && c.toNat ≤ 13)

/-- The `atoi` of the C library on a string whose value fits an `int`: leading white space is
skipped, an optional sign is read, then the longest run of decimal digits; text without digits
gives 0. -/
def atoi (s : String) : Int :=
  match s.toList.dropWhile isspace with
  | [] => 0
  | c :: cs =>
    if c.toNat = 45 then - atoiDigits cs 0
    else if c.toNat = 43 then atoiDigits cs 0
    else atoiDigits (c :: cs) 0

/-- The range of a 32-bit `int`. -/
def fitsInt (n : Int) : Prop := -2147483648 ≤ n ∧ n ≤ 2147483647

instance (n : Int) : Decidable (fitsInt n) := by
  unfold fitsInt
  infer_instance

/-! ## VoxelServer.cpp: the data -/

/-- How `VoxelServer::run` constructs its `JurisdictionMap`: the class has one constructor
taking a file name and one taking the root and the end nodes, each a `const char*` that may be
`NULL`. -/
inductive JurisdictionMap where
  | fromFile (filename : String)
  | fromRootAndEndNodes (rootHexCode endNodesHexCodes : Option String)
deriving DecidableEq, Repr

/-- The object made by `new JurisdictionSender(_jurisdiction)`: it holds the map pointer it was
given. -/
structure JurisdictionSender where
  jurisdiction : Option JurisdictionMap
deriving DecidableEq, Repr

/-- The object made by `new VoxelServerPacketProcessor(this)`. -/
structure VoxelServerPacketProcessor where
  started : Bool
deriving DecidableEq, Repr

/-- The object made by `new VoxelPersistThread(&_serverTree, _voxelPersistFilename)`. -/
structure VoxelPersistThread where
  filename : String
deriving DecidableEq, Repr

/-- The members of `VoxelServer` that the constructor and `run` assign. -/
structure VoxelServer where
  _argv : List String
  _packetsPerClientPerInterval : Int
  _wantVoxelPersist : Bool
  _wantLocalDomain : Bool
  _debugVoxelSending : Bool
  _shouldShowAnimationDebug : Bool
  _displayVoxelStats : Bool
  _debugVoxelReceiving : Bool
  _sendEnvironments : Bool
  _sendMinimalEnvironment : Bool
  _dumpVoxelsOnMove : Bool
  _verboseDebug : Bool
  _jurisdiction : Option JurisdictionMap
  _jurisdictionSender : Option JurisdictionSender
  _voxelServerPacketProcessor : Option VoxelServerPacketProcessor
  _voxelPersistThread : Option VoxelPersistThread
  _voxelPersistFilename : String
deriving DecidableEq, Repr

/-- The file-scope constant `LOCAL_VOXELS_PERSIST_FILE`. -/
def LOCAL_VOXELS_PERSIST_FILE : String := "resources/voxels.svo"

/-- Embedding of the constructor `VoxelServer::VoxelServer`: `_argc = 0`, `_argv = NULL`, and the
defaults of the members.  `_voxelPersistFilename` is a character array the constructor leaves
alone; it is the empty string here. -/
def VoxelServer.create : VoxelServer :=
  { _argv := []
    _packetsPerClientPerInterval := 10
    _wantVoxelPersist := true
    _wantLocalDomain := false
    _debugVoxelSending := false
    _shouldShowAnimationDebug := false
    _displayVoxelStats := false
    _debugVoxelReceiving := false
    _sendEnvironments := true
    _sendMinimalEnvironment := false
    _dumpVoxelsOnMove := false
    _verboseDebug := false
    _jurisdiction := none
    _jurisdictionSender := none
    _voxelServerPacketProcessor := none
    _voxelPersistThread := none
    _voxelPersistFilename := "" }

/-- Embedding of `VoxelServer::setArguments(argc, argv)`; `_argc` is the length of `_argv`. -/
def VoxelServer.setArguments (argv : List String) (s : VoxelServer) : VoxelServer :=
  { s with _argv := argv }

/-! ## VoxelServer.cpp: the option handling of `VoxelServer::run`

The blocks follow the order of the source.  The calls that only log (`qDebug`), the status page
(`initMongoose`) and the reading of an old voxel file (`-i`) assign none of the members above and
are left out. -/

/-- The block of `run` that reads `--jurisdictionFile`, `--jurisdictionRoot` and
`--jurisdictionEndNodes`. -/
def VoxelServer.runJurisdiction (x : Externals) (s : VoxelServer) : VoxelServer :=
  match x.getCmdOption s._argv "--jurisdictionFile" with
  | some jurisdictionFile =>
    { s with _jurisdiction := some (JurisdictionMap.fromFile jurisdictionFile) }
  | none =>
    let jurisdictionRoot := x.getCmdOption s._argv "--jurisdictionRoot"
    let jurisdictionEndNodes := x.getCmdOption s._argv "--jurisdictionEndNodes"
    if jurisdictionRoot.isSome || jurisdictionEndNodes.isSome then
      let map := JurisdictionMap.fromRootAndEndNodes jurisdictionRoot jurisdictionEndNodes
      { s with _jurisdiction := some map }
    else s

/-- The block of `run` that reads `--dumpVoxelsOnMove`, `--sendEnvironments` and
`--minimalEnvironment`. -/
def VoxelServer.runEnvironments (x : Externals) (s : VoxelServer) : VoxelServer :=
  let s := { s with _dumpVoxelsOnMove := x.cmdOptionExists s._argv "--dumpVoxelsOnMove" }
  let dontSendEnvironments := !x.cmdOptionExists s._argv "--sendEnvironments"
  if dontSendEnvironments then
    { s with _sendEnvironments := false }
  else
    { s with _sendMinimalEnvironment := x.cmdOptionExists s._argv "--minimalEnvironment" }

/-- The block of `run` that reads the debugging switches. -/
def VoxelServer.runDebugSwitches (x : Externals) (s : VoxelServer) : VoxelServer :=
  let s := { s with _displayVoxelStats := x.cmdOptionExists s._argv "--displayVoxelStats" }
  let s := { s with _verboseDebug := x.cmdOptionExists s._argv "--verboseDebug" }
  let s := { s with _debugVoxelSending := x.cmdOptionExists s._argv "--debugVoxelSending" }
  let s := { s with _debugVoxelReceiving := x.cmdOptionExists s._argv "--debugVoxelReceiving" }
  { s with _shouldShowAnimationDebug := x.cmdOptionExists s._argv "--shouldShowAnimationDebug" }

/-- The block of `run` that reads `--NoVoxelPersist` and `--voxelsPersistFilename` and sets up
the persist thread. -/
def VoxelServer.runVoxelPersist (x : Externals) (s : VoxelServer) : VoxelServer :=
  let s :=
    if x.cmdOptionExists s._argv "--NoVoxelPersist" then { s with _wantVoxelPersist := false }
    else s
  if s._wantVoxelPersist then
    let s :=
      match x.getCmdOption s._argv "--voxelsPersistFilename" with
      | some voxelsPersistFilenameParameter =>
        { s with _voxelPersistFilename := voxelsPersistFilenameParameter }
      | none => { s with _voxelPersistFilename := LOCAL_VOXELS_PERSIST_FILE }
    { s with _voxelPersistThread := some { filename := s._voxelPersistFilename } }
  else s

/-- The block of `run` that reads `--packetsPerSecond`; the division of two `int`s truncates
towards zero. -/
def VoxelServer.runPacketsPerSecond (x : Externals) (s : VoxelServer) : VoxelServer :=
  match x.getCmdOption s._argv "--packetsPerSecond" with
  | some packetsPerSecond =>
    let quotient := (atoi packetsPerSecond).tdiv x.INTERVALS_PER_SECOND
    let s := { s with _packetsPerClientPerInterval := quotient }
    if s._packetsPerClientPerInterval < 1 then { s with _packetsPerClientPerInterval := 1 }
    else s
  | none => s

/-- The block of `run` that creates the jurisdiction sender and the packet processor; `new`
does not return `NULL`. -/
def VoxelServer.runWorkers (s : VoxelServer) : VoxelServer :=
  let s := { s with _jurisdictionSender := some { jurisdiction := s._jurisdiction } }
  { s with _voxelServerPacketProcessor := some { started := true } }

/-- Embedding of `VoxelServer::run` from the option handling up to the entry of the receive
loop, on the members of the server. -/
def VoxelServer.runConfigure (x : Externals) (s : VoxelServer) : VoxelServer :=
  let s := VoxelServer.runJurisdiction x s
  let s := VoxelServer.runEnvironments x s
  let s := VoxelServer.runDebugSwitches x s
  let s := VoxelServer.runVoxelPersist x s
  let s := VoxelServer.runPacketsPerSecond x s
  VoxelServer.runWorkers s

/-! ## VoxelServer.cpp: the node list and the receive loop of `VoxelServer::run` -/

/-- Modelled from the spec: `VoxelNodeData` (the `ClientSessionState` of §3) is declared in
`VoxelNodeData.h`, which is not among the sources.  Of the record only the "send-thread liveness
flag" is kept: whether `_voxelSendThread` has been created, which is what
`isVoxelSendThreadInitalized()` reports. -/
structure VoxelNodeData where
  _voxelSendThread : Bool
deriving DecidableEq, Repr

/-- Modelled from the spec: `Node` is declared in `Node.h`, which is not among the sources.  A
node has its UUID, the public address of the client, the active socket (a pointer, `NULL` until
one is activated) and the linked data (a pointer, `NULL` until a session record is attached). -/
structure Node where
  _uuid : List Nat
  _publicSocket : sockaddr
  _activeSocket : Option sockaddr
  _linkedData : Option VoxelNodeData
deriving DecidableEq, Repr

/-- Modelled from the spec: `NodeList` is declared in `NodeList.h`, which is not among the
sources.  It is the session table of §9: the nodes, and the `linkedDataCreateCallback` function
pointer that `run` assigns. -/
structure NodeList where
  nodes : List Node
  linkedDataCreateCallback : Option (Node → Node)

/-- Modelled from the spec: the constructor `VoxelNodeData(Node*)` of the missing
`VoxelNodeData.cpp`; a new session record has no send worker yet (§4.5: the worker is started
on the query). -/
def VoxelNodeData.create : VoxelNodeData :=
  { _voxelSendThread := false }

/-- Modelled from the spec: `VoxelNodeData::isVoxelSendThreadInitalized()` of the missing
`VoxelNodeData.h`, the send-thread liveness flag of §3. -/
def VoxelNodeData.isVoxelSendThreadInitalized (d : VoxelNodeData) : Bool :=
  d._voxelSendThread

/-- Modelled from the spec: `VoxelNodeData::initializeVoxelSendThread(VoxelServer*)` of the
missing `VoxelNodeData.cpp`; it starts the dedicated send worker of §4.5, after which the flag
is set. -/
def VoxelNodeData.initializeVoxelSendThread (d : VoxelNodeData) : VoxelNodeData :=
  { d with _voxelSendThread := true }

/-- Embedding of `attachVoxelNodeDataToNode(Node* newNode)`. -/
def attachVoxelNodeDataToNode (newNode : Node) : Node :=
  if newNode._linkedData.isNone then
    let voxelNodeData := VoxelNodeData.create
    { newNode with _linkedData := some voxelNodeData }
  else newNode

/-- Modelled from the spec: `NodeList::nodeWithUUID(uuid)` of the missing `NodeList.cpp`; the
first node of the table with that UUID, `NULL` when there is none. -/
def NodeList.nodeWithUUID (nl : NodeList) (nodeUUID : List Nat) : Option Node :=
  nl.nodes.find? (fun n => n._uuid == nodeUUID)

/-- The table after the node that `nodeWithUUID` found has been modified in place: the first
node with the UUID of `node` is replaced by `node`. -/
def storeNode (node : Node) : List Node → List Node
  | [] => []
  | n :: ns => if n._uuid == node._uuid then node :: ns else n :: storeNode node ns

/-- Modelled from the spec: `NodeList::updateNodeWithData(node, senderAddress, packetData,
dataBytes)` of the missing `NodeList.cpp`.  By §3 the session record is "created when a
client's first query packet is observed and no record exists": a node without linked data gets
it from the registered `linkedDataCreateCallback`. -/
def NodeList.updateNodeWithData (nl : NodeList) (node : Node) : Node :=
  match node._linkedData, nl.linkedDataCreateCallback with
  | none, some callback => callback node
  | _, _ => node

/-- Modelled from the spec: `Node::activatePublicSocket()` of the missing `Node.cpp`. -/
def Node.activatePublicSocket (node : Node) : Node :=
  { node with _activeSocket := some node._publicSocket }

/-- The calls that one iteration of the receive loop makes on the node list, on a node and on
the two queued workers, with their arguments. -/
inductive Call where
  | sendDomainServerCheckIn
  | possiblyPingInactiveNodes
  | updateNodeWithData (nodeUUID : List Nat) (senderAddress : sockaddr) (packetData : List Nat)
      (packetLength : Int)
  | activatePublicSocket (nodeUUID : List Nat)
  | initializeVoxelSendThread (nodeUUID : List Nat)
  | jurisdictionSenderQueueReceivedPacket (senderAddress : sockaddr) (packetData : List Nat)
      (packetLength : Int)
  | voxelServerPacketProcessorQueueReceivedPacket (senderAddress : sockaddr)
      (packetData : List Nat) (packetLength : Int)
  | processNodeData (senderAddress : sockaddr) (packetData : List Nat) (packetLength : Int)
deriving DecidableEq, Repr

/-- What `run` works on in the receive loop: the members of the server, the node list
singleton, and the local `lastDomainServerCheckIn` in microseconds. -/
structure RunState where
  server : VoxelServer
  nodeList : NodeList
  lastDomainServerCheckIn : Nat

/-- What one iteration of the loop reads from outside: the count of unanswered check-ins, the
clock at `usecTimestampNow()`, the clock at `gettimeofday`, the value returned by `recvfrom`,
the sender address and the packet buffer as `recvfrom` left them, and the node table as
`NodeList::processNodeData` (not among the sources) would leave it. -/
structure Tick where
  numNoReplyDomainCheckIns : Int
  usecTimestampNow : Nat
  gettimeofday : Nat
  recvfromResult : Int
  senderAddress : sockaddr
  packetData : List Nat
  processNodeData : List Node → List Node

/-- The `nodeList` part of `run` before the loop, as far as the loop depends on it: the
assignment `nodeList->linkedDataCreateCallback = &attachVoxelNodeDataToNode`. -/
def VoxelServer.runNodeList (nl : NodeList) : NodeList :=
  { nl with linkedDataCreateCallback := some attachVoxelNodeDataToNode }

/-- Embedding of `VoxelServer::run` up to the entry of the receive loop;
`lastDomainServerCheckIn` is zero-initialised. -/
def VoxelServer.runSetup (x : Externals) (s : VoxelServer) (nl : NodeList) : RunState :=
  { server := VoxelServer.runConfigure x s
    nodeList := VoxelServer.runNodeList nl
    lastDomainServerCheckIn := 0 }

/-- The check-in block of the loop: the difference of the two `uint64_t` time stamps is taken
modulo `2 ^ 64`. -/
def VoxelServer.checkIn (x : Externals) (s : RunState) (t : Tick) : RunState × List Call :=
  if (t.usecTimestampNow + 2 ^ 64 - s.lastDomainServerCheckIn % 2 ^ 64) % 2 ^ 64
      ≥ x.DOMAIN_SERVER_CHECK_IN_USECS then
    ({ s with lastDomainServerCheckIn := t.gettimeofday }, [Call.sendDomainServerCheckIn])
  else (s, [])

/-- The `PACKET_TYPE_VOXEL_QUERY` branch of the loop, for the node that `nodeWithUUID`
returned. -/
def VoxelServer.handleVoxelQuery (s : RunState) (node : Node) (senderAddress : sockaddr)
    (packetData : List Nat) (packetLength : Int) : RunState × List Call :=
  let node1 := s.nodeList.updateNodeWithData node
  let c1 := [Call.updateNodeWithData node._uuid senderAddress packetData packetLength]
  let (node2, c2) :=
    if node1._activeSocket.isNone then
      (node1.activatePublicSocket, [Call.activatePublicSocket node._uuid])
    else (node1, [])
  let (node3, c3) :=
    match node2._linkedData with
    | some nodeData =>
      if !nodeData.isVoxelSendThreadInitalized then
        ({ node2 with _linkedData := some nodeData.initializeVoxelSendThread },
          [Call.initializeVoxelSendThread node._uuid])
      else (node2, [])
    | none => (node2, [])
  ({ s with nodeList := { s.nodeList with nodes := storeNode node3 s.nodeList.nodes } },
    c1 ++ c2 ++ c3)

/-- The body of `if (receive(...) && packetVersionMatch(packetData))` in the loop: the dispatch
on the type byte `packetData[0]`. -/
def VoxelServer.dispatch (x : Externals) (s : RunState) (t : Tick) : RunState × List Call :=
  let senderAddress := t.senderAddress
  let packetData := t.packetData
  let packetLength := t.recvfromResult
  let numBytesPacketHeader := x.numBytesForPacketHeader packetData
  let packetType := packetData.headD 0
  if packetType = x.PACKET_TYPE_VOXEL_QUERY then
    let nodeUUID := (packetData.drop numBytesPacketHeader).take x.NUM_BYTES_RFC4122_UUID
    match s.nodeList.nodeWithUUID nodeUUID with
    | some node => VoxelServer.handleVoxelQuery s node senderAddress packetData packetLength
    | none => (s, [])
  else if packetType = x.PACKET_TYPE_VOXEL_JURISDICTION_REQUEST then
    if s.server._jurisdictionSender.isSome then
      (s, [Call.jurisdictionSenderQueueReceivedPacket senderAddress packetData packetLength])
    else (s, [])
  else if s.server._voxelServerPacketProcessor.isSome
      && (packetType = x.PACKET_TYPE_SET_VOXEL
        || packetType = x.PACKET_TYPE_SET_VOXEL_DESTRUCTIVE
        || packetType = x.PACKET_TYPE_ERASE_VOXEL
        || packetType = x.PACKET_TYPE_Z_COMMAND) then
    (s, [Call.voxelServerPacketProcessorQueueReceivedPacket senderAddress packetData
          packetLength])
  else
    -- let processNodeData handle it.
    ({ s with nodeList := { s.nodeList with nodes := t.processNodeData s.nodeList.nodes } },
      [Call.processNodeData senderAddress packetData packetLength])

/-- One iteration of `while (true)` in `run`: `none` is the `break`, otherwise the state at the
end of the iteration and the calls made, in order. -/
def VoxelServer.loopIteration (x : Externals) (s : RunState) (t : Tick) :
    Option (RunState × List Call) :=
  -- check for >= in case one gets past the goalie
  if t.numNoReplyDomainCheckIns ≥ x.MAX_SILENT_DOMAIN_SERVER_CHECK_INS then none
  else
    let (s1, c1) := VoxelServer.checkIn x s t
    let c2 := [Call.possiblyPingInactiveNodes]
    if UDPSocket.receive t.recvfromResult && x.packetVersionMatch t.packetData then
      let (s2, c3) := VoxelServer.dispatch x s1 t
      some (s2, c1 ++ c2 ++ c3)
    else some (s1, c1 ++ c2)

/-- The state of the loop after the iterations fed by `ticks`, `none` once the loop has been
left. -/
def VoxelServer.loopState (x : Externals) (s : RunState) : List Tick → Option RunState
  | [] => some s
  | t :: ts =>
    match VoxelServer.loopIteration x s t with
    | some (s1, _) => VoxelServer.loopState x s1 ts
    | none => none

/-- The state in which `run` enters its receive loop when the server was constructed and given
the arguments `argv`. -/
def VoxelServer.loopEntry (x : Externals) (argv : List String) (nl : NodeList) : RunState :=
  VoxelServer.runSetup x (VoxelServer.setArguments argv VoxelServer.create) nl

/-! ## VoxelServer.cpp: `VoxelServer::parsePayload` -/

/-- The C string that starts at a `char*`: the characters of the memory up to the first NUL. -/
def cString (memory : List Char) : List Char :=
  memory.takeWhile (fun c => c.toNat ≠ 0)

/-- The `QString::split(" ")` of Qt on the characters of a string: the fields between single
spaces, empty fields kept; a string without a space is its only field. -/
def splitOnSpace : List Char → List (List Char)
  | [] => [[]]
  | c :: cs =>
    if c.toNat = 32 then [] :: splitOnSpace cs
    else
      match splitOnSpace cs with
      | field :: fields => (c :: field) :: fields
      | [] => [[c]]

/-- What `parsePayload` uses of the class `QString` of Qt, which is not among the sources.  A
`QString` is kept as the list of its characters; a `char` of C is a character whose code is the
byte. -/
structure QStringFunctions where
  /-- The constructor `QString(const char*)`: the characters that the bytes of a C string stand
  for (Qt reads the bytes as UTF-8). -/
  fromCString : List Char → List Char
  /-- The call `QString::length()`: the number of UTF-16 code units of the string. -/
  length : List Char → Nat
  /-- The call `QString::toLocal8Bit()`: the bytes of the string in the encoding of the
  locale. -/
  toLocal8Bit : List Char → List Char

/-- The call `strcpy(destination, source)` into an array of `size` chars: the characters of the
C string at `source` and the terminating NUL are stored, and the result is the C string that
the array then holds.  A string that does not fit with its NUL is written past the end of the
array, which is undefined (`none`). -/
def strcpy (size : Nat) (source : List Char) : Option String :=
  if (cString source).length + 1 ≤ size then some (String.mk (cString source)) else none

/-- The loop `for (int i = 1; i < argCount; i++)` of `parsePayload` over the items of
`configList`: every `_parsedArgV[i]` is a new array of `configItem.length() + sizeof(char)`
chars, into which `strcpy` copies `configItem.toLocal8Bit().constData()`. -/
def VoxelServer.parsePayloadItems (qt : QStringFunctions) :
    List (List Char) → Option (List String)
  | [] => some []
  | configItem :: rest =>
    match strcpy (qt.length configItem + 1) (qt.toLocal8Bit configItem) with
    | some parsedArg =>
      match VoxelServer.parsePayloadItems qt rest with
      | some parsedArgs => some (parsedArg :: parsedArgs)
      | none => none
    | none => none

/-- Embedding of `VoxelServer::parsePayload`.  `numPayloadBytes` is what `getNumPayloadBytes()`
returns and `_payload` the memory that the member `_payload` of the base class `Assignment`
points to.  `_argc` is the length of `_argv`.  The result is `none` where a `strcpy` writes
past the end of the array made for it. -/
def VoxelServer.parsePayload (qt : QStringFunctions) (numPayloadBytes : Nat)
    (_payload : List Char) (s : VoxelServer) : Option VoxelServer :=
  if numPayloadBytes > 0 then
    let config := qt.fromCString (cString _payload)
    -- Now, parse the config
    let configList := splitOnSpace config
    let dummy := "config-from-payload"
    match strcpy ((cString dummy.toList).length + 1) dummy.toList with
    | some parsedArg0 =>
      match VoxelServer.parsePayloadItems qt configList with
      | some parsedArgs => some (VoxelServer.setArguments (parsedArg0 :: parsedArgs) s)
      | none => none
    | none => none
  else some s

/-! ## The jurisdiction map and the batched edits of the spec -/

/-- Modelled from the spec: the `JurisdictionMap` of §3 and §4.3, whose code is not among the
sources: "a set of octal-code prefixes this instance owns, optionally with named end nodes
delegating sub-regions to peer instances".  An octal code is the list of its octant
selectors. -/
structure JurisdictionMapRegions where
  ownedPrefixes : List (List (Fin 8))
  endNodes : List (List (Fin 8))
deriving DecidableEq, Repr

/-- Modelled from the spec: whether an octal code starts with a prefix, selector by
selector. -/
def startsWith : List (Fin 8) → List (Fin 8) → Bool
  | _, [] => true
  | [], _ :: _ => false
  | c :: octalCode, p :: pre => c == p && startsWith octalCode pre

/-- Modelled from the spec: `owns(octalCode)` of §4.3, "true if the code starts with an owned
prefix and does not start with any delegated end-node prefix". -/
def JurisdictionMapRegions.owns (m : JurisdictionMapRegions) (octalCode : List (Fin 8)) : Bool :=
  m.ownedPrefixes.any (fun pre => startsWith octalCode pre)
    && !m.endNodes.any (fun pre => startsWith octalCode pre)

/-- Modelled from the spec: what the worker reports for one batched packet of §4.4: the store
afterwards, how many sub-edits were applied, and whether a malformed sub-edit stopped the
processing (the `PartialBatchFailure` of §7, which is logged and does not escape). -/
structure BatchOutcome (Store : Type) where
  store : Store
  applied : Nat
  partialBatchFailure : Bool

/-- Modelled from the spec: the processing of a batched Z-command packet of §4.4, whose code
(`VoxelServerPacketProcessor`) is not among the sources: "each sub-edit is applied in order,
and one malformed sub-edit aborts processing of the remainder of that packet (partial
application up to the failure point is retained)".  `decode` gives the edit of a well-formed
sub-edit and `none` for a malformed one; `applyEdit` is the `applyEdit` of the octree store. -/
def processBatch {Store SubEdit Edit : Type} (decode : SubEdit → Option Edit)
    (applyEdit : Store → Edit → Store) : Store → List SubEdit → BatchOutcome Store
  | store, [] => { store := store, applied := 0, partialBatchFailure := false }
  | store, subEdit :: rest =>
    match decode subEdit with
    | some edit =>
      let outcome := processBatch decode applyEdit (applyEdit store edit) rest
      { outcome with applied := outcome.applied + 1 }
    | none => { store := store, applied := 0, partialBatchFailure := true }

/-! ## VoxelServer.cpp: `VoxelServer::civetwebRequestHandler`

The handler writes a page with `mg_printf`.  The page is kept here as the values that are
printed: the break-down of the up time and of the load time, the configuration line, the edit
statistics and the block of every sender.  The dates made by `strftime`, and the node counts
and memory figures of `VoxelNode` (percentages in `float`), are left out.  The `float` of the
edit statistics comes from a whole number and is kept as the whole number it rounds to. -/

/-- The cast `(uint)` of a `uint64_t` value: reduction to 32 bits. -/
def toUInt (v : Nat) : Nat :=
  v % 2 ^ 32

/-- The fields of `struct mg_request_info` that the handler reads. -/
structure mg_request_info where
  uri : String
  request_method : String
deriving DecidableEq, Repr

/-- The class `SingleSenderStats` of `VoxelServerPacketProcessor.h`, which is not among the
sources, through what its seven getters return (each a `uint64_t`). -/
structure SingleSenderStats where
  getAverateTransitTimePerPacket : Nat
  getAverageProcessTimePerPacket : Nat
  getAverageLockWaitTimePerPacket : Nat
  getAverageProcessTimePerVoxel : Nat
  getAverageLockWaitTimePerVoxel : Nat
  getTotalVoxelsProcessed : Nat
  getTotalPacketsProcessed : Nat
deriving DecidableEq, Repr

/-- The statistics of the object behind `_voxelServerPacketProcessor`, through what its getters
return: the seven totals and averages over all senders, and the map of `getSingleSenderStats()`
from sender UUID to `SingleSenderStats`, in the order of iteration. -/
structure PacketProcessorStats where
  getAverateTransitTimePerPacket : Nat
  getAverageProcessTimePerPacket : Nat
  getAverageLockWaitTimePerPacket : Nat
  getAverageProcessTimePerVoxel : Nat
  getAverageLockWaitTimePerVoxel : Nat
  getTotalVoxelsProcessed : Nat
  getTotalPacketsProcessed : Nat
  getSingleSenderStats : List (List Nat × SingleSenderStats)
deriving DecidableEq, Repr

/-- What the handler reads besides the request and the members of the server modelled in
`VoxelServer`: whether the build defines `FORCE_CRASH`, the clock, the members `_startedUSecs`
and the load times of the server, and `resetStats()` of the packet processor (not among the
sources) as a function on the statistics. -/
structure StatusInputs where
  FORCE_CRASH : Bool
  usecTimestampNow : Nat
  _startedUSecs : Nat
  isInitialLoadComplete : Bool
  getLoadElapsedTime : Nat
  resetStats : PacketProcessorStats → PacketProcessorStats

/-- The three locals `seconds`, `minutes`, `hours` that the handler computes from
`msecsElapsed`.  `seconds` is the `float` quotient of `msecs` by 1000; it is kept as the whole
number of milliseconds `msecsElapsed % MSECS_PER_MIN`. -/
structure ElapsedTime where
  msecs : Nat
  minutes : Int
  hours : Int
deriving DecidableEq, Repr

def USECS_PER_MSEC : Nat := 1000
def MSECS_PER_SEC : Nat := 1000
def SECS_PER_MIN : Nat := 60
def MIN_PER_HOUR : Nat := 60
def MSECS_PER_MIN : Nat := MSECS_PER_SEC * SECS_PER_MIN

/-- The assignments to `seconds`, `minutes` and `hours` in the handler, the same for the up
time and for the load time; `msecsElapsed` is a `uint64_t`, `minutes` and `hours` are `int`. -/
def elapsedTime (msecsElapsed : Nat) : ElapsedTime :=
  { msecs := msecsElapsed % MSECS_PER_MIN
    minutes := toInt ((msecsElapsed / MSECS_PER_MIN) % MIN_PER_HOUR : Nat)
    hours := toInt (msecsElapsed / (MSECS_PER_MIN * MIN_PER_HOUR) : Nat) }

/-- The text that `mg_printf(connection, "%d hour%s ", hours, (hours > 1) ? "s" : "")` and the
like call for the minutes write when `hours > 0`, respectively `minutes > 0`. -/
def hoursAndMinutesText (e : ElapsedTime) : String :=
  (if e.hours > 0 then
    toString e.hours ++ " hour" ++ (if e.hours > 1 then "s" else "") ++ " "
   else "")
  ++ (if e.minutes > 0 then
    toString e.minutes ++ " minute" ++ (if e.minutes > 1 then "s" else "") ++ " "
   else "")

/-- A line "Uptime:" or "Voxels Load Took:" of the page: the locals, the text of the hours and
minutes, and whether the seconds are printed. -/
structure ElapsedLine where
  time : ElapsedTime
  hoursAndMinutes : String
  secondsPrinted : Bool
deriving DecidableEq, Repr

/-- The eight figures of a block of edit statistics, as handed to `mg_printf`: the counts after
the cast `(uint)`, and `averageVoxelsPerPacket`, a `float` whose value is a whole number (see
`toFloat`). -/
structure StatsBlock where
  totalInboundPackets : Nat
  totalInboundVoxels : Nat
  averageInboundVoxelsPerPacket : Nat
  averageTransitTimePerPacket : Nat
  averageProcessTimePerPacket : Nat
  averageWaitLockTimePerPacket : Nat
  averageProcessTimePerVoxel : Nat
  averageWaitLockTimePerVoxel : Nat
deriving DecidableEq, Repr

/-- The block "Stats for sender %d uuid: %s" of the page. -/
structure SenderBlock where
  senderNumber : Int
  senderID : List Nat
  figures : StatsBlock
deriving DecidableEq, Repr

/-- The page that the handler writes, as far as it is modelled. -/
structure StatusPage where
  uptime : ElapsedLine
  voxelsLoadTook : Option ElapsedLine
  configuration : List String
  editStatistics : StatsBlock
  senders : List SenderBlock
deriving DecidableEq, Repr

/-- The division `a / b` of two `uint64_t` values: the quotient with the fraction dropped.  A
division by zero is undefined (`none`). -/
def divideUInt64 (a b : Nat) : Option Nat :=
  if b = 0 then none else some (a / b)

/-- The binary exponent of the last place of the `float` nearest to `v`: the number of halvings
that bring `v` below `2 ^ 24`, the 24 bits of the significand of a `float`.  `fuel` bounds the
halvings; 64 are enough for a `uint64_t`. -/
def floatExponent : Nat → Nat → Nat
  | 0, _ => 0
  | fuel + 1, v => if v < 2 ^ 24 then 0 else floatExponent fuel (v / 2) + 1

/-- The conversion of a `uint64_t` value to `float` (IEEE 754 single precision, rounding to the
nearest value, ties to the even significand).  The `float` nearest to a whole number is a whole
number, so the value of the result is kept as a natural number. -/
def toFloat (v : Nat) : Nat :=
  let exponent := floatExponent 64 v
  let significand := v / 2 ^ exponent
  let remainder := v % 2 ^ exponent
  if 2 * remainder > 2 ^ exponent ∨ (2 * remainder = 2 ^ exponent ∧ significand % 2 = 1) then
    (significand + 1) * 2 ^ exponent
  else significand * 2 ^ exponent

/-- The initialisation `float averageVoxelsPerPacket = totalPacketsProcessed == 0 ? 0 :
totalVoxelsProcessed / totalPacketsProcessed`: the conditional expression has the type
`uint64_t`, so the division is the division of whole numbers, and its value is converted to
`float`.  `none` is a division by zero. -/
def averageVoxelsPerPacket (totalVoxelsProcessed totalPacketsProcessed : Nat) : Option Nat :=
  let quotient : Option Nat :=
    if totalPacketsProcessed = 0 then some 0
    else divideUInt64 totalVoxelsProcessed totalPacketsProcessed
  quotient.map toFloat

/-- The loop of the handler over `allSenderStats`: seven of the locals are assigned from the
`SingleSenderStats` of the sender, `averageVoxelsPerPacket` is printed as it is. -/
def senderBlocks (averageVoxelsPerPacket : Nat) :
    Int → List (List Nat × SingleSenderStats) → List SenderBlock
  | _, [] => []
  | senderNumber, (senderID, senderStats) :: rest =>
    let senderNumber := toInt (senderNumber + 1)
    let averageTransitTimePerPacket := senderStats.getAverateTransitTimePerPacket
    let averageProcessTimePerPacket := senderStats.getAverageProcessTimePerPacket
    let averageLockWaitTimePerPacket := senderStats.getAverageLockWaitTimePerPacket
    let averageProcessTimePerVoxel := senderStats.getAverageProcessTimePerVoxel
    let averageLockWaitTimePerVoxel := senderStats.getAverageLockWaitTimePerVoxel
    let totalVoxelsProcessed := senderStats.getTotalVoxelsProcessed
    let totalPacketsProcessed := senderStats.getTotalPacketsProcessed
    { senderNumber := senderNumber
      senderID := senderID
      figures :=
        { totalInboundPackets := toUInt totalPacketsProcessed
          totalInboundVoxels := toUInt totalVoxelsProcessed
          averageInboundVoxelsPerPacket := averageVoxelsPerPacket
          averageTransitTimePerPacket := toUInt averageTransitTimePerPacket
          averageProcessTimePerPacket := toUInt averageProcessTimePerPacket
          averageWaitLockTimePerPacket := toUInt averageLockWaitTimePerPacket
          averageProcessTimePerVoxel := toUInt averageProcessTimePerVoxel
          averageWaitLockTimePerVoxel := toUInt averageLockWaitTimePerVoxel } }
      :: senderBlocks averageVoxelsPerPacket senderNumber rest

/-- The body of `if (showStats)` in the handler: the page written for a server with the
arguments `_argv` and a packet processor with the statistics `stats`; `none` when the
computation of `averageVoxelsPerPacket` divides by zero. -/
def statusPage (inputs : StatusInputs) (theServer : VoxelServer) (stats : PacketProcessorStats) :
    Option StatusPage :=
  let now := inputs.usecTimestampNow
  let msecsElapsed := ((now + 2 ^ 64 - inputs._startedUSecs % 2 ^ 64) % 2 ^ 64) / USECS_PER_MSEC
  let uptime := elapsedTime msecsElapsed
  -- display voxel file load time
  let voxelsLoadTook :=
    if inputs.isInitialLoadComplete then
      let msecsElapsed := inputs.getLoadElapsedTime / USECS_PER_MSEC
      let loadTime := elapsedTime msecsElapsed
      some { time := loadTime, hoursAndMinutes := hoursAndMinutesText loadTime,
             secondsPrinted := true }
    else none
  -- display inbound packet stats
  let averageTransitTimePerPacket := stats.getAverateTransitTimePerPacket
  let averageProcessTimePerPacket := stats.getAverageProcessTimePerPacket
  let averageLockWaitTimePerPacket := stats.getAverageLockWaitTimePerPacket
  let averageProcessTimePerVoxel := stats.getAverageProcessTimePerVoxel
  let averageLockWaitTimePerVoxel := stats.getAverageLockWaitTimePerVoxel
  let totalVoxelsProcessed := stats.getTotalVoxelsProcessed
  let totalPacketsProcessed := stats.getTotalPacketsProcessed
  match averageVoxelsPerPacket totalVoxelsProcessed totalPacketsProcessed with
  | none => none
  | some averageVoxelsPerPacket =>
    some
      { uptime := { time := uptime, hoursAndMinutes := hoursAndMinutesText uptime,
                    secondsPrinted := decide (uptime.msecs > 0) }
        voxelsLoadTook := voxelsLoadTook
        configuration := theServer._argv.drop 1
        editStatistics :=
          { totalInboundPackets := toUInt totalPacketsProcessed
            totalInboundVoxels := toUInt totalVoxelsProcessed
            averageInboundVoxelsPerPacket := averageVoxelsPerPacket
            averageTransitTimePerPacket := toUInt averageTransitTimePerPacket
            averageProcessTimePerPacket := toUInt averageProcessTimePerPacket
            averageWaitLockTimePerPacket := toUInt averageLockWaitTimePerPacket
            averageProcessTimePerVoxel := toUInt averageProcessTimePerVoxel
            averageWaitLockTimePerVoxel := toUInt averageLockWaitTimePerVoxel }
        senders := senderBlocks averageVoxelsPerPacket 0 stats.getSingleSenderStats }

/-- What a call of the handler leaves: the value returned, the statistics of the packet
processor afterwards, how often `resetStats()` was called, and the page when one was
written. -/
structure HandlerResult where
  returned : Int
  stats : PacketProcessorStats
  resetStatsCalls : Nat
  page : Option StatusPage
deriving DecidableEq, Repr

/-- Embedding of `VoxelServer::civetwebRequestHandler`, for the server `theServer` and the
statistics `stats` of the object that `theServer->_voxelServerPacketProcessor` points to.  The
result is `none` where the code has no defined result: the `delete[]` of a stack address in the
`FORCE_CRASH` block, a call through `_voxelServerPacketProcessor` while it is `NULL`, and a
division by zero. -/
def VoxelServer.civetwebRequestHandler (inputs : StatusInputs) (theServer : VoxelServer)
    (stats : PacketProcessorStats) (ri : mg_request_info) : Option HandlerResult :=
  if inputs.FORCE_CRASH && (ri.uri == "/force_crash" && ri.request_method == "GET") then none
  else
    let showStats := false
    let showStats := if ri.uri == "/" && ri.request_method == "GET" then true else showStats
    let afterReset : Option (PacketProcessorStats × Nat × Bool) :=
      if ri.uri == "/resetStats" && ri.request_method == "GET" then
        match theServer._voxelServerPacketProcessor with
        | some _ => some (inputs.resetStats stats, 1, true)
        | none => none
      else some (stats, 0, showStats)
    match afterReset with
    | none => none
    | some (stats, resetStatsCalls, showStats) =>
      if showStats then
        match theServer._voxelServerPacketProcessor with
        | some _ =>
          match statusPage inputs theServer stats with
          | some page =>
            some { returned := 1, stats := stats, resetStatsCalls := resetStatsCalls,
                   page := some page }
          | none => none
        | none => none
      else
        -- have mongoose process this request from the document_root
        some { returned := 0, stats := stats, resetStatsCalls := resetStatsCalls, page := none }

/-- The block of `VoxelServer::run` that starts the status server, the first thing `run` does
with its arguments: with the option `--statusPort`, `initMongoose(atoi(statusPort))` registers
`civetwebRequestHandler` and starts the web server.  The result is the port handed to
`initMongoose`, `none` when the web server is not started.  No member of the server is
assigned: the handler can be called with the server as it is here. -/
def VoxelServer.runStatusPort (x : Externals) (s : VoxelServer) : Option Int :=
  match x.getCmdOption s._argv "--statusPort" with
  | some statusPort =>
    let statusPortNumber := atoi statusPort
    some statusPortNumber
  | none => none

/-! ## VoxelServer.cpp: what the loop of `VoxelServer::run` does over time, and its exit -/

/-- The calls made by the loop of `run` over the iterations fed by `ticks`, in order, up to the
`break`. -/
def VoxelServer.loopCalls (x : Externals) : RunState → List Tick → List Call
  | _, [] => []
  | s, t :: ts =>
    match VoxelServer.loopIteration x s t with
    | some (s1, calls) => calls ++ VoxelServer.loopCalls x s1 ts
    | none => []

/-- The times of the check-ins that the loop of `run` sends over the iterations fed by `ticks`:
for every iteration that calls `sendDomainServerCheckIn`, the value that it stored in
`lastDomainServerCheckIn`. -/
def VoxelServer.checkInTimes (x : Externals) : RunState → List Tick → List Nat
  | _, [] => []
  | s, t :: ts =>
    match VoxelServer.loopIteration x s t with
    | some (s1, calls) =>
      (if Call.sendDomainServerCheckIn ∈ calls then [s1.lastDomainServerCheckIn] else [])
        ++ VoxelServer.checkInTimes x s1 ts
    | none => []

/-- The readings of the clock over the iterations fed by `ticks` never go back and fit a
`uint64_t`: each `usecTimestampNow()` is at least the reading before it (`previous` for the
first), and each `gettimeofday` at least the `usecTimestampNow()` of its iteration. -/
def clockOrdered : Nat → List Tick → Prop
  | _, [] => True
  | previous, t :: ts =>
    previous ≤ t.usecTimestampNow ∧ t.usecTimestampNow ≤ t.gettimeofday
      ∧ t.gettimeofday < 2 ^ 64 ∧ clockOrdered t.gettimeofday ts

/-- Whether a call hands the received packet to one of the handlers of the loop: the
voxel-query path (`updateNodeWithData`), the jurisdiction sender, the edit packet processor, or
`NodeList::processNodeData`. -/
def Call.isPacketHandler : Call → Bool
  | Call.updateNodeWithData _ _ _ _ => true
  | Call.jurisdictionSenderQueueReceivedPacket _ _ _ => true
  | Call.voxelServerPacketProcessorQueueReceivedPacket _ _ _ => true
  | Call.processNodeData _ _ _ => true
  | _ => false

/-- The iteration fed by `t` either receives nothing that is dispatched, or dispatches a
`PACKET_TYPE_VOXEL_QUERY` packet. -/
def Tick.isVoxelQueryOrDropped (x : Externals) (t : Tick) : Prop :=
  (UDPSocket.receive t.recvfromResult && x.packetVersionMatch t.packetData) = true →
    t.packetData.headD 0 = x.PACKET_TYPE_VOXEL_QUERY

/-- Whether the node list has a node with the UUID whose session record has its send thread
initialized. -/
def NodeList.sendThreadInitialized (nl : NodeList) (nodeUUID : List Nat) : Bool :=
  match nl.nodeWithUUID nodeUUID with
  | some node =>
    match node._linkedData with
    | some nodeData => nodeData.isVoxelSendThreadInitalized
    | none => false
  | none => false

/-- The calls that `run` makes after the loop, on the node list and on the objects it
created. -/
inductive ShutdownCall where
  | nodeListClear
  | jurisdictionSenderTerminate
  | deleteJurisdictionSender
  | voxelServerPacketProcessorTerminate
  | deleteVoxelServerPacketProcessor
  | voxelPersistThreadTerminate
  | deleteVoxelPersistThread
  | removeHook
  | deleteJurisdiction (jurisdiction : JurisdictionMap)
deriving DecidableEq, Repr

/-- Embedding of `VoxelServer::run` after the loop: the calls made, in order, and the members
of the server when `run` returns.  The three worker pointers are deleted and not reset;
`delete _jurisdiction` does nothing for a `NULL` pointer. -/
def VoxelServer.runShutdown (s : VoxelServer) : VoxelServer × List ShutdownCall :=
  -- call NodeList::clear() so that all of our node specific objects, including our sending
  -- threads, are properly shutdown and cleaned up.
  let c0 := [ShutdownCall.nodeListClear]
  let c1 :=
    if s._jurisdictionSender.isSome then
      [ShutdownCall.jurisdictionSenderTerminate, ShutdownCall.deleteJurisdictionSender]
    else []
  let c2 :=
    if s._voxelServerPacketProcessor.isSome then
      [ShutdownCall.voxelServerPacketProcessorTerminate,
        ShutdownCall.deleteVoxelServerPacketProcessor]
    else []
  let c3 :=
    if s._voxelPersistThread.isSome then
      [ShutdownCall.voxelPersistThreadTerminate, ShutdownCall.deleteVoxelPersistThread]
    else []
  -- tell our NodeList we're done with notifications
  let c4 := [ShutdownCall.removeHook]
  let c5 :=
    match s._jurisdiction with
    | some jurisdiction => [ShutdownCall.deleteJurisdiction jurisdiction]
    | none => []
  ({ s with _jurisdiction := none }, c0 ++ c1 ++ c2 ++ c3 ++ c4 ++ c5)

/-- The return of `run`: the loop runs over the iterations fed by `ticks`; at the `break` the
part after the loop is executed.  `none` while the loop has not been left. -/
def VoxelServer.runExit (x : Externals) : RunState → List Tick →
    Option (VoxelServer × List ShutdownCall)
  | _, [] => none
  | s, t :: ts =>
    match VoxelServer.loopIteration x s t with
    | some (s1, _) => VoxelServer.runExit x s1 ts
    | none => some (VoxelServer.runShutdown s.server)

/-! ## MyAvatar.cpp: `MyAvatar::renderScreenTint` -/

/-- The calls that `MyAvatar::renderScreenTint` can make. -/
inductive ScreenTintCall where
  | renderRaveGloveStage
  | setupWorldLight
deriving DecidableEq, Repr

/-- Embedding of `MyAvatar::renderScreenTint(ScreenTintLayer layer, Camera& whichCamera)`.  The
enumeration `ScreenTintLayer` is declared in a header that is not among the sources: a layer is
the number of its enumerator, with `SCREEN_TINT_BEFORE_AVATARS` a parameter;
`isRaveGloveActive` is what `_hand.isRaveGloveActive()` returns. -/
def MyAvatar.renderScreenTint (SCREEN_TINT_BEFORE_AVATARS : Nat) (layer : Nat)
    (isRaveGloveActive : Bool) : List ScreenTintCall :=
  if layer = SCREEN_TINT_BEFORE_AVATARS then
    if isRaveGloveActive then [ScreenTintCall.renderRaveGloveStage] else []
  else if layer = SCREEN_TINT_BEFORE_AVATARS then
    if isRaveGloveActive then
      -- Restore the world lighting
      [ScreenTintCall.setupWorldLight]
    else []
  else []

/-! ## MyAvatar.cpp: `MyAvatar::applyHardCollision` -/

namespace glm

/-- The `glm::vec3` of the GLM library, with components in `K`. -/
structure vec3 (K : Type) where
  x : K
  y : K
  z : K
deriving DecidableEq, Repr

/-- The `operator-` of the GLM library on `vec3`: componentwise. -/
def vec3.sub {K : Type} [LinearOrderedField K] (a b : vec3 K) : vec3 K :=
  { x := a.x - b.x, y := a.y - b.y, z := a.z - b.z }

/-- The `operator*` of the GLM library on a `vec3` and a scalar: componentwise. -/
def vec3.scale {K : Type} [LinearOrderedField K] (a : vec3 K) (s : K) : vec3 K :=
  { x := a.x * s, y := a.y * s, z := a.z * s }

/-- The `operator/` of the GLM library on a `vec3` and a scalar: componentwise. -/
def vec3.divide {K : Type} [LinearOrderedField K] (a : vec3 K) (s : K) : vec3 K :=
  { x := a.x / s, y := a.y / s, z := a.z / s }

/-- The `glm::dot` of the GLM library on `vec3`. -/
def dot {K : Type} [LinearOrderedField K] (a b : vec3 K) : K :=
  a.x * b.x + a.y * b.y + a.z * b.z

/-- The `glm::length` of the GLM library on `vec3`: `sqrt(dot(v, v))`, with the square root a
parameter. -/
def length {K : Type} [LinearOrderedField K] (sqrt : K → K) (v : vec3 K) : K :=
  sqrt (dot v v)

/-- The `glm::clamp` of the GLM library on scalars: `min(max(x, minVal), maxVal)`. -/
def clamp {K : Type} [LinearOrderedField K] (x minVal maxVal : K) : K :=
  min (max x minVal) maxVal

end glm

/-- The members of `MyAvatar` that `applyHardCollision` reads and writes, with the `float`
values taken in a linearly ordered field `K` of exact arithmetic. -/
structure MyAvatar (K : Type) where
  _position : glm.vec3 K
  _velocity : glm.vec3 K
  _thrust : glm.vec3 K
  _elapsedTimeSinceCollision : K
deriving DecidableEq, Repr

/-- The function-local `static float HALTING_VELOCITY = 0.2f`. -/
def MyAvatar.HALTING_VELOCITY {K : Type} [LinearOrderedField K] : K :=
  2 / 10

/-- Embedding of `MyAvatar::applyHardCollision(const glm::vec3& penetration, float elasticity,
float damping)` over exact arithmetic in `K`.  The square root behind `glm::length` and the
constant `EPSILON`, which is declared in a header that is not among the sources, are
parameters. -/
def MyAvatar.applyHardCollision {K : Type} [LinearOrderedField K] (sqrt : K → K) (EPSILON : K)
    (avatar : MyAvatar K) (penetration : glm.vec3 K) (elasticity damping : K) : MyAvatar K :=
  let avatar := { avatar with _position := avatar._position.sub penetration }
  -- cancel out the velocity component in the direction of penetration
  let penetrationLength := glm.length sqrt penetration
  if penetrationLength > EPSILON then
    let avatar := { avatar with _elapsedTimeSinceCollision := 0 }
    let direction := penetration.divide penetrationLength
    let avatar := { avatar with
      _velocity := avatar._velocity.sub
        ((direction.scale (glm.dot avatar._velocity direction)).scale elasticity) }
    let avatar := { avatar with
      _velocity := avatar._velocity.scale (glm.clamp (1 - damping) 0 1) }
    if glm.length sqrt avatar._velocity < MyAvatar.HALTING_VELOCITY
        ∧ glm.length sqrt avatar._thrust = 0 then
      -- If moving really slowly after a collision, and not applying forces, stop altogether
      { avatar with _velocity := avatar._velocity.scale 0 }
    else avatar
  else avatar

/-! ## PairingHandler.cpp: `PairingHandler::sendPairRequest` -/

namespace PairingHandler

/-- The constant `PAIRING_SERVER_HOSTNAME`. -/
def PAIRING_SERVER_HOSTNAME : String := "pairing.highfidelity.io"

/-- The constant `PAIRING_SERVER_PORT`. -/
def PAIRING_SERVER_PORT : Nat := 7247

/-- What `sendPairRequest` reads from outside. -/
structure Environment where
  /-- The `int` returned by `getLocalAddress()`. -/
  getLocalAddress : Int
  /-- The `unsigned short` returned by `NodeList::getInstance()->getSocketListenPort()`. -/
  getSocketListenPort : Nat
  /-- The call `gethostbyname(name)`: the address `h_addr_list[0]` of the entry, an IPv4
  address of `h_length` 4 bytes read as `s_addr`; `NULL` is `none`. -/
  gethostbyname : String → Option Nat
  /-- The `htons` of the platform. -/
  htons : Nat → Nat

/-- The expression `v & 0xFF` on an `int` in two's complement: the low byte of `v`. -/
def lowByte (v : Int) : Int :=
  v % 256

/-- The text that the format "Find %d.%d.%d.%d:%hu" gives for the four `int` arguments
`localAddress & 0xFF`, `(localAddress >> 8) & 0xFF`, `(localAddress >> 16) & 0xFF`,
`(localAddress >> 24) & 0xFF` (the shift of a negative `int` is arithmetic) and the
`unsigned short` argument `listenPort`. -/
def pairText (localAddress : Int) (listenPort : Nat) : String :=
  "Find " ++ toString (lowByte localAddress)
    ++ "." ++ toString (lowByte (localAddress >>> (8 : Nat)))
    ++ "." ++ toString (lowByte (localAddress >>> (16 : Nat)))
    ++ "." ++ toString (lowByte (localAddress >>> (24 : Nat)))
    ++ ":" ++ toString (listenPort % 2 ^ 16)

/-- The call `sprintf(buffer, ...)` on a zero-initialised array of `size` chars: the characters
of the text and the terminating NUL are stored from offset 0.  A text that does not fit with
its NUL is written past the end of the array, which is undefined (`none`). -/
def sprintf (size : Nat) (text : String) : Option (List Char) :=
  if text.length + 1 ≤ size then
    some (text.data ++ List.replicate (size - text.length) (Char.ofNat 0))
  else none

/-- The call `nodeSocket->send(destAddress, data, byteLength)` that `sendPairRequest` makes. -/
structure SendCall where
  destAddress : sockaddr
  data : List Char
  byteLength : Nat
deriving DecidableEq, Repr

/-- Embedding of `PairingHandler::sendPairRequest()`: the call of `UDPSocket::send` it makes.
`none` is undefined behaviour: `sprintf` past the end of `char pairPacket[24]`, or the use of
the `NULL` that `gethostbyname` returns for a name it cannot resolve. -/
def sendPairRequest (e : Environment) : Option SendCall :=
  -- use the getLocalAddress helper to get this client's listening address
  let localAddress := e.getLocalAddress
  match sprintf 24 (pairText localAddress e.getSocketListenPort) with
  | none => none
  | some pairPacket =>
    -- lookup the pairing server IP by the hostname
    match e.gethostbyname PAIRING_SERVER_HOSTNAME with
    | none => none
    | some hostAddress =>
      let pairingServerSocket : sockaddr :=
        { sa_family := UDPSocket.AF_INET
          s_addr := hostAddress
          sin_port := e.htons PAIRING_SERVER_PORT }
      -- send the pair request to the pairing server
      some { destAddress := pairingServerSocket
             data := pairPacket
             byteLength := (cString pairPacket).length }

end PairingHandler

/-! ## Concrete values for evaluation -/

/-- A stand-in for `getCmdOption` of `SharedUtil.h`, used only to evaluate the definitions on
concrete command lines: the value of an option is the argument that follows the first argument
equal to its name. -/
def sampleGetCmdOption : List String → String → Option String
  | [], _ => none
  | [_], _ => none
  | a :: b :: rest, option => if a = option then some b else sampleGetCmdOption (b :: rest) option

/-- A stand-in for `cmdOptionExists` of `SharedUtil.h`, used only to evaluate the definitions
on concrete command lines: an option is present when an argument equals its name. -/
def sampleCmdOptionExists (argv : List String) (option : String) : Bool :=
  argv.contains option

/-- One choice of the constants and helpers of the missing headers, used only to evaluate the
definitions on concrete inputs: sixty intervals per second, the type bytes `q`, `j`, `S`, `O`,
`E`, `Z`, a four-byte header whose second byte is the version. -/
def sampleExternals : Externals :=
  { getCmdOption := sampleGetCmdOption
    cmdOptionExists := sampleCmdOptionExists
    INTERVALS_PER_SECOND := 60
    PACKET_TYPE_VOXEL_QUERY := 113
    PACKET_TYPE_VOXEL_JURISDICTION_REQUEST := 106
    PACKET_TYPE_SET_VOXEL := 83
    PACKET_TYPE_SET_VOXEL_DESTRUCTIVE := 79
    PACKET_TYPE_ERASE_VOXEL := 69
    PACKET_TYPE_Z_COMMAND := 90
    packetVersionMatch := fun packetData => packetData.getD 1 0 == 1
    numBytesForPacketHeader := fun _ => 4
    NUM_BYTES_RFC4122_UUID := 16
    MAX_SILENT_DOMAIN_SERVER_CHECK_INS := 5
    DOMAIN_SERVER_CHECK_IN_USECS := 1000000 }

/-- A node table with one client that has no session record yet, for evaluation. -/
def sampleNodeList : NodeList :=
  { nodes := [{ _uuid := List.replicate 16 7
                _publicSocket := { sa_family := 2, s_addr := 3232235777, sin_port := 40102 }
                _activeSocket := none
                _linkedData := none }]
    linkedDataCreateCallback := none }

/-- An iteration in which `recvfrom` timed out, for evaluation. -/
def sampleTimeoutTick : Tick :=
  { numNoReplyDomainCheckIns := 0
    usecTimestampNow := 1700000000000000
    gettimeofday := 1700000000000003
    recvfromResult := -1
    senderAddress := { sa_family := 0, s_addr := 0, sin_port := 0 }
    packetData := []
    processNodeData := fun nodes => nodes }

/-- An iteration that receives the `bytes` from the client of `sampleNodeList`, a quarter of a
second after `sampleTimeoutTick`, for evaluation. -/
def sampleTick (bytes : List Nat) : Tick :=
  { numNoReplyDomainCheckIns := 1
    usecTimestampNow := 1700000000250000
    gettimeofday := 1700000000250002
    recvfromResult := bytes.length
    senderAddress := { sa_family := 2, s_addr := 3232235777, sin_port := 40102 }
    packetData := bytes
    processNodeData := fun nodes => nodes }

/-- A set-voxel packet with the header of `sampleExternals`, for evaluation. -/
def sampleSetVoxelPacket : List Nat := [83, 1, 0, 0, 5, 0, 1, 2, 3, 4, 5, 6, 7, 8, 255, 0, 0]

/-- A jurisdiction request with the header of `sampleExternals`, for evaluation. -/
def sampleJurisdictionRequestPacket : List Nat := [106, 1, 0, 0]

/-- A set-voxel packet of another protocol version, for evaluation. -/
def sampleMismatchedPacket : List Nat := [83, 2, 0, 0, 5, 0, 1, 2, 3, 4, 5, 6, 7, 8, 255, 0, 0]

/-- A voxel query of the client with the UUID made of the byte `uuidByte`, with the header of
`sampleExternals`, for evaluation. -/
def sampleVoxelQueryPacket (uuidByte : Nat) : List Nat :=
  [113, 1, 0, 0] ++ List.replicate 16 uuidByte ++ [0, 0, 0, 0]

/-- The state of the loop of `run` after the iteration `sampleTimeoutTick`, for evaluation. -/
def sampleLoopState : RunState :=
  { server := VoxelServer.runConfigure sampleExternals
      (VoxelServer.setArguments ["voxel-server"] VoxelServer.create)
    nodeList := VoxelServer.runNodeList sampleNodeList
    lastDomainServerCheckIn := 1700000000000003 }

/-- A request environment for evaluation: a build without `FORCE_CRASH`, a server started
3723.5 seconds ago whose voxels took 61.2 seconds to load, and a `resetStats()` that clears
every counter and the map of the senders. -/
def sampleStatusInputs : StatusInputs :=
  { FORCE_CRASH := false
    usecTimestampNow := 1700003723500000
    _startedUSecs := 1700000000000000
    isInitialLoadComplete := true
    getLoadElapsedTime := 61200000
    resetStats := fun _ => ⟨0, 0, 0, 0, 0, 0, 0, []⟩ }

/-- Statistics of a packet processor with two senders, for evaluation: the first sent 1 packet
of 10 voxels, the second 2 packets of 1 voxel each. -/
def sampleStats : PacketProcessorStats :=
  { getAverateTransitTimePerPacket := 700
    getAverageProcessTimePerPacket := 40
    getAverageLockWaitTimePerPacket := 5
    getAverageProcessTimePerVoxel := 10
    getAverageLockWaitTimePerVoxel := 1
    getTotalVoxelsProcessed := 12
    getTotalPacketsProcessed := 3
    getSingleSenderStats :=
      [(List.replicate 16 7, ⟨900, 60, 9, 6, 0, 10, 1⟩),
       (List.replicate 16 9, ⟨600, 30, 3, 30, 3, 2, 2⟩)] }

/-- The `htons` of a little-endian platform, for evaluation: the two bytes swapped. -/
def sampleHtons (hostshort : Nat) : Nat :=
  (hostshort % 256) * 256 + hostshort / 256 % 256

/-- An environment of `sendPairRequest` for evaluation: the local address and the listen port
given, a resolver that knows the pairing server as 127.0.0.1, a little-endian platform. -/
def samplePairingEnvironment (localAddress : Int) (listenPort : Nat) :
    PairingHandler.Environment :=
  { getLocalAddress := localAddress
    getSocketListenPort := listenPort
    gethostbyname := fun name => if name = "pairing.highfidelity.io" then some 16777343 else none
    htons := sampleHtons }

/-- A square root on the rationals that is exact at 0, at 16 and at 25/4, the squares that the
evaluation below meets. -/
def sampleSqrt (q : ℚ) : ℚ :=
  if q = 16 then 4 else if q = 25 / 4 then 5 / 2 else 0

/-- An avatar moving at (3, -2, 4) from the position (10, 1, 10) without thrust, for
evaluation. -/
def sampleAvatar (K : Type) [LinearOrderedField K] : MyAvatar K :=
  { _position := ⟨10, 1, 10⟩
    _velocity := ⟨3, -2, 4⟩
    _thrust := ⟨0, 0, 0⟩
    _elapsedTimeSinceCollision := 7 }

/-- The server as `run` has it when it calls `initMongoose`, for a process started with the
option `--statusPort 8080`: the arguments are set, the members have the values of the
constructor. -/
def sampleStatusPortServer : VoxelServer :=
  VoxelServer.setArguments ["voxel-server", "--statusPort", "8080"] VoxelServer.create

/-- A stand-in for `QString(const char*)` of Qt, used only to evaluate the definitions: the
characters of a UTF-8 text with sequences of one or two bytes; any other byte gives U+FFFD. -/
def sampleFromUtf8 : List Char → List Char
  | [] => []
  | [b] => if b.toNat < 128 then [b] else [Char.ofNat 65533]
  | b :: b1 :: rest =>
    if b.toNat < 128 then b :: sampleFromUtf8 (b1 :: rest)
    else if 192 ≤ b.toNat ∧ b.toNat < 224 ∧ 128 ≤ b1.toNat ∧ b1.toNat < 192 then
      Char.ofNat ((b.toNat - 192) * 64 + (b1.toNat - 128)) :: sampleFromUtf8 rest
    else Char.ofNat 65533 :: sampleFromUtf8 (b1 :: rest)

/-- A stand-in for `QString::toLocal8Bit()` of Qt on a UTF-8 locale, used only to evaluate the
definitions: the bytes of the UTF-8 form of every character. -/
def sampleToUtf8 : List Char → List Char
  | [] => []
  | c :: rest =>
    if c.toNat < 128 then c :: sampleToUtf8 rest
    else if c.toNat < 2048 then
      Char.ofNat (192 + c.toNat / 64) :: Char.ofNat (128 + c.toNat % 64) :: sampleToUtf8 rest
    else if c.toNat < 65536 then
      Char.ofNat (224 + c.toNat / 4096) :: Char.ofNat (128 + c.toNat / 64 % 64)
        :: Char.ofNat (128 + c.toNat % 64) :: sampleToUtf8 rest
    else
      Char.ofNat (240 + c.toNat / 262144) :: Char.ofNat (128 + c.toNat / 4096 % 64)
        :: Char.ofNat (128 + c.toNat / 64 % 64) :: Char.ofNat (128 + c.toNat % 64)
        :: sampleToUtf8 rest

/-- A stand-in for `QString::length()` of Qt, used only to evaluate the definitions: one UTF-16
code unit for a character below U+10000, two for any other. -/
def sampleUtf16Length : List Char → Nat
  | [] => 0
  | c :: rest => (if c.toNat < 65536 then 1 else 2) + sampleUtf16Length rest

/-- The functions of `QString` on a UTF-8 locale, for evaluation. -/
def sampleQStringFunctions : QStringFunctions :=
  { fromCString := sampleFromUtf8
    length := sampleUtf16Length
    toLocal8Bit := sampleToUtf8 }

/-- A payload whose second field has a character outside ASCII, for evaluation: the bytes of
the UTF-8 text "--voxelsPersistFilename café.svo" and a NUL. -/
def sampleAccentedPayload : List Char :=
  "--voxelsPersistFilename caf".toList ++ [Char.ofNat 195, Char.ofNat 169] ++ ".svo".toList
    ++ [Char.ofNat 0]

/-! ## Theorems -/

namespace UDPSocket

theorem packSocket_bytes (packStore : Nat → Nat) (a p : Nat) :
    (packSocket packStore a p).1 0 = a / 16777216 % 256 ∧
    (packSocket packStore a p).1 1 = a / 65536 % 256 ∧
    (packSocket packStore a p).1 2 = a / 256 % 256 ∧
    (packSocket packStore a p).1 3 = a % 256 ∧
    (packSocket packStore a p).1 4 = p / 256 % 256 ∧
    (packSocket packStore a p).1 5 = p % 256 := by
  simp [packSocket, storeByte, Nat.shiftRight_eq_div_pow]

/-- C6: `unpackSocket` applied to the bytes written by `packSocket(store, a, p)` gives a socket
of family `AF_INET` with `sin_addr.s_addr = a` and `sin_port = p`, for every 32-bit address `a`
and 16-bit port `p`, whatever the store and the destination held before; both functions
return 6. -/
theorem unpackSocket_packSocket (packStore : Nat → Nat) (dest : sockaddr) (a p : Nat)
    (ha : a < 2 ^ 32) (hp : p < 2 ^ 16) :
    (unpackSocket (packSocket packStore a p).1 dest).1
        = { sa_family := AF_INET, s_addr := a, sin_port := p } ∧
    (packSocket packStore a p).2 = 6 ∧
    (unpackSocket (packSocket packStore a p).1 dest).2 = 6 := by
  obtain ⟨h0, h1, h2, h3, h4, h5⟩ := packSocket_bytes packStore a p
  refine ⟨?_, rfl, rfl⟩
  simp only [unpackSocket, h0, h1, h2, h3, h4, h5, Nat.shiftLeft_eq]
  norm_num at ha hp ⊢
  constructor <;> omega

theorem unpackSocket_packSocket_witness :
    (unpackSocket (packSocket (fun _ => 0) 3232235777 40102).1 ⟨0, 0, 0⟩).1
        = { sa_family := AF_INET, s_addr := 3232235777, sin_port := 40102 } ∧
    (packSocket (fun _ => 0) 3232235777 40102).2 = 6 ∧
    (unpackSocket (packSocket (fun _ => 0) 3232235777 40102).1 ⟨0, 0, 0⟩).2 = 6 :=
  unpackSocket_packSocket (fun _ => 0) ⟨0, 0, 0⟩ 3232235777 40102 (by decide) (by decide)

theorem socketMatch_iff (first second : Option sockaddr) :
    socketMatch first second = true ↔
      ∃ f s, first = some f ∧ second = some s ∧ f.sa_family = AF_INET ∧
        s.sa_family = AF_INET ∧ f.s_addr = s.s_addr ∧ f.sin_port = s.sin_port := by
  cases first <;> cases second <;> simp [socketMatch]
  rename_i f s
  constructor
  · rintro ⟨h1, h2, h3, h4⟩
    exact ⟨h2, h1 ▸ h2, h3, h4⟩
  · rintro ⟨h1, h2, h3, h4⟩
    exact ⟨h1.trans h2.symm, h1, h3, h4⟩

/-- C7: `socketMatch` returns true exactly when both pointers are non-null, both families are
`AF_INET`, and address and port agree; it is symmetric, false as soon as one argument is `NULL`,
and a socket of another family does not match itself. -/
theorem socketMatch_spec :
    (∀ first second : Option sockaddr,
      socketMatch first second = true ↔
        ∃ f s, first = some f ∧ second = some s ∧ f.sa_family = AF_INET ∧
          s.sa_family = AF_INET ∧ f.s_addr = s.s_addr ∧ f.sin_port = s.sin_port) ∧
    (∀ first second : Option sockaddr, socketMatch first second = socketMatch second first) ∧
    (∀ other : Option sockaddr,
      socketMatch none other = false ∧ socketMatch other none = false) ∧
    (∀ a : sockaddr, a.sa_family ≠ AF_INET → socketMatch (some a) (some a) = false) := by
  refine ⟨socketMatch_iff, ?_, ?_, ?_⟩
  · intro first second
    rw [Bool.eq_iff_iff, socketMatch_iff, socketMatch_iff]
    constructor
    · rintro ⟨f, s, h1, h2, h3, h4, h5, h6⟩
      exact ⟨s, f, h2, h1, h4, h3, h5.symm, h6.symm⟩
    · rintro ⟨f, s, h1, h2, h3, h4, h5, h6⟩
      exact ⟨s, f, h2, h1, h4, h3, h5.symm, h6.symm⟩
  · intro other
    cases other <;> simp [socketMatch]
  · intro a ha
    simp [socketMatch, ha]

end UDPSocket

/-! ### The option handling of `VoxelServer::run`

Each block of the option handling assigns a few members and leaves the others as they are. -/

namespace VoxelServer

@[simp] theorem runJurisdiction_argv (x : Externals) (s : VoxelServer) :
    (runJurisdiction x s)._argv = s._argv := by
  unfold runJurisdiction
  dsimp only
  repeat' split
  all_goals rfl

@[simp] theorem runJurisdiction_packetsPerClientPerInterval (x : Externals) (s : VoxelServer) :
    (runJurisdiction x s)._packetsPerClientPerInterval = s._packetsPerClientPerInterval := by
  unfold runJurisdiction
  dsimp only
  repeat' split
  all_goals rfl

@[simp] theorem runJurisdiction_wantVoxelPersist (x : Externals) (s : VoxelServer) :
    (runJurisdiction x s)._wantVoxelPersist = s._wantVoxelPersist := by
  unfold runJurisdiction
  dsimp only
  repeat' split
  all_goals rfl

@[simp] theorem runJurisdiction_sendEnvironments (x : Externals) (s : VoxelServer) :
    (runJurisdiction x s)._sendEnvironments = s._sendEnvironments := by
  unfold runJurisdiction
  dsimp only
  repeat' split
  all_goals rfl

@[simp] theorem runJurisdiction_voxelPersistThread (x : Externals) (s : VoxelServer) :
    (runJurisdiction x s)._voxelPersistThread = s._voxelPersistThread := by
  unfold runJurisdiction
  dsimp only
  repeat' split
  all_goals rfl

@[simp] theorem runEnvironments_argv (x : Externals) (s : VoxelServer) :
    (runEnvironments x s)._argv = s._argv := by
  unfold runEnvironments
  dsimp only
  repeat' split
  all_goals rfl

@[simp] theorem runEnvironments_packetsPerClientPerInterval (x : Externals) (s : VoxelServer) :
    (runEnvironments x s)._packetsPerClientPerInterval = s._packetsPerClientPerInterval := by
  unfold runEnvironments
  dsimp only
  repeat' split
  all_goals rfl

@[simp] theorem runEnvironments_wantVoxelPersist (x : Externals) (s : VoxelServer) :
    (runEnvironments x s)._wantVoxelPersist = s._wantVoxelPersist := by
  unfold runEnvironments
  dsimp only
  repeat' split
  all_goals rfl

@[simp] theorem runEnvironments_jurisdiction (x : Externals) (s : VoxelServer) :
    (runEnvironments x s)._jurisdiction = s._jurisdiction := by
  unfold runEnvironments
  dsimp only
  repeat' split
  all_goals rfl

@[simp] theorem runEnvironments_voxelPersistThread (x : Externals) (s : VoxelServer) :
    (runEnvironments x s)._voxelPersistThread = s._voxelPersistThread := by
  unfold runEnvironments
  dsimp only
  repeat' split
  all_goals rfl

@[simp] theorem runDebugSwitches_argv (x : Externals) (s : VoxelServer) :
    (runDebugSwitches x s)._argv = s._argv := rfl

@[simp] theorem runDebugSwitches_packetsPerClientPerInterval (x : Externals) (s : VoxelServer) :
    (runDebugSwitches x s)._packetsPerClientPerInterval = s._packetsPerClientPerInterval := rfl

@[simp] theorem runDebugSwitches_wantVoxelPersist (x : Externals) (s : VoxelServer) :
    (runDebugSwitches x s)._wantVoxelPersist = s._wantVoxelPersist := rfl

@[simp] theorem runDebugSwitches_sendEnvironments (x : Externals) (s : VoxelServer) :
    (runDebugSwitches x s)._sendEnvironments = s._sendEnvironments := rfl

@[simp] theorem runDebugSwitches_jurisdiction (x : Externals) (s : VoxelServer) :
    (runDebugSwitches x s)._jurisdiction = s._jurisdiction := rfl

@[simp] theorem runDebugSwitches_voxelPersistThread (x : Externals) (s : VoxelServer) :
    (runDebugSwitches x s)._voxelPersistThread = s._voxelPersistThread := rfl

@[simp] theorem runVoxelPersist_argv (x : Externals) (s : VoxelServer) :
    (runVoxelPersist x s)._argv = s._argv := by
  unfold runVoxelPersist
  dsimp only
  repeat' split
  all_goals rfl

@[simp] theorem runVoxelPersist_packetsPerClientPerInterval (x : Externals) (s : VoxelServer) :
    (runVoxelPersist x s)._packetsPerClientPerInterval = s._packetsPerClientPerInterval := by
  unfold runVoxelPersist
  dsimp only
  repeat' split
  all_goals rfl

@[simp] theorem runVoxelPersist_sendEnvironments (x : Externals) (s : VoxelServer) :
    (runVoxelPersist x s)._sendEnvironments = s._sendEnvironments := by
  unfold runVoxelPersist
  dsimp only
  repeat' split
  all_goals rfl

@[simp] theorem runVoxelPersist_jurisdiction (x : Externals) (s : VoxelServer) :
    (runVoxelPersist x s)._jurisdiction = s._jurisdiction := by
  unfold runVoxelPersist
  dsimp only
  repeat' split
  all_goals rfl

@[simp] theorem runPacketsPerSecond_argv (x : Externals) (s : VoxelServer) :
    (runPacketsPerSecond x s)._argv = s._argv := by
  unfold runPacketsPerSecond
  dsimp only
  repeat' split
  all_goals rfl

@[simp] theorem runPacketsPerSecond_wantVoxelPersist (x : Externals) (s : VoxelServer) :
    (runPacketsPerSecond x s)._wantVoxelPersist = s._wantVoxelPersist := by
  unfold runPacketsPerSecond
  dsimp only
  repeat' split
  all_goals rfl

@[simp] theorem runPacketsPerSecond_sendEnvironments (x : Externals) (s : VoxelServer) :
    (runPacketsPerSecond x s)._sendEnvironments = s._sendEnvironments := by
  unfold runPacketsPerSecond
  dsimp only
  repeat' split
  all_goals rfl

@[simp] theorem runPacketsPerSecond_jurisdiction (x : Externals) (s : VoxelServer) :
    (runPacketsPerSecond x s)._jurisdiction = s._jurisdiction := by
  unfold runPacketsPerSecond
  dsimp only
  repeat' split
  all_goals rfl

@[simp] theorem runPacketsPerSecond_voxelPersistThread (x : Externals) (s : VoxelServer) :
    (runPacketsPerSecond x s)._voxelPersistThread = s._voxelPersistThread := by
  unfold runPacketsPerSecond
  dsimp only
  repeat' split
  all_goals rfl

theorem runConfigure_eq (x : Externals) (s : VoxelServer) :
    runConfigure x s = runWorkers (runPacketsPerSecond x (runVoxelPersist x (runDebugSwitches x
      (runEnvironments x (runJurisdiction x s))))) := rfl

theorem runConfigure_packetsPerClientPerInterval (x : Externals) (s : VoxelServer) :
    (runConfigure x s)._packetsPerClientPerInterval =
      match x.getCmdOption s._argv "--packetsPerSecond" with
      | some packetsPerSecond =>
        if (atoi packetsPerSecond).tdiv x.INTERVALS_PER_SECOND < 1 then 1
        else (atoi packetsPerSecond).tdiv x.INTERVALS_PER_SECOND
      | none => s._packetsPerClientPerInterval := by
  rw [runConfigure_eq]
  show (runPacketsPerSecond x _)._packetsPerClientPerInterval = _
  unfold runPacketsPerSecond
  simp only [runVoxelPersist_argv, runDebugSwitches_argv, runEnvironments_argv,
    runJurisdiction_argv]
  cases x.getCmdOption s._argv "--packetsPerSecond" with
  | none => simp
  | some v =>
    dsimp only
    split <;> rfl

theorem runConfigure_jurisdiction (x : Externals) (s : VoxelServer) :
    (runConfigure x s)._jurisdiction = (runJurisdiction x s)._jurisdiction := by
  rw [runConfigure_eq]
  show (runPacketsPerSecond x _)._jurisdiction = _
  simp

theorem runConfigure_jurisdictionSender (x : Externals) (s : VoxelServer) :
    (runConfigure x s)._jurisdictionSender
      = some (JurisdictionSender.mk (runConfigure x s)._jurisdiction) := rfl

theorem runConfigure_voxelServerPacketProcessor (x : Externals) (s : VoxelServer) :
    (runConfigure x s)._voxelServerPacketProcessor = some (VoxelServerPacketProcessor.mk true) :=
  rfl

theorem runConfigure_sendEnvironments (x : Externals) (s : VoxelServer) :
    (runConfigure x s)._sendEnvironments
      = (x.cmdOptionExists s._argv "--sendEnvironments" && s._sendEnvironments) := by
  rw [runConfigure_eq]
  show (runPacketsPerSecond x _)._sendEnvironments = _
  simp only [runPacketsPerSecond_sendEnvironments, runVoxelPersist_sendEnvironments,
    runDebugSwitches_sendEnvironments]
  unfold runEnvironments
  simp only [runJurisdiction_argv]
  cases x.cmdOptionExists s._argv "--sendEnvironments" <;> simp

/-- C5: the budget `_packetsPerClientPerInterval` after the option handling of `run`, for a
positive `INTERVALS_PER_SECOND`: when `--packetsPerSecond` has a value that `atoi` reads as the
`int` `n`, it is the truncated quotient `n / INTERVALS_PER_SECOND` when that is at least 1 and 1
otherwise (so 1 for every `n ≤ 0`); when the option is absent it is the default 10 of the
constructor; in every case it is at least 1. -/
theorem run_packetsPerClientPerInterval (x : Externals) (argv : List String)
    (hK : 0 < x.INTERVALS_PER_SECOND) :
    (∀ packetsPerSecond n, x.getCmdOption argv "--packetsPerSecond" = some packetsPerSecond →
      atoi packetsPerSecond = n → fitsInt n →
      (runConfigure x (setArguments argv create))._packetsPerClientPerInterval
          = (if 1 ≤ n.tdiv x.INTERVALS_PER_SECOND then n.tdiv x.INTERVALS_PER_SECOND else 1) ∧
      (n ≤ 0 → (runConfigure x (setArguments argv create))._packetsPerClientPerInterval = 1)) ∧
    (x.getCmdOption argv "--packetsPerSecond" = none →
      (runConfigure x (setArguments argv create))._packetsPerClientPerInterval = 10) ∧
    1 ≤ (runConfigure x (setArguments argv create))._packetsPerClientPerInterval := by
  have hmain := runConfigure_packetsPerClientPerInterval x (setArguments argv create)
  have hargv : (setArguments argv create)._argv = argv := rfl
  rw [hargv] at hmain
  refine ⟨?_, ?_, ?_⟩
  · intro v n hv hn _
    rw [hmain, hv]
    dsimp only
    rw [hn]
    refine ⟨?_, ?_⟩
    · split_ifs <;> first | rfl | omega
    · intro hn0
      have hq : n.tdiv x.INTERVALS_PER_SECOND ≤ 0 := by
        have h0 : 0 ≤ (-n).tdiv x.INTERVALS_PER_SECOND :=
          Int.tdiv_nonneg (by omega) (le_of_lt hK)
        rw [Int.neg_tdiv] at h0
        omega
      rw [if_pos (by omega)]
  · intro hnone
    rw [hmain, hnone]
    rfl
  · rw [hmain]
    split
    · split_ifs <;> omega
    · show (1 : Int) ≤ 10
      decide


theorem run_packetsPerClientPerInterval_witness :
    (0 < sampleExternals.INTERVALS_PER_SECOND) ∧
    atoi "1200" = 1200 ∧ atoi "-90" = -90 ∧ atoi "fast" = 0 ∧
    (runConfigure sampleExternals (setArguments ["voxel-server", "--packetsPerSecond", "1200"]
      create))._packetsPerClientPerInterval = 20 ∧
    (runConfigure sampleExternals (setArguments ["voxel-server", "--packetsPerSecond", "fast"]
      create))._packetsPerClientPerInterval = 1 ∧
    (runConfigure sampleExternals (setArguments ["voxel-server"]
      create))._packetsPerClientPerInterval = 10 :=
  ⟨by decide, by decide, by decide, by decide,
    ((run_packetsPerClientPerInterval sampleExternals
      ["voxel-server", "--packetsPerSecond", "1200"] (by decide)).1 "1200" 1200
      (by decide) (by decide) (by decide)).1,
    ((run_packetsPerClientPerInterval sampleExternals
      ["voxel-server", "--packetsPerSecond", "fast"] (by decide)).1 "fast" 0
      (by decide) (by decide) (by decide)).2 (by decide),
    (run_packetsPerClientPerInterval sampleExternals ["voxel-server"] (by decide)).2.1
      (by decide)⟩

/-- C8: the jurisdiction source after the option handling of `run`: with a value for
`--jurisdictionFile` the map is made from that file, whatever `--jurisdictionRoot` and
`--jurisdictionEndNodes` are; without it and with a value for at least one of the two others the
map is made from the pair (root, end nodes); with none of the three there is no map and the
jurisdiction sender is created with a null jurisdiction.  In every case the sender is created
with the map that was selected. -/
theorem run_jurisdiction_source (x : Externals) (argv : List String) :
    (∀ jurisdictionFile, x.getCmdOption argv "--jurisdictionFile" = some jurisdictionFile →
      (runConfigure x (setArguments argv create))._jurisdiction
        = some (JurisdictionMap.fromFile jurisdictionFile)) ∧
    (x.getCmdOption argv "--jurisdictionFile" = none →
      (x.getCmdOption argv "--jurisdictionRoot" ≠ none
        ∨ x.getCmdOption argv "--jurisdictionEndNodes" ≠ none) →
      (runConfigure x (setArguments argv create))._jurisdiction
        = some (JurisdictionMap.fromRootAndEndNodes (x.getCmdOption argv "--jurisdictionRoot")
            (x.getCmdOption argv "--jurisdictionEndNodes"))) ∧
    (x.getCmdOption argv "--jurisdictionFile" = none →
      x.getCmdOption argv "--jurisdictionRoot" = none →
      x.getCmdOption argv "--jurisdictionEndNodes" = none →
      (runConfigure x (setArguments argv create))._jurisdiction = none ∧
      (runConfigure x (setArguments argv create))._jurisdictionSender
        = some (JurisdictionSender.mk none)) ∧
    (runConfigure x (setArguments argv create))._jurisdictionSender
      = some (JurisdictionSender.mk (runConfigure x (setArguments argv create))._jurisdiction) := by
  have hj : (runConfigure x (setArguments argv create))._jurisdiction
      = (runJurisdiction x (setArguments argv create))._jurisdiction :=
    runConfigure_jurisdiction x _
  have hargv : (setArguments argv create)._argv = argv := rfl
  refine ⟨?_, ?_, ?_, runConfigure_jurisdictionSender x _⟩
  · intro f hf
    rw [hj]
    unfold runJurisdiction
    rw [hargv, hf]
  · intro hf hre
    rw [hj]
    unfold runJurisdiction
    rw [hargv, hf]
    dsimp only
    have hcond : ((x.getCmdOption argv "--jurisdictionRoot").isSome
        || (x.getCmdOption argv "--jurisdictionEndNodes").isSome) = true := by
      rcases hre with h | h
      · simp [Option.isSome_iff_ne_none.mpr h]
      · simp [Option.isSome_iff_ne_none.mpr h]
    rw [if_pos hcond]
  · intro hf hr he
    have hnone : (runConfigure x (setArguments argv create))._jurisdiction = none := by
      rw [hj]
      unfold runJurisdiction
      rw [hargv, hf]
      dsimp only
      rw [hr, he]
      rfl
    refine ⟨hnone, ?_⟩
    rw [runConfigure_jurisdictionSender, hnone]

theorem run_jurisdiction_source_witness :
    (runConfigure sampleExternals (setArguments
        ["voxel-server", "--jurisdictionRoot", "00", "--jurisdictionFile", "jurisdiction.ini"]
        create))._jurisdiction = some (JurisdictionMap.fromFile "jurisdiction.ini") ∧
    (runConfigure sampleExternals (setArguments
        ["voxel-server", "--jurisdictionEndNodes", "0001,0002"] create))._jurisdiction
      = some (JurisdictionMap.fromRootAndEndNodes none (some "0001,0002")) ∧
    ((runConfigure sampleExternals (setArguments ["voxel-server"] create))._jurisdiction = none ∧
      (runConfigure sampleExternals (setArguments ["voxel-server"] create))._jurisdictionSender
        = some (JurisdictionSender.mk none)) :=
  ⟨(run_jurisdiction_source sampleExternals
      ["voxel-server", "--jurisdictionRoot", "00", "--jurisdictionFile", "jurisdiction.ini"]).1
      "jurisdiction.ini" (by decide),
    (run_jurisdiction_source sampleExternals
      ["voxel-server", "--jurisdictionEndNodes", "0001,0002"]).2.1 (by decide)
      (Or.inr (by decide)),
    (run_jurisdiction_source sampleExternals ["voxel-server"]).2.2.1
      (by decide) (by decide) (by decide)⟩

/-- C10: the constructor sets `_sendEnvironments` to true, but after the option handling of
`run` the member equals the presence of `--sendEnvironments`: on a command line without any
environment-related option it is false, and it is true only when the option is given. -/
theorem run_sendEnvironments (x : Externals) (argv : List String) :
    create._sendEnvironments = true ∧
    (runConfigure x (setArguments argv create))._sendEnvironments
      = x.cmdOptionExists argv "--sendEnvironments" ∧
    (runConfigure sampleExternals (setArguments ["voxel-server"] create))._sendEnvironments
      = false ∧
    (runConfigure sampleExternals (setArguments ["voxel-server", "--sendEnvironments"]
      create))._sendEnvironments = true := by
  refine ⟨rfl, ?_, by decide, by decide⟩
  rw [runConfigure_sendEnvironments]
  show (x.cmdOptionExists argv "--sendEnvironments" && true) = _
  simp

end VoxelServer

/-! ### The receive loop of `VoxelServer::run` -/

namespace VoxelServer

theorem checkIn_frame (x : Externals) (s : RunState) (t : Tick) :
    (checkIn x s t).1.server = s.server ∧ (checkIn x s t).1.nodeList = s.nodeList := by
  unfold checkIn
  split <;> exact ⟨rfl, rfl⟩

theorem checkIn_calls (x : Externals) (s : RunState) (t : Tick) :
    (checkIn x s t).2 = [] ∨ (checkIn x s t).2 = [Call.sendDomainServerCheckIn] := by
  unfold checkIn
  split
  · exact Or.inr rfl
  · exact Or.inl rfl

theorem handleVoxelQuery_frame (s : RunState) (node : Node) (a : sockaddr) (d : List Nat)
    (n : Int) :
    (handleVoxelQuery s node a d n).1.server = s.server ∧
    (handleVoxelQuery s node a d n).1.nodeList.linkedDataCreateCallback
      = s.nodeList.linkedDataCreateCallback := ⟨rfl, rfl⟩

theorem dispatch_frame (x : Externals) (s : RunState) (t : Tick) :
    (dispatch x s t).1.server = s.server ∧
    (dispatch x s t).1.nodeList.linkedDataCreateCallback
      = s.nodeList.linkedDataCreateCallback := by
  unfold dispatch
  dsimp only
  repeat' split
  all_goals exact ⟨rfl, rfl⟩

theorem loopIteration_frame (x : Externals) (s s1 : RunState) (t : Tick) (calls : List Call)
    (h : loopIteration x s t = some (s1, calls)) :
    s1.server = s.server ∧
    s1.nodeList.linkedDataCreateCallback = s.nodeList.linkedDataCreateCallback := by
  unfold loopIteration at h
  split at h
  · exact absurd h (by simp)
  · have hc := checkIn_frame x s t
    have hd := dispatch_frame x (checkIn x s t).1 t
    dsimp only at h
    split at h
    · simp only [Option.some.injEq, Prod.mk.injEq] at h
      rw [← h.1, hd.1, hd.2, hc.1, hc.2]
      exact ⟨rfl, rfl⟩
    · simp only [Option.some.injEq, Prod.mk.injEq] at h
      rw [← h.1, hc.1, hc.2]
      exact ⟨rfl, rfl⟩

theorem loopState_frame (x : Externals) (ticks : List Tick) :
    ∀ s s1 : RunState, loopState x s ticks = some s1 →
      s1.server = s.server ∧
      s1.nodeList.linkedDataCreateCallback = s.nodeList.linkedDataCreateCallback := by
  induction ticks with
  | nil =>
    intro s s1 h
    simp only [loopState, Option.some.injEq] at h
    subst h
    exact ⟨rfl, rfl⟩
  | cons t ts ih =>
    intro s s1 h
    unfold loopState at h
    split at h
    · rename_i s2 calls heq
      have h1 := loopIteration_frame x s s2 t calls heq
      have h2 := ih s2 s1 h
      exact ⟨h2.1.trans h1.1, h2.2.trans h1.2⟩
    · exact absurd h (by simp)

/-- Every state of the receive loop reached from the entry of `run` has the two queued workers
and the `linkedDataCreateCallback` that `run` set up before the loop. -/
theorem loopState_workers (x : Externals) (argv : List String) (nl : NodeList)
    (ticks : List Tick) (s : RunState)
    (h : loopState x (loopEntry x argv nl) ticks = some s) :
    s.server._voxelServerPacketProcessor = some (VoxelServerPacketProcessor.mk true) ∧
    s.server._jurisdictionSender.isSome = true ∧
    s.nodeList.linkedDataCreateCallback = some attachVoxelNodeDataToNode := by
  obtain ⟨h1, h2⟩ := loopState_frame x ticks _ _ h
  rw [h1, h2]
  exact ⟨rfl, rfl, rfl⟩

theorem loopIteration_received (x : Externals) (s : RunState) (t : Tick)
    (hlive : t.numNoReplyDomainCheckIns < x.MAX_SILENT_DOMAIN_SERVER_CHECK_INS)
    (hrecv : UDPSocket.receive t.recvfromResult = true)
    (hversion : x.packetVersionMatch t.packetData = true) :
    loopIteration x s t = some ((dispatch x (checkIn x s t).1 t).1,
      (checkIn x s t).2 ++ [Call.possiblyPingInactiveNodes]
        ++ (dispatch x (checkIn x s t).1 t).2) := by
  unfold loopIteration
  rw [if_neg (by omega)]
  simp [hrecv, hversion]

theorem loopIteration_dropped (x : Externals) (s : RunState) (t : Tick)
    (hlive : t.numNoReplyDomainCheckIns < x.MAX_SILENT_DOMAIN_SERVER_CHECK_INS)
    (hdrop : (UDPSocket.receive t.recvfromResult && x.packetVersionMatch t.packetData) = false) :
    loopIteration x s t
      = some ((checkIn x s t).1, (checkIn x s t).2 ++ [Call.possiblyPingInactiveNodes]) := by
  unfold loopIteration
  rw [if_neg (by omega)]
  simp [hdrop]

/-- C1: in every iteration of the receive loop of `run` that receives a version-matching packet
whose type byte is `PACKET_TYPE_SET_VOXEL`, `PACKET_TYPE_SET_VOXEL_DESTRUCTIVE`,
`PACKET_TYPE_ERASE_VOXEL` or `PACKET_TYPE_Z_COMMAND` (the six packet types being distinct), the
calls made are the check-in block, the ping of inactive nodes, and one `queueReceivedPacket` on
the edit packet processor with the sender address, the buffer and the length of the receive;
nothing is queued to the jurisdiction sender, the voxel-query path and `processNodeData` are not
taken, and the server and the node list are as they were. -/
theorem run_queues_edit_packet (x : Externals) (argv : List String) (nl : NodeList)
    (ticks : List Tick) (s : RunState) (t : Tick)
    (hs : loopState x (loopEntry x argv nl) ticks = some s)
    (hlive : t.numNoReplyDomainCheckIns < x.MAX_SILENT_DOMAIN_SERVER_CHECK_INS)
    (hrecv : UDPSocket.receive t.recvfromResult = true)
    (hversion : x.packetVersionMatch t.packetData = true)
    (hdistinct : x.distinctPacketTypes)
    (htype : t.packetData.headD 0 = x.PACKET_TYPE_SET_VOXEL
      ∨ t.packetData.headD 0 = x.PACKET_TYPE_SET_VOXEL_DESTRUCTIVE
      ∨ t.packetData.headD 0 = x.PACKET_TYPE_ERASE_VOXEL
      ∨ t.packetData.headD 0 = x.PACKET_TYPE_Z_COMMAND) :
    ∃ s1 : RunState,
      loopIteration x s t = some (s1, (checkIn x s t).2 ++ [Call.possiblyPingInactiveNodes,
        Call.voxelServerPacketProcessorQueueReceivedPacket t.senderAddress t.packetData
          t.recvfromResult]) ∧
      s1 = (checkIn x s t).1 ∧ s1.server = s.server ∧ s1.nodeList = s.nodeList := by
  obtain ⟨hproc, -, -⟩ := loopState_workers x argv nl ticks s hs
  have hc := checkIn_frame x s t
  refine ⟨(checkIn x s t).1, ?_, rfl, hc.1, hc.2⟩
  rw [loopIteration_received x s t hlive hrecv hversion]
  have hd : dispatch x (checkIn x s t).1 t = ((checkIn x s t).1,
      [Call.voxelServerPacketProcessorQueueReceivedPacket t.senderAddress t.packetData
        t.recvfromResult]) := by
    unfold Externals.distinctPacketTypes at hdistinct
    simp only [List.nodup_cons, List.mem_cons, List.mem_singleton, not_or, List.not_mem_nil,
      not_false_eq_true, List.nodup_nil, and_true] at hdistinct
    obtain ⟨⟨-, hq1, hq2, hq3, hq4⟩, ⟨hj1, hj2, hj3, hj4⟩, -⟩ := hdistinct
    unfold dispatch
    dsimp only
    rw [hc.1, hproc]
    rcases htype with h | h | h | h <;> rw [h]
    · rw [if_neg (Ne.symm hq1), if_neg (Ne.symm hj1)]
      simp
    · rw [if_neg (Ne.symm hq2), if_neg (Ne.symm hj2)]
      simp
    · rw [if_neg (Ne.symm hq3), if_neg (Ne.symm hj3)]
      simp
    · rw [if_neg (Ne.symm hq4), if_neg (Ne.symm hj4)]
      simp
  rw [hd]
  simp

/-- C2: in every iteration of the receive loop of `run` that receives a version-matching packet
whose type byte is `PACKET_TYPE_VOXEL_JURISDICTION_REQUEST` (the six packet types being
distinct), the calls made are the check-in block, the ping of inactive nodes, and one
`queueReceivedPacket` on the jurisdiction sender with the address of the querying sender;
nothing is queued to the edit packet processor and `processNodeData` is not called. -/
theorem run_queues_jurisdiction_request (x : Externals) (argv : List String) (nl : NodeList)
    (ticks : List Tick) (s : RunState) (t : Tick)
    (hs : loopState x (loopEntry x argv nl) ticks = some s)
    (hlive : t.numNoReplyDomainCheckIns < x.MAX_SILENT_DOMAIN_SERVER_CHECK_INS)
    (hrecv : UDPSocket.receive t.recvfromResult = true)
    (hversion : x.packetVersionMatch t.packetData = true)
    (hdistinct : x.distinctPacketTypes)
    (htype : t.packetData.headD 0 = x.PACKET_TYPE_VOXEL_JURISDICTION_REQUEST) :
    ∃ s1 : RunState,
      loopIteration x s t = some (s1, (checkIn x s t).2 ++ [Call.possiblyPingInactiveNodes,
        Call.jurisdictionSenderQueueReceivedPacket t.senderAddress t.packetData
          t.recvfromResult]) ∧
      s1 = (checkIn x s t).1 ∧ s1.server = s.server ∧ s1.nodeList = s.nodeList := by
  obtain ⟨-, hsender, -⟩ := loopState_workers x argv nl ticks s hs
  have hc := checkIn_frame x s t
  refine ⟨(checkIn x s t).1, ?_, rfl, hc.1, hc.2⟩
  rw [loopIteration_received x s t hlive hrecv hversion]
  have hd : dispatch x (checkIn x s t).1 t = ((checkIn x s t).1,
      [Call.jurisdictionSenderQueueReceivedPacket t.senderAddress t.packetData
        t.recvfromResult]) := by
    unfold Externals.distinctPacketTypes at hdistinct
    simp only [List.nodup_cons, List.mem_cons, List.mem_singleton, not_or, List.not_mem_nil,
      not_false_eq_true, List.nodup_nil, and_true] at hdistinct
    obtain ⟨⟨hqj, -⟩, -⟩ := hdistinct
    unfold dispatch
    dsimp only
    rw [hc.1, htype, if_neg (Ne.symm hqj), if_pos rfl, if_pos hsender]
  rw [hd]
  simp

/-- C3: an iteration of the receive loop of `run` whose packet fails `packetVersionMatch` makes
no call but the check-in block and the ping of inactive nodes: nothing is queued to the edit
packet processor or to the jurisdiction sender, no send thread is started, `processNodeData` is
not called, the server and the node list are unchanged, and the loop goes on (the iteration is
not the `break`). -/
theorem run_drops_version_mismatch (x : Externals) (s : RunState) (t : Tick)
    (hlive : t.numNoReplyDomainCheckIns < x.MAX_SILENT_DOMAIN_SERVER_CHECK_INS)
    (hversion : x.packetVersionMatch t.packetData = false) :
    ∃ s1 : RunState,
      loopIteration x s t = some (s1, (checkIn x s t).2 ++ [Call.possiblyPingInactiveNodes]) ∧
      s1 = (checkIn x s t).1 ∧ s1.server = s.server ∧ s1.nodeList = s.nodeList ∧
      ∀ ticks : List Tick, loopState x s (t :: ticks) = loopState x s1 ticks := by
  have hc := checkIn_frame x s t
  have hit := loopIteration_dropped x s t hlive (by simp [hversion])
  refine ⟨(checkIn x s t).1, hit, rfl, hc.1, hc.2, ?_⟩
  intro ticks
  show (match loopIteration x s t with
    | some (s1, _) => loopState x s1 ticks
    | none => none) = _
  rw [hit]

theorem sampleLoopState_reached :
    loopState sampleExternals (loopEntry sampleExternals ["voxel-server"] sampleNodeList)
      [sampleTimeoutTick] = some sampleLoopState := by
  rfl

theorem run_queues_edit_packet_witness :
    ∃ s1 : RunState,
      loopIteration sampleExternals sampleLoopState (sampleTick sampleSetVoxelPacket)
        = some (s1, [Call.possiblyPingInactiveNodes,
            Call.voxelServerPacketProcessorQueueReceivedPacket
              { sa_family := 2, s_addr := 3232235777, sin_port := 40102 }
              sampleSetVoxelPacket 17]) ∧
      s1 = (checkIn sampleExternals sampleLoopState (sampleTick sampleSetVoxelPacket)).1 ∧
      s1.server = sampleLoopState.server ∧ s1.nodeList = sampleLoopState.nodeList :=
  run_queues_edit_packet sampleExternals ["voxel-server"] sampleNodeList [sampleTimeoutTick]
    sampleLoopState (sampleTick sampleSetVoxelPacket) (by rfl) (by decide) (by decide)
    (by decide) (by decide) (Or.inl (by decide))

theorem run_queues_jurisdiction_request_witness :
    ∃ s1 : RunState,
      loopIteration sampleExternals sampleLoopState (sampleTick sampleJurisdictionRequestPacket)
        = some (s1, [Call.possiblyPingInactiveNodes,
            Call.jurisdictionSenderQueueReceivedPacket
              { sa_family := 2, s_addr := 3232235777, sin_port := 40102 }
              sampleJurisdictionRequestPacket 4]) ∧
      s1 = (checkIn sampleExternals sampleLoopState
        (sampleTick sampleJurisdictionRequestPacket)).1 ∧
      s1.server = sampleLoopState.server ∧ s1.nodeList = sampleLoopState.nodeList :=
  run_queues_jurisdiction_request sampleExternals ["voxel-server"] sampleNodeList
    [sampleTimeoutTick] sampleLoopState (sampleTick sampleJurisdictionRequestPacket) (by rfl)
    (by decide) (by decide) (by decide) (by decide) (by decide)

theorem run_drops_version_mismatch_witness :
    ∃ s1 : RunState,
      loopIteration sampleExternals sampleLoopState (sampleTick sampleMismatchedPacket)
        = some (s1, [Call.possiblyPingInactiveNodes]) ∧
      s1 = (checkIn sampleExternals sampleLoopState (sampleTick sampleMismatchedPacket)).1 ∧
      s1.server = sampleLoopState.server ∧ s1.nodeList = sampleLoopState.nodeList ∧
      ∀ ticks : List Tick,
        loopState sampleExternals sampleLoopState (sampleTick sampleMismatchedPacket :: ticks)
          = loopState sampleExternals s1 ticks :=
  run_drops_version_mismatch sampleExternals sampleLoopState (sampleTick sampleMismatchedPacket)
    (by decide) (by decide)

theorem find_storeNode (nodeUUID : List Nat) (node1 : Node) (huuid : node1._uuid = nodeUUID) :
    ∀ (nodes : List Node) (node : Node),
      nodes.find? (fun n => n._uuid == nodeUUID) = some node →
      (storeNode node1 nodes).find? (fun n => n._uuid == nodeUUID) = some node1 := by
  intro nodes
  induction nodes with
  | nil =>
    intro node h
    simp at h
  | cons n ns ih =>
    intro node h
    unfold storeNode
    by_cases hn : n._uuid = nodeUUID
    · have hcond : (n._uuid == node1._uuid) = true := by
        rw [huuid]
        exact beq_iff_eq.mpr hn
      rw [if_pos hcond]
      simp [List.find?, huuid]
    · have hcond : ¬ (n._uuid == node1._uuid) = true := by
        rw [huuid]
        intro hc
        exact hn (beq_iff_eq.mp hc)
      rw [if_neg hcond]
      have hn2 : (n._uuid == nodeUUID) = false := by
        simpa using hn
      rw [List.find?_cons, hn2] at h
      rw [List.find?_cons, hn2]
      exact ih node h

theorem nodeWithUUID_uuid (nl : NodeList) (nodeUUID : List Nat) (node : Node)
    (h : nl.nodeWithUUID nodeUUID = some node) : node._uuid = nodeUUID := by
  unfold NodeList.nodeWithUUID at h
  have := List.find?_some h
  simpa using this

theorem handleVoxelQuery_new (s : RunState) (node : Node) (a : sockaddr) (d : List Nat)
    (n : Int) (hcallback : s.nodeList.linkedDataCreateCallback = some attachVoxelNodeDataToNode)
    (hnew : node._linkedData = none) :
    handleVoxelQuery s node a d n =
      ({ s with nodeList := { s.nodeList with
          nodes := storeNode (Node.mk node._uuid node._publicSocket
              (if node._activeSocket.isNone then some node._publicSocket else node._activeSocket)
              (some (VoxelNodeData.mk true))) s.nodeList.nodes } },
        [Call.updateNodeWithData node._uuid a d n]
          ++ (if node._activeSocket.isNone then [Call.activatePublicSocket node._uuid] else [])
          ++ [Call.initializeVoxelSendThread node._uuid]) := by
  have hupdate : s.nodeList.updateNodeWithData node
      = { node with _linkedData := some (VoxelNodeData.mk false) } := by
    unfold NodeList.updateNodeWithData
    rw [hnew, hcallback]
    dsimp only
    unfold attachVoxelNodeDataToNode
    rw [hnew]
    rfl
  unfold handleVoxelQuery
  rw [hupdate]
  cases hactive : node._activeSocket <;>
    simp [Node.activatePublicSocket, VoxelNodeData.isVoxelSendThreadInitalized,
      VoxelNodeData.initializeVoxelSendThread, hactive]

/-- C4, as the code has it: in every iteration of the receive loop of `run` that receives a
version-matching `PACKET_TYPE_VOXEL_QUERY` packet whose UUID is that of a node of the node list
without a session record (no linked data), the session record is created and the send thread
of that client is started: `initializeVoxelSendThread` is called once, and afterwards the node
of that UUID has linked data whose send thread is initialized. -/
theorem run_voxelQuery_known_client (x : Externals) (argv : List String) (nl : NodeList)
    (ticks : List Tick) (s : RunState) (t : Tick) (node : Node)
    (hs : loopState x (loopEntry x argv nl) ticks = some s)
    (hlive : t.numNoReplyDomainCheckIns < x.MAX_SILENT_DOMAIN_SERVER_CHECK_INS)
    (hrecv : UDPSocket.receive t.recvfromResult = true)
    (hversion : x.packetVersionMatch t.packetData = true)
    (htype : t.packetData.headD 0 = x.PACKET_TYPE_VOXEL_QUERY)
    (hnode : s.nodeList.nodeWithUUID
      ((t.packetData.drop (x.numBytesForPacketHeader t.packetData)).take
        x.NUM_BYTES_RFC4122_UUID) = some node)
    (hnew : node._linkedData = none) :
    ∃ (s1 : RunState) (calls : List Call) (node1 : Node),
      loopIteration x s t = some (s1, calls) ∧
      calls = (checkIn x s t).2 ++ [Call.possiblyPingInactiveNodes,
          Call.updateNodeWithData node._uuid t.senderAddress t.packetData t.recvfromResult]
        ++ (if node._activeSocket.isNone then [Call.activatePublicSocket node._uuid] else [])
        ++ [Call.initializeVoxelSendThread node._uuid] ∧
      s1.nodeList.nodeWithUUID node._uuid = some node1 ∧
      node1._linkedData = some (VoxelNodeData.mk true) ∧
      (node1._linkedData.map VoxelNodeData.isVoxelSendThreadInitalized) = some true := by
  obtain ⟨-, -, hcallback⟩ := loopState_workers x argv nl ticks s hs
  have hc := checkIn_frame x s t
  have huuid := nodeWithUUID_uuid _ _ _ hnode
  rw [loopIteration_received x s t hlive hrecv hversion]
  have hd : dispatch x (checkIn x s t).1 t
      = handleVoxelQuery (checkIn x s t).1 node t.senderAddress t.packetData
          t.recvfromResult := by
    unfold dispatch
    dsimp only
    rw [if_pos htype, hc.2, hnode]
  rw [hd, handleVoxelQuery_new _ _ _ _ _ (hc.2 ▸ hcallback) hnew]
  refine ⟨_, _, Node.mk node._uuid node._publicSocket
    (if node._activeSocket.isNone then some node._publicSocket else node._activeSocket)
    (some (VoxelNodeData.mk true)), rfl, ?_, ?_, rfl, rfl⟩
  · simp
  · rw [hc.2]
    have hfind : s.nodeList.nodes.find? (fun n => n._uuid == node._uuid) = some node :=
      huuid ▸ hnode
    exact find_storeNode node._uuid (Node.mk node._uuid node._publicSocket
      (if node._activeSocket.isNone then some node._publicSocket else node._activeSocket)
      (some (VoxelNodeData.mk true))) rfl s.nodeList.nodes node hfind

theorem run_voxelQuery_known_client_witness :
    ∃ (s1 : RunState) (calls : List Call) (node1 : Node),
      loopIteration sampleExternals sampleLoopState (sampleTick (sampleVoxelQueryPacket 7))
        = some (s1, calls) ∧
      calls = [Call.possiblyPingInactiveNodes,
        Call.updateNodeWithData (List.replicate 16 7)
          { sa_family := 2, s_addr := 3232235777, sin_port := 40102 }
          (sampleVoxelQueryPacket 7) 24,
        Call.activatePublicSocket (List.replicate 16 7),
        Call.initializeVoxelSendThread (List.replicate 16 7)] ∧
      s1.nodeList.nodeWithUUID (List.replicate 16 7) = some node1 ∧
      node1._linkedData = some (VoxelNodeData.mk true) ∧
      (node1._linkedData.map VoxelNodeData.isVoxelSendThreadInitalized) = some true :=
  run_voxelQuery_known_client sampleExternals ["voxel-server"] sampleNodeList
    [sampleTimeoutTick] sampleLoopState (sampleTick (sampleVoxelQueryPacket 7))
    { _uuid := List.replicate 16 7
      _publicSocket := { sa_family := 2, s_addr := 3232235777, sin_port := 40102 }
      _activeSocket := none
      _linkedData := none }
    (by rfl) (by decide) (by decide) (by decide) (by decide) (by decide) (by rfl)

/-- C4 as stated fails: a version-matching voxel query whose UUID is not in the node list, from
a client without a session record, is received in a reachable state of the loop, and handling
it creates no session record and starts no send thread: the node table is unchanged and the
only call of the iteration is the ping of inactive nodes. -/
theorem run_voxelQuery_unknown_client :
    (sampleTick (sampleVoxelQueryPacket 9)).packetData.headD 0
      = sampleExternals.PACKET_TYPE_VOXEL_QUERY ∧
    UDPSocket.receive (sampleTick (sampleVoxelQueryPacket 9)).recvfromResult = true ∧
    sampleExternals.packetVersionMatch (sampleTick (sampleVoxelQueryPacket 9)).packetData
      = true ∧
    (loopState sampleExternals (loopEntry sampleExternals ["voxel-server"] sampleNodeList)
      [sampleTimeoutTick]).map (fun s => s.nodeList.nodeWithUUID (List.replicate 16 9))
      = some none ∧
    (loopState sampleExternals (loopEntry sampleExternals ["voxel-server"] sampleNodeList)
      [sampleTimeoutTick]).map (fun s =>
        (loopIteration sampleExternals s (sampleTick (sampleVoxelQueryPacket 9))).map
          (fun r => (r.1.nodeList.nodes, r.1.nodeList.nodeWithUUID (List.replicate 16 9), r.2)))
      = some (some (sampleNodeList.nodes, none, [Call.possiblyPingInactiveNodes])) := by
  refine ⟨by decide, by decide, by decide, by decide, by decide⟩

end VoxelServer

/-! ### `UDPSocket::send` and `UDPSocket::receive` -/

namespace UDPSocket

/-- C11, as the code has it: for a byte count `n` that fits an `int` and a `sendto` that keeps
to its contract (it returns -1 or a count of at most `n`), `send` returns `n` when `sendto`
reports exactly `n` bytes and 0 for any other count, the error value -1 included; the result is
0 or `n` and never negative.  With a `NULL` destination `sendto` is not called and the result
is 0, whatever `n` is. -/
theorem send_result (sendto : sockaddr → Nat → Int) (dest : sockaddr) (n : Nat)
    (hn : n < 2 ^ 31) (hcontract : -1 ≤ sendto dest n ∧ sendto dest n ≤ n) :
    (send sendto (some dest) n).1 = (if sendto dest n = n then (n : Int) else 0) ∧
    ((send sendto (some dest) n).1 = 0 ∨ (send sendto (some dest) n).1 = n) ∧
    0 ≤ (send sendto (some dest) n).1 ∧
    (send sendto (some dest) n).2 = [(dest, n)] ∧
    (∀ m : Nat, send sendto none m = (0, [])) := by
  obtain ⟨hlo, hhi⟩ := hcontract
  have hint : toInt (sendto dest n) = sendto dest n := by
    unfold toInt
    norm_num at hn ⊢
    omega
  have hsend : (send sendto (some dest) n).1 = (if sendto dest n = n then (n : Int) else 0) := by
    unfold send
    simp only [hint]
    by_cases heq : sendto dest n = n
    · have hsize : toSizeT (n : Int) = n := by
        unfold toSizeT
        norm_num at hn ⊢
        omega
      simp [hsize, heq]
    · have hsize : toSizeT (sendto dest n) ≠ n := by
        unfold toSizeT
        norm_num at hn ⊢
        omega
      simp [hsize, heq]
  refine ⟨hsend, ?_, ?_, ?_, fun _ => rfl⟩
  · rw [hsend]
    split <;> simp
  · rw [hsend]
    split <;> omega
  · unfold send
    dsimp only
    split <;> rfl

theorem send_result_witness :
    (send (fun _ n => n) (some ⟨2, 3232235777, 7247⟩) 23).1 = 23 ∧
    (send (fun _ _ => -1) (some ⟨2, 3232235777, 7247⟩) 23).1 = 0 ∧
    (send (fun _ _ => 11) (some ⟨2, 3232235777, 7247⟩) 23).1 = 0 :=
  ⟨(send_result (fun _ n => n) ⟨2, 3232235777, 7247⟩ 23 (by decide) (by decide)).1,
    (send_result (fun _ _ => -1) ⟨2, 3232235777, 7247⟩ 23 (by decide) (by decide)).1,
    (send_result (fun _ _ => 11) ⟨2, 3232235777, 7247⟩ 23 (by decide) (by decide)).1⟩

/-- C11 as stated fails: with the byte count `SIZE_MAX = 2 ^ 64 - 1` (what a length of -1
becomes as a `size_t`), for which `sendto` reports the error value -1, the comparison of the
`int` -1 with the `size_t` finds them equal and `send` returns -1: the result is negative, and
it is not 0 although `sendto` failed. -/
theorem send_negative_result :
    (send (fun _ _ => -1) (some ⟨2, 3232235777, 7247⟩) 18446744073709551615).1 = -1 ∧
    (send (fun _ _ => -1) (some ⟨2, 3232235777, 7247⟩) 18446744073709551615).1 < 0 ∧
    (send (fun _ _ => -1) (some ⟨2, 3232235777, 7247⟩) 18446744073709551615).1 ≠ 0 := by
  refine ⟨by decide, by decide, by decide⟩

end UDPSocket

namespace VoxelServer

theorem loopIteration_break (x : Externals) (s : RunState) (t : Tick)
    (hsilent : t.numNoReplyDomainCheckIns ≥ x.MAX_SILENT_DOMAIN_SERVER_CHECK_INS) :
    loopIteration x s t = none := by
  unfold loopIteration
  rw [if_pos hsilent]

theorem loopIteration_live (x : Externals) (s : RunState) (t : Tick)
    (hlive : t.numNoReplyDomainCheckIns < x.MAX_SILENT_DOMAIN_SERVER_CHECK_INS) :
    ∃ (s1 : RunState) (rest : List Call),
      loopIteration x s t
        = some (s1, (checkIn x s t).2 ++ Call.possiblyPingInactiveNodes :: rest) := by
  cases hdrop : (UDPSocket.receive t.recvfromResult && x.packetVersionMatch t.packetData)
  · exact ⟨_, [], loopIteration_dropped x s t hlive hdrop⟩
  · rw [Bool.and_eq_true] at hdrop
    refine ⟨(dispatch x (checkIn x s t).1 t).1, (dispatch x (checkIn x s t).1 t).2, ?_⟩
    rw [loopIteration_received x s t hlive hdrop.1 hdrop.2]
    simp

/-- C12: `UDPSocket::receive` returns true exactly when `recvfrom` yields a strictly positive
count (false for -1 and for 0), the receive timeout that the socket constructor sets is half a
second (`tv_sec = 0`, `tv_usec = 500000`), and an iteration of the loop of `run` whose receive
returns false makes no call but the check-in block and the ping of inactive nodes, changes
neither the server nor the node list, and hands over to the next iteration, which starts by
the liveness test (it is the `break` exactly when the unanswered check-ins have reached the
maximum) followed by the check-in block. -/
theorem run_receive_failure (x : Externals) (s : RunState) (t : Tick)
    (hlive : t.numNoReplyDomainCheckIns < x.MAX_SILENT_DOMAIN_SERVER_CHECK_INS)
    (hfail : UDPSocket.receive t.recvfromResult = false) :
    (∀ r : Int, UDPSocket.receive r = true ↔ 0 < r) ∧
    UDPSocket.receive (-1) = false ∧ UDPSocket.receive 0 = false ∧
    UDPSocket.setBlockingReceiveTimeoutInUsecs UDPSocket.DEFAULT_BLOCKING_SOCKET_TIMEOUT_USECS
      = (0, 500000) ∧
    ∃ s1 : RunState,
      loopIteration x s t = some (s1, (checkIn x s t).2 ++ [Call.possiblyPingInactiveNodes]) ∧
      s1 = (checkIn x s t).1 ∧ s1.server = s.server ∧ s1.nodeList = s.nodeList ∧
      (∀ ticks : List Tick, loopState x s (t :: ticks) = loopState x s1 ticks) ∧
      (∀ next : Tick,
        (loopIteration x s1 next = none
          ↔ next.numNoReplyDomainCheckIns ≥ x.MAX_SILENT_DOMAIN_SERVER_CHECK_INS) ∧
        (next.numNoReplyDomainCheckIns < x.MAX_SILENT_DOMAIN_SERVER_CHECK_INS →
          ∃ (s2 : RunState) (rest : List Call), loopIteration x s1 next
            = some (s2, (checkIn x s1 next).2 ++ Call.possiblyPingInactiveNodes :: rest))) := by
  have hc := checkIn_frame x s t
  have hit := loopIteration_dropped x s t hlive (by simp [hfail])
  refine ⟨?_, by decide, by decide, by decide, (checkIn x s t).1, hit, rfl, hc.1, hc.2, ?_, ?_⟩
  · intro r
    simp [UDPSocket.receive]
  · intro ticks
    show (match loopIteration x s t with
      | some (s1, _) => loopState x s1 ticks
      | none => none) = _
    rw [hit]
  · intro next
    refine ⟨⟨?_, loopIteration_break x _ next⟩, loopIteration_live x _ next⟩
    intro hnone
    by_contra hlt
    obtain ⟨s2, rest, h2⟩ := loopIteration_live x (checkIn x s t).1 next (by omega)
    rw [hnone] at h2
    exact absurd h2 (by simp)

theorem run_receive_failure_witness :
    (∀ r : Int, UDPSocket.receive r = true ↔ 0 < r) ∧
    UDPSocket.receive (-1) = false ∧ UDPSocket.receive 0 = false ∧
    UDPSocket.setBlockingReceiveTimeoutInUsecs UDPSocket.DEFAULT_BLOCKING_SOCKET_TIMEOUT_USECS
      = (0, 500000) ∧
    ∃ s1 : RunState,
      loopIteration sampleExternals (loopEntry sampleExternals ["voxel-server"] sampleNodeList)
          sampleTimeoutTick
        = some (s1, [Call.sendDomainServerCheckIn, Call.possiblyPingInactiveNodes]) ∧
      s1 = (checkIn sampleExternals (loopEntry sampleExternals ["voxel-server"] sampleNodeList)
        sampleTimeoutTick).1 ∧
      s1.server = (loopEntry sampleExternals ["voxel-server"] sampleNodeList).server ∧
      s1.nodeList = (loopEntry sampleExternals ["voxel-server"] sampleNodeList).nodeList ∧
      (∀ ticks : List Tick,
        loopState sampleExternals (loopEntry sampleExternals ["voxel-server"] sampleNodeList)
          (sampleTimeoutTick :: ticks) = loopState sampleExternals s1 ticks) ∧
      (∀ next : Tick,
        (loopIteration sampleExternals s1 next = none
          ↔ next.numNoReplyDomainCheckIns
              ≥ sampleExternals.MAX_SILENT_DOMAIN_SERVER_CHECK_INS) ∧
        (next.numNoReplyDomainCheckIns < sampleExternals.MAX_SILENT_DOMAIN_SERVER_CHECK_INS →
          ∃ (s2 : RunState) (rest : List Call), loopIteration sampleExternals s1 next
            = some (s2, (checkIn sampleExternals s1 next).2
                ++ Call.possiblyPingInactiveNodes :: rest))) :=
  run_receive_failure sampleExternals (loopEntry sampleExternals ["voxel-server"] sampleNodeList)
    sampleTimeoutTick (by decide) (by decide)

end VoxelServer

/-! ### The jurisdiction map and the batched edits of the spec -/

theorem startsWith_iff (octalCode pre : List (Fin 8)) :
    startsWith octalCode pre = true ↔ pre <+: octalCode := by
  induction pre generalizing octalCode with
  | nil => simp [startsWith]
  | cons p pre ih =>
    cases octalCode with
    | nil => simp [startsWith]
    | cons c octalCode =>
      simp only [startsWith, Bool.and_eq_true, beq_iff_eq, ih, List.cons_prefix_cons]
      constructor
      · rintro ⟨h1, h2⟩
        exact ⟨h1.symm, h2⟩
      · rintro ⟨h1, h2⟩
        exact ⟨h1.symm, h2⟩

/-- C13: `owns(code)` is true exactly for the codes that start with an owned prefix and start
with no delegated end-node prefix; for a map owning the prefix "2", `owns("24")` is true and
`owns("3")` is false. -/
theorem owns_iff :
    (∀ (m : JurisdictionMapRegions) (octalCode : List (Fin 8)),
      m.owns octalCode = true ↔
        (∃ pre ∈ m.ownedPrefixes, pre <+: octalCode)
          ∧ (∀ pre ∈ m.endNodes, ¬ pre <+: octalCode)) ∧
    JurisdictionMapRegions.owns { ownedPrefixes := [[2]], endNodes := [] } [2, 4] = true ∧
    JurisdictionMapRegions.owns { ownedPrefixes := [[2]], endNodes := [] } [3] = false := by
  refine ⟨?_, by decide, by decide⟩
  intro m octalCode
  unfold JurisdictionMapRegions.owns
  simp only [Bool.and_eq_true, Bool.not_eq_true', List.any_eq_true, startsWith_iff]
  constructor
  · rintro ⟨hown, hend⟩
    refine ⟨hown, ?_⟩
    intro pre hmem hpre
    have hany : m.endNodes.any (fun pre => startsWith octalCode pre) = true :=
      List.any_eq_true.mpr ⟨pre, hmem, (startsWith_iff octalCode pre).mpr hpre⟩
    rw [hend] at hany
    exact absurd hany (by simp)
  · rintro ⟨hown, hend⟩
    refine ⟨hown, ?_⟩
    cases hany : m.endNodes.any (fun pre => startsWith octalCode pre)
    · rfl
    · obtain ⟨pre, hmem, hpre⟩ := List.any_eq_true.mp hany
      exact absurd ((startsWith_iff octalCode pre).mp hpre) (hend pre hmem)

theorem processBatch_valid {Store SubEdit Edit : Type} (decode : SubEdit → Option Edit)
    (applyEdit : Store → Edit → Store) (tail : List SubEdit) :
    ∀ (valid : List SubEdit) (edits : List Edit) (store : Store),
      valid.map decode = edits.map some →
      processBatch decode applyEdit store (valid ++ tail)
        = { store := (processBatch decode applyEdit (edits.foldl applyEdit store) tail).store
            applied := (processBatch decode applyEdit (edits.foldl applyEdit store) tail).applied
              + valid.length
            partialBatchFailure :=
              (processBatch decode applyEdit (edits.foldl applyEdit store)
                tail).partialBatchFailure } := by
  intro valid
  induction valid with
  | nil =>
    intro edits store h
    cases edits with
    | nil => rfl
    | cons e es => simp at h
  | cons v vs ih =>
    intro edits store h
    cases edits with
    | nil => simp at h
    | cons e es =>
      simp only [List.map_cons, List.cons.injEq] at h
      obtain ⟨hv, hvs⟩ := h
      have hstep : processBatch decode applyEdit store (v :: (vs ++ tail))
          = { processBatch decode applyEdit (applyEdit store e) (vs ++ tail) with
              applied := (processBatch decode applyEdit (applyEdit store e) (vs ++ tail)).applied
                + 1 } := by
        simp only [processBatch, hv]
      rw [List.cons_append, hstep, ih es (applyEdit store e) hvs]
      simp only [List.foldl_cons, List.length_cons, BatchOutcome.mk.injEq, true_and, and_true]
      omega

/-- C15: for a batch made of `k` well-formed sub-edits, then a malformed one, then anything,
the store after the processing is the store with exactly the first `k` edits applied in order:
nothing after the malformed sub-edit is applied, the earlier edits stay, and the worker returns
normally, reporting `k` applied edits and the partial batch failure. -/
theorem processBatch_stops_at_malformed {Store SubEdit Edit : Type}
    (decode : SubEdit → Option Edit) (applyEdit : Store → Edit → Store) (store : Store)
    (valid : List SubEdit) (edits : List Edit) (malformed : SubEdit) (rest : List SubEdit)
    (hvalid : valid.map decode = edits.map some) (hmalformed : decode malformed = none) :
    (processBatch decode applyEdit store (valid ++ malformed :: rest)).store
      = edits.foldl applyEdit store ∧
    (processBatch decode applyEdit store (valid ++ malformed :: rest)).applied = valid.length ∧
    (processBatch decode applyEdit store (valid ++ malformed :: rest)).partialBatchFailure
      = true := by
  rw [processBatch_valid decode applyEdit (malformed :: rest) valid edits store hvalid]
  simp [processBatch, hmalformed]

theorem processBatch_stops_at_malformed_witness :
    (processBatch (fun subEdit : Option String => subEdit)
        (fun (store : List String) edit => store ++ [edit]) []
        ([some "set 2", some "set 24", some "erase 3"] ++ none :: [some "set 5"])).store
      = ["set 2", "set 24", "erase 3"] ∧
    (processBatch (fun subEdit : Option String => subEdit)
        (fun (store : List String) edit => store ++ [edit]) []
        ([some "set 2", some "set 24", some "erase 3"] ++ none :: [some "set 5"])).applied
      = 3 ∧
    (processBatch (fun subEdit : Option String => subEdit)
        (fun (store : List String) edit => store ++ [edit]) []
        ([some "set 2", some "set 24", some "erase 3"]
          ++ none :: [some "set 5"])).partialBatchFailure = true :=
  processBatch_stops_at_malformed (fun subEdit : Option String => subEdit)
    (fun (store : List String) edit => store ++ [edit]) []
    [some "set 2", some "set 24", some "erase 3"] ["set 2", "set 24", "erase 3"] none
    [some "set 5"] (by decide) (by decide)

/-! ### `VoxelServer::parsePayload` -/

theorem splitOnSpace_ne_nil (cs : List Char) : splitOnSpace cs ≠ [] := by
  cases cs with
  | nil => simp [splitOnSpace]
  | cons c cs =>
    unfold splitOnSpace
    split
    · simp
    · split <;> simp

theorem char_eq_space (c : Char) (h : c.toNat = 32) : c = Char.ofNat 32 := by
  rw [← h, Char.ofNat_toNat]

theorem intercalate_cons_cons (sep f g : List Char) (gs : List (List Char)) :
    List.intercalate sep (f :: g :: gs) = f ++ sep ++ List.intercalate sep (g :: gs) := by
  simp [List.intercalate, List.intersperse]

theorem intercalate_singleton (sep f : List Char) : List.intercalate sep [f] = f := by
  simp [List.intercalate, List.intersperse]

theorem intercalate_cons_head (sep f : List Char) (c : Char) (fs : List (List Char)) :
    List.intercalate sep ((c :: f) :: fs) = c :: List.intercalate sep (f :: fs) := by
  cases fs with
  | nil => simp [intercalate_singleton]
  | cons g gs => simp [intercalate_cons_cons]

theorem intercalate_splitOnSpace (cs : List Char) :
    List.intercalate [Char.ofNat 32] (splitOnSpace cs) = cs := by
  induction cs with
  | nil => rfl
  | cons c cs ih =>
    have hne := splitOnSpace_ne_nil cs
    unfold splitOnSpace
    cases hsplit : splitOnSpace cs with
    | nil => exact absurd hsplit hne
    | cons f fs =>
      rw [hsplit] at ih
      split
      · rename_i hc
        rw [intercalate_cons_cons, ih, char_eq_space c hc]
        rfl
      · rw [intercalate_cons_head, ih]

theorem length_splitOnSpace (cs : List Char) :
    (splitOnSpace cs).length = cs.count (Char.ofNat 32) + 1 := by
  induction cs with
  | nil => rfl
  | cons c cs ih =>
    unfold splitOnSpace
    split
    · rename_i hc
      rw [char_eq_space c hc]
      simp [ih]
    · rename_i hc
      have hne : c ≠ Char.ofNat 32 := by
        intro h
        apply hc
        rw [h]
        rfl
      split
      · rename_i f fs hsplit
        rw [hsplit] at ih
        simp only [List.length_cons] at ih ⊢
        rw [List.count_cons_of_ne hne.symm]
        exact ih
      · rename_i hsplit
        exact absurd hsplit (splitOnSpace_ne_nil cs)

theorem mem_splitOnSpace (cs : List Char) :
    ∀ field ∈ splitOnSpace cs, ∀ c ∈ field, c ∈ cs ∧ c ≠ Char.ofNat 32 := by
  induction cs with
  | nil =>
    intro field hfield c hc
    simp [splitOnSpace] at hfield
    subst hfield
    simp at hc
  | cons d cs ih =>
    intro field hfield c hc
    have hne := splitOnSpace_ne_nil cs
    unfold splitOnSpace at hfield
    cases hsplit : splitOnSpace cs with
    | nil => exact absurd hsplit hne
    | cons f fs =>
      rw [hsplit] at hfield ih
      split at hfield
      · rcases List.mem_cons.mp hfield with h | h
        · subst h
          simp at hc
        · obtain ⟨h1, h2⟩ := ih field h c hc
          exact ⟨List.mem_cons_of_mem _ h1, h2⟩
      · rename_i hd
        rcases List.mem_cons.mp hfield with h | h
        · subst h
          rcases List.mem_cons.mp hc with h | h
          · subst h
            refine ⟨List.mem_cons_self _ _, ?_⟩
            intro heq
            apply hd
            rw [heq]
            rfl
          · obtain ⟨h1, h2⟩ := ih f (List.mem_cons_self _ _) c h
            exact ⟨List.mem_cons_of_mem _ h1, h2⟩
        · obtain ⟨h1, h2⟩ := ih field (List.mem_cons_of_mem _ h) c hc
          exact ⟨List.mem_cons_of_mem _ h1, h2⟩

theorem cString_no_nul (memory : List Char) : ∀ c ∈ cString memory, c.toNat ≠ 0 := by
  intro c hc
  have := List.mem_takeWhile_imp hc
  simpa using this

theorem cString_of_no_nul (cs : List Char) (h : ∀ c ∈ cs, c.toNat ≠ 0) : cString cs = cs := by
  unfold cString
  rw [List.takeWhile_eq_self_iff]
  intro c hc
  simpa using h c hc

theorem intercalate_string (sep : String) (l : List String) :
    sep.intercalate l = String.mk (List.intercalate sep.data (l.map String.data)) := by
  have hgo : ∀ (l : List String) (acc : String),
      String.intercalate.go acc sep l
        = String.mk (List.intercalate sep.data (acc.data :: l.map String.data)) := by
    intro l
    induction l with
    | nil =>
      intro acc
      simp [String.intercalate.go, intercalate_singleton]
    | cons a as ih =>
      intro acc
      rw [String.intercalate.go, ih]
      apply String.ext
      simp only [List.map_cons, String.data_append]
      cases as with
      | nil => simp [intercalate_cons_cons, intercalate_singleton]
      | cons b bs => simp [intercalate_cons_cons]
  cases l with
  | nil => rfl
  | cons a as => exact hgo as a

theorem strcpy_of_fits (size : Nat) (source : List Char)
    (h : (cString source).length + 1 ≤ size) :
    strcpy size source = some (String.mk (cString source)) := by
  unfold strcpy
  rw [if_pos h]

theorem strcpy_eq_none (size : Nat) (source : List Char) :
    strcpy size source = none ↔ size < (cString source).length + 1 := by
  unfold strcpy
  by_cases h : (cString source).length + 1 ≤ size
  · rw [if_pos h]
    simp only [reduceCtorEq, false_iff]
    omega
  · rw [if_neg h]
    simp only [true_iff]
    omega

/-- The loop of `parsePayload` has no defined result exactly when the bytes that
`toLocal8Bit()` gives for some item are more than the `length()` of the item. -/
theorem parsePayloadItems_eq_none (qt : QStringFunctions) (items : List (List Char)) :
    VoxelServer.parsePayloadItems qt items = none ↔
      ∃ item ∈ items, qt.length item < (cString (qt.toLocal8Bit item)).length := by
  induction items with
  | nil => simp [VoxelServer.parsePayloadItems]
  | cons item rest ih =>
    unfold VoxelServer.parsePayloadItems
    cases hcopy : strcpy (qt.length item + 1) (qt.toLocal8Bit item) with
    | none =>
      have hlong := (strcpy_eq_none _ _).mp hcopy
      simp only [true_iff]
      exact ⟨item, List.mem_cons_self _ _, by omega⟩
    | some parsedArg =>
      have hfits : ¬ qt.length item < (cString (qt.toLocal8Bit item)).length := by
        intro hlong
        have hnone := (strcpy_eq_none (qt.length item + 1) (qt.toLocal8Bit item)).mpr (by omega)
        rw [hnone] at hcopy
        exact absurd hcopy (by simp)
      cases hrest : VoxelServer.parsePayloadItems qt rest with
      | none =>
        obtain ⟨other, hother, hlong⟩ := ih.mp hrest
        simp only [true_iff]
        exact ⟨other, List.mem_cons_of_mem _ hother, hlong⟩
      | some parsedArgs =>
        simp only [reduceCtorEq, false_iff]
        rintro ⟨other, hother, hlong⟩
        rcases List.mem_cons.mp hother with h | h
        · subst h
          exact hfits hlong
        · have hnone := ih.mpr ⟨other, h, hlong⟩
          rw [hnone] at hrest
          exact absurd hrest (by simp)

theorem parsePayloadItems_ascii (qt : QStringFunctions)
    (hqt : ∀ cs : List Char, (∀ c ∈ cs, c.toNat < 128) →
      qt.fromCString cs = cs ∧ qt.length cs = cs.length ∧ qt.toLocal8Bit cs = cs) :
    ∀ items : List (List Char),
      (∀ item ∈ items, ∀ c ∈ item, c.toNat < 128 ∧ c.toNat ≠ 0) →
      VoxelServer.parsePayloadItems qt items = some (items.map String.mk) := by
  intro items
  induction items with
  | nil =>
    intro _
    rfl
  | cons item rest ih =>
    intro hitems
    have hitem := hitems item (List.mem_cons_self _ _)
    obtain ⟨-, hlength, hbytes⟩ := hqt item (fun c hc => (hitem c hc).1)
    have hstring : cString item = item := cString_of_no_nul item (fun c hc => (hitem c hc).2)
    unfold VoxelServer.parsePayloadItems
    rw [hlength, hbytes, strcpy_of_fits _ _ (by rw [hstring]),
      ih (fun other hother => hitems other (List.mem_cons_of_mem _ hother)), hstring]
    rfl

/-- For a payload of ASCII characters, with a `QString` that keeps ASCII text as it is:
`parsePayload` leaves in `_argv` the text "config-from-payload" followed by the fields of the
payload string split on single spaces, in order and with the empty fields kept, so `_argc` is
the number of fields plus 1; the fields are as many as the spaces of the string plus 1 and
none holds a space; joining `_argv[1 ..]` with single spaces gives the payload string back;
no other member is assigned. -/
theorem parsePayload_ascii (qt : QStringFunctions) (numPayloadBytes : Nat)
    (payload : List Char) (s : VoxelServer)
    (hqt : ∀ cs : List Char, (∀ c ∈ cs, c.toNat < 128) →
      qt.fromCString cs = cs ∧ qt.length cs = cs.length ∧ qt.toLocal8Bit cs = cs)
    (hascii : ∀ c ∈ cString payload, c.toNat < 128)
    (hpos : 0 < numPayloadBytes) :
    VoxelServer.parsePayload qt numPayloadBytes payload s
      = some (VoxelServer.setArguments
          ("config-from-payload" :: (splitOnSpace (cString payload)).map String.mk) s) ∧
    ("config-from-payload" :: (splitOnSpace (cString payload)).map String.mk).length
      = (splitOnSpace (cString payload)).length + 1 ∧
    (splitOnSpace (cString payload)).length = (cString payload).count (Char.ofNat 32) + 1 ∧
    (∀ field ∈ splitOnSpace (cString payload), Char.ofNat 32 ∉ field) ∧
    " ".intercalate ((splitOnSpace (cString payload)).map String.mk)
      = String.mk (cString payload) := by
  have hdummy : strcpy ((cString "config-from-payload".toList).length + 1)
      "config-from-payload".toList = some "config-from-payload" := by
    decide
  have hitems := parsePayloadItems_ascii qt hqt (splitOnSpace (cString payload))
    (fun field hfield c hc =>
      ⟨hascii c (mem_splitOnSpace _ field hfield c hc).1,
        cString_no_nul payload c (mem_splitOnSpace _ field hfield c hc).1⟩)
  refine ⟨?_, by simp, length_splitOnSpace _, ?_, ?_⟩
  · unfold VoxelServer.parsePayload
    rw [if_pos hpos]
    dsimp only
    rw [(hqt (cString payload) hascii).1, hdummy, hitems]
  · intro field hfield hmem
    exact (mem_splitOnSpace _ field hfield _ hmem).2 rfl
  · rw [intercalate_string]
    have hdata : ((splitOnSpace (cString payload)).map String.mk).map String.data
        = splitOnSpace (cString payload) := by
      rw [List.map_map]
      exact List.map_id _
    have hsep : (" " : String).data = [Char.ofNat 32] := by decide
    rw [hdata, hsep, intercalate_splitOnSpace]

theorem sampleQStringFunctions_ascii :
    ∀ cs : List Char, (∀ c ∈ cs, c.toNat < 128) →
      sampleQStringFunctions.fromCString cs = cs ∧ sampleQStringFunctions.length cs = cs.length
        ∧ sampleQStringFunctions.toLocal8Bit cs = cs := by
  intro cs
  induction cs with
  | nil =>
    intro _
    exact ⟨rfl, rfl, rfl⟩
  | cons c rest ih =>
    intro h
    have hc : c.toNat < 128 := h c (List.mem_cons_self _ _)
    obtain ⟨h1, h2, h3⟩ := ih (fun d hd => h d (List.mem_cons_of_mem _ hd))
    have hwide : c.toNat < 65536 := by omega
    refine ⟨?_, ?_, ?_⟩
    · show sampleFromUtf8 (c :: rest) = c :: rest
      cases rest with
      | nil => simp [sampleFromUtf8, hc]
      | cons d rest =>
        have h1 : sampleFromUtf8 (d :: rest) = d :: rest := h1
        rw [sampleFromUtf8, if_pos hc, h1]
    · show sampleUtf16Length (c :: rest) = (c :: rest).length
      have h2 : sampleUtf16Length rest = rest.length := h2
      rw [sampleUtf16Length, if_pos hwide, h2, List.length_cons]
      omega
    · show sampleToUtf8 (c :: rest) = c :: rest
      have h3 : sampleToUtf8 rest = rest := h3
      rw [sampleToUtf8, if_pos hc, h3]

/-- The arguments of an ASCII payload with two spaces in a row, and a payload of 0 bytes,
evaluated with the `QString` of a UTF-8 locale. -/
theorem parsePayload_ascii_sample :
    (VoxelServer.parsePayload sampleQStringFunctions 40
        "--NoVoxelPersist  --packetsPerSecond 600".toList VoxelServer.create).map
        (fun s => s._argv)
      = some ["config-from-payload", "--NoVoxelPersist", "", "--packetsPerSecond", "600"] ∧
    VoxelServer.parsePayload sampleQStringFunctions 40
        "--NoVoxelPersist  --packetsPerSecond 600".toList VoxelServer.create
      = some (VoxelServer.setArguments ("config-from-payload"
          :: (splitOnSpace (cString "--NoVoxelPersist  --packetsPerSecond 600".toList)).map
            String.mk) VoxelServer.create) ∧
    VoxelServer.parsePayload sampleQStringFunctions 0 "--NoVoxelPersist".toList
        VoxelServer.create
      = some VoxelServer.create :=
  ⟨by decide,
    (parsePayload_ascii sampleQStringFunctions 40
      "--NoVoxelPersist  --packetsPerSecond 600".toList VoxelServer.create
      sampleQStringFunctions_ascii (by decide) (by decide)).1,
    by decide⟩

/-- C16: `parsePayload` does not turn every payload into an argument vector.  For the payload
"--voxelsPersistFilename café.svo" in UTF-8 the second field is a `QString` of 8 characters,
so `_parsedArgV[2]` is an array of 9 chars, and `toLocal8Bit()` gives 9 bytes, which `strcpy`
writes with their NUL past the end of the array: the call has no defined result.  The loop has
a defined result exactly when no item has more bytes than `length()` counts.  For every payload
of ASCII characters the arguments are lossless: "config-from-payload", then the
fields of the payload string split on single spaces with the empty fields kept, which joined
with single spaces give the payload string back; and a payload of 0 bytes leaves the server as
it is. -/
theorem parsePayload_overflow :
    VoxelServer.parsePayload sampleQStringFunctions 34 sampleAccentedPayload VoxelServer.create
      = none ∧
    splitOnSpace (sampleQStringFunctions.fromCString (cString sampleAccentedPayload))
      = ["--voxelsPersistFilename".toList, "caf".toList ++ [Char.ofNat 233] ++ ".svo".toList] ∧
    sampleQStringFunctions.length ("caf".toList ++ [Char.ofNat 233] ++ ".svo".toList) = 8 ∧
    (cString (sampleQStringFunctions.toLocal8Bit
      ("caf".toList ++ [Char.ofNat 233] ++ ".svo".toList))).length = 9 ∧
    (∀ (qt : QStringFunctions) (items : List (List Char)),
      VoxelServer.parsePayloadItems qt items = none ↔
        ∃ item ∈ items, qt.length item < (cString (qt.toLocal8Bit item)).length) ∧
    (∀ (qt : QStringFunctions) (numPayloadBytes : Nat) (payload : List Char) (s : VoxelServer),
      (∀ cs : List Char, (∀ c ∈ cs, c.toNat < 128) →
        qt.fromCString cs = cs ∧ qt.length cs = cs.length ∧ qt.toLocal8Bit cs = cs) →
      (∀ c ∈ cString payload, c.toNat < 128) → 0 < numPayloadBytes →
      VoxelServer.parsePayload qt numPayloadBytes payload s
        = some (VoxelServer.setArguments
            ("config-from-payload" :: (splitOnSpace (cString payload)).map String.mk) s) ∧
      ("config-from-payload" :: (splitOnSpace (cString payload)).map String.mk).length
        = (splitOnSpace (cString payload)).length + 1 ∧
      (splitOnSpace (cString payload)).length = (cString payload).count (Char.ofNat 32) + 1 ∧
      (∀ field ∈ splitOnSpace (cString payload), Char.ofNat 32 ∉ field) ∧
      " ".intercalate ((splitOnSpace (cString payload)).map String.mk)
        = String.mk (cString payload)) ∧
    (∀ (qt : QStringFunctions) (payload : List Char) (s : VoxelServer),
      VoxelServer.parsePayload qt 0 payload s = some s) := by
  refine ⟨by decide, by decide, by decide, by decide, parsePayloadItems_eq_none, ?_, ?_⟩
  · intro qt numPayloadBytes payload s hqt hascii hpos
    exact parsePayload_ascii qt numPayloadBytes payload s hqt hascii hpos
  · intro qt payload s
    unfold VoxelServer.parsePayload
    rw [if_neg (by omega)]

/-! ### `VoxelServer::civetwebRequestHandler` -/

theorem floatExponent_of_lt (fuel v : Nat) (h : v < 2 ^ 24) : floatExponent fuel v = 0 := by
  cases fuel with
  | zero => rfl
  | succ fuel =>
    unfold floatExponent
    rw [if_pos h]

theorem toFloat_of_le (v : Nat) (h : v ≤ 2 ^ 24) : toFloat v = v := by
  rcases Nat.lt_or_ge v (2 ^ 24) with hlt | hge
  · unfold toFloat
    rw [floatExponent_of_lt 64 v hlt]
    simp [Nat.mod_one]
  · have hv : v = 16777216 := by
      norm_num at h hge
      omega
    subst hv
    decide

theorem averageVoxelsPerPacket_eq (totalVoxelsProcessed totalPacketsProcessed : Nat) :
    averageVoxelsPerPacket totalVoxelsProcessed totalPacketsProcessed
      = some (toFloat (if totalPacketsProcessed = 0 then 0
          else totalVoxelsProcessed / totalPacketsProcessed)) := by
  unfold averageVoxelsPerPacket divideUInt64
  by_cases hzero : totalPacketsProcessed = 0
  · simp [hzero]
  · simp [hzero]

/-- The page is always written: the computation of `averageVoxelsPerPacket` never divides by
zero.  The lines of the up time and of the load time, the configuration, the aggregate figure
and the blocks of the senders are as follows. -/
theorem statusPage_eq (inputs : StatusInputs) (theServer : VoxelServer)
    (stats : PacketProcessorStats) :
    ∃ page : StatusPage, statusPage inputs theServer stats = some page ∧
      page.uptime.time
        = elapsedTime (((inputs.usecTimestampNow + 2 ^ 64 - inputs._startedUSecs % 2 ^ 64)
            % 2 ^ 64) / USECS_PER_MSEC) ∧
      page.uptime.hoursAndMinutes = hoursAndMinutesText page.uptime.time ∧
      page.uptime.secondsPrinted = decide (page.uptime.time.msecs > 0) ∧
      page.voxelsLoadTook
        = (if inputs.isInitialLoadComplete then
            some { time := elapsedTime (inputs.getLoadElapsedTime / USECS_PER_MSEC)
                   hoursAndMinutes :=
                     hoursAndMinutesText (elapsedTime (inputs.getLoadElapsedTime / USECS_PER_MSEC))
                   secondsPrinted := true }
           else none) ∧
      page.configuration = theServer._argv.drop 1 ∧
      some page.editStatistics.averageInboundVoxelsPerPacket
        = averageVoxelsPerPacket stats.getTotalVoxelsProcessed stats.getTotalPacketsProcessed ∧
      page.senders = senderBlocks page.editStatistics.averageInboundVoxelsPerPacket 0
        stats.getSingleSenderStats := by
  unfold statusPage
  dsimp only
  rw [averageVoxelsPerPacket_eq]
  refine ⟨_, rfl, ?_, ?_, ?_, ?_, ?_, ?_, ?_⟩ <;> dsimp only

namespace VoxelServer

theorem civetwebRequestHandler_eq (inputs : StatusInputs) (theServer : VoxelServer)
    (stats : PacketProcessorStats) (ri : mg_request_info)
    (hbuild : inputs.FORCE_CRASH = false)
    (hprocessor : theServer._voxelServerPacketProcessor.isSome = true) :
    civetwebRequestHandler inputs theServer stats ri =
      if ri.uri = "/resetStats" ∧ ri.request_method = "GET" then
        some { returned := 1, stats := inputs.resetStats stats, resetStatsCalls := 1,
               page := statusPage inputs theServer (inputs.resetStats stats) }
      else if ri.uri = "/" ∧ ri.request_method = "GET" then
        some { returned := 1, stats := stats, resetStatsCalls := 0,
               page := statusPage inputs theServer stats }
      else some { returned := 0, stats := stats, resetStatsCalls := 0, page := none } := by
  obtain ⟨processor, hsome⟩ := Option.isSome_iff_exists.mp hprocessor
  obtain ⟨page, hpage, -⟩ := statusPage_eq inputs theServer stats
  obtain ⟨pageAfterReset, hpageAfterReset, -⟩ :=
    statusPage_eq inputs theServer (inputs.resetStats stats)
  unfold civetwebRequestHandler
  simp only [hbuild, hsome, Bool.false_and, Bool.false_eq_true, if_false, Bool.and_eq_true,
    beq_iff_eq]
  by_cases hreset : ri.uri = "/resetStats" ∧ ri.request_method = "GET"
  · simp [hreset, hpageAfterReset]
  · by_cases hroot : ri.uri = "/" ∧ ri.request_method = "GET"
    · simp [hreset, hroot, hpage]
    · simp [hreset, hroot]

/-- On a build without `FORCE_CRASH` and a server whose packet processor exists, the handler
returns 1, and writes the page, exactly when the method is GET and the URI is "/" or
"/resetStats", and returns 0 for every other request; `resetStats` is called, once, exactly for
GET "/resetStats", and otherwise, in particular for GET "/", the statistics are left as they
were. -/
theorem civetwebRequestHandler_returns (inputs : StatusInputs) (theServer : VoxelServer)
    (stats : PacketProcessorStats) (ri : mg_request_info)
    (hbuild : inputs.FORCE_CRASH = false)
    (hprocessor : theServer._voxelServerPacketProcessor.isSome = true) :
    ∃ r : HandlerResult,
      civetwebRequestHandler inputs theServer stats ri = some r ∧
      (r.returned = 1 ↔
        ri.request_method = "GET" ∧ (ri.uri = "/" ∨ ri.uri = "/resetStats")) ∧
      (r.returned = 0 ↔
        ¬ (ri.request_method = "GET" ∧ (ri.uri = "/" ∨ ri.uri = "/resetStats"))) ∧
      (r.page.isSome = true ↔ r.returned = 1) ∧
      (r.resetStatsCalls = 1 ↔ ri.request_method = "GET" ∧ ri.uri = "/resetStats") ∧
      (r.resetStatsCalls = 0 ↔ ¬ (ri.request_method = "GET" ∧ ri.uri = "/resetStats")) ∧
      (ri.request_method = "GET" ∧ ri.uri = "/resetStats" → r.stats = inputs.resetStats stats) ∧
      (¬ (ri.request_method = "GET" ∧ ri.uri = "/resetStats") → r.stats = stats) := by
  rw [civetwebRequestHandler_eq inputs theServer stats ri hbuild hprocessor]
  obtain ⟨page, hpage, -⟩ := statusPage_eq inputs theServer stats
  obtain ⟨pageAfterReset, hpageAfterReset, -⟩ :=
    statusPage_eq inputs theServer (inputs.resetStats stats)
  have hne : ("/" : String) ≠ "/resetStats" := by decide
  by_cases hreset : ri.uri = "/resetStats" ∧ ri.request_method = "GET"
  · rw [if_pos hreset]
    refine ⟨_, rfl, ?_⟩
    simp [hreset.1, hreset.2, hpageAfterReset]
  · rw [if_neg hreset]
    by_cases hroot : ri.uri = "/" ∧ ri.request_method = "GET"
    · rw [if_pos hroot]
      refine ⟨_, rfl, ?_⟩
      simp [hroot.1, hroot.2, hne, hpage]
    · rw [if_neg hroot]
      refine ⟨_, rfl, ?_⟩
      have h1 : ¬ (ri.request_method = "GET" ∧ (ri.uri = "/" ∨ ri.uri = "/resetStats")) := by
        rintro ⟨hget, huri | huri⟩
        · exact hroot ⟨huri, hget⟩
        · exact hreset ⟨huri, hget⟩
      have h2 : ¬ (ri.request_method = "GET" ∧ ri.uri = "/resetStats") := by
        rintro ⟨hget, huri⟩
        exact hreset ⟨huri, hget⟩
      simp [h1, h2]

/-- The handler on a server whose packet processor is `NULL`, on a build without
`FORCE_CRASH`: a GET of "/" or of "/resetStats" goes through the pointer and has no defined
result; every other request returns 0 and resets nothing. -/
theorem civetwebRequestHandler_of_null (inputs : StatusInputs) (theServer : VoxelServer)
    (stats : PacketProcessorStats) (ri : mg_request_info)
    (hbuild : inputs.FORCE_CRASH = false)
    (hprocessor : theServer._voxelServerPacketProcessor = none) :
    civetwebRequestHandler inputs theServer stats ri =
      if ri.request_method = "GET" ∧ (ri.uri = "/" ∨ ri.uri = "/resetStats") then none
      else some { returned := 0, stats := stats, resetStatsCalls := 0, page := none } := by
  unfold civetwebRequestHandler
  simp only [hbuild, hprocessor, Bool.false_and, Bool.false_eq_true, if_false,
    Bool.and_eq_true, beq_iff_eq]
  by_cases hreset : ri.uri = "/resetStats" ∧ ri.request_method = "GET"
  · simp [hreset]
  · by_cases hroot : ri.uri = "/" ∧ ri.request_method = "GET"
    · simp [hreset, hroot]
    · have hother : ¬ (ri.request_method = "GET" ∧ (ri.uri = "/" ∨ ri.uri = "/resetStats")) := by
        rintro ⟨hget, huri | huri⟩
        · exact hroot ⟨huri, hget⟩
        · exact hreset ⟨huri, hget⟩
      simp [hreset, hroot, hother]

/-- C17: the handler does not return 1 for every GET of "/" or "/resetStats".  `run` starts
the status server (`initMongoose`, for `--statusPort 8080`) with the server as the constructor
left it, where `_voxelServerPacketProcessor` is `NULL`; a GET of "/" or of "/resetStats" that
arrives then is answered through that pointer and has no defined result, while every other
request returns 0.  Once the packet processor exists the handler resets only on demand: it
returns 1 and writes the page exactly for GET "/" and GET "/resetStats", returns 0 otherwise,
and calls `resetStats`, once, exactly for GET "/resetStats", leaving the statistics as they
were for every other request. -/
theorem civetwebRequestHandler_null_processor :
    runStatusPort sampleExternals sampleStatusPortServer = some 8080 ∧
    sampleStatusPortServer._voxelServerPacketProcessor = none ∧
    civetwebRequestHandler sampleStatusInputs sampleStatusPortServer sampleStats ⟨"/", "GET"⟩
      = none ∧
    civetwebRequestHandler sampleStatusInputs sampleStatusPortServer sampleStats
      ⟨"/resetStats", "GET"⟩ = none ∧
    civetwebRequestHandler sampleStatusInputs sampleStatusPortServer sampleStats
      ⟨"/index.html", "GET"⟩
      = some { returned := 0, stats := sampleStats, resetStatsCalls := 0, page := none } ∧
    (∀ (inputs : StatusInputs) (theServer : VoxelServer) (stats : PacketProcessorStats)
      (ri : mg_request_info), inputs.FORCE_CRASH = false →
      theServer._voxelServerPacketProcessor = none →
      (civetwebRequestHandler inputs theServer stats ri = none ↔
        ri.request_method = "GET" ∧ (ri.uri = "/" ∨ ri.uri = "/resetStats"))) ∧
    (∀ (inputs : StatusInputs) (theServer : VoxelServer) (stats : PacketProcessorStats)
      (ri : mg_request_info), inputs.FORCE_CRASH = false →
      theServer._voxelServerPacketProcessor.isSome = true →
      ∃ r : HandlerResult,
        civetwebRequestHandler inputs theServer stats ri = some r ∧
        (r.returned = 1 ↔
          ri.request_method = "GET" ∧ (ri.uri = "/" ∨ ri.uri = "/resetStats")) ∧
        (r.returned = 0 ↔
          ¬ (ri.request_method = "GET" ∧ (ri.uri = "/" ∨ ri.uri = "/resetStats"))) ∧
        (r.page.isSome = true ↔ r.returned = 1) ∧
        (r.resetStatsCalls = 1 ↔ ri.request_method = "GET" ∧ ri.uri = "/resetStats") ∧
        (r.resetStatsCalls = 0 ↔ ¬ (ri.request_method = "GET" ∧ ri.uri = "/resetStats")) ∧
        (ri.request_method = "GET" ∧ ri.uri = "/resetStats" →
          r.stats = inputs.resetStats stats) ∧
        (¬ (ri.request_method = "GET" ∧ ri.uri = "/resetStats") → r.stats = stats)) := by
  refine ⟨by decide, rfl, by decide, by decide, by decide, ?_, ?_⟩
  · intro inputs theServer stats ri hbuild hprocessor
    rw [civetwebRequestHandler_of_null inputs theServer stats ri hbuild hprocessor]
    by_cases hget : ri.request_method = "GET" ∧ (ri.uri = "/" ∨ ri.uri = "/resetStats")
    · simp [hget]
    · simp [hget]
  · intro inputs theServer stats ri hbuild hprocessor
    exact civetwebRequestHandler_returns inputs theServer stats ri hbuild hprocessor

/-- The handler on the server of `sampleLoopState`, whose packet processor exists, for a GET of
"/resetStats". -/
theorem civetwebRequestHandler_returns_sample :
    ∃ r : HandlerResult,
      civetwebRequestHandler sampleStatusInputs sampleLoopState.server sampleStats
        ⟨"/resetStats", "GET"⟩ = some r ∧
      (r.returned = 1 ↔
        "GET" = "GET" ∧ (("/resetStats" : String) = "/" ∨ "/resetStats" = "/resetStats")) ∧
      (r.returned = 0 ↔
        ¬ ("GET" = "GET" ∧ (("/resetStats" : String) = "/" ∨ "/resetStats" = "/resetStats"))) ∧
      (r.page.isSome = true ↔ r.returned = 1) ∧
      (r.resetStatsCalls = 1 ↔ "GET" = "GET" ∧ "/resetStats" = "/resetStats") ∧
      (r.resetStatsCalls = 0 ↔ ¬ ("GET" = "GET" ∧ "/resetStats" = "/resetStats")) ∧
      ("GET" = "GET" ∧ "/resetStats" = "/resetStats" →
        r.stats = sampleStatusInputs.resetStats sampleStats) ∧
      (¬ ("GET" = "GET" ∧ "/resetStats" = "/resetStats") → r.stats = sampleStats) :=
  civetwebRequestHandler_returns sampleStatusInputs sampleLoopState.server sampleStats
    ⟨"/resetStats", "GET"⟩ (by decide) (by decide)

theorem senderBlocks_average (average : Nat) :
    ∀ (senders : List (List Nat × SingleSenderStats)) (senderNumber : Int),
      ∀ block ∈ senderBlocks average senderNumber senders,
        block.figures.averageInboundVoxelsPerPacket = average := by
  intro senders
  induction senders with
  | nil =>
    intro senderNumber block hblock
    simp [senderBlocks] at hblock
  | cons sender rest ih =>
    intro senderNumber block hblock
    obtain ⟨senderID, senderStats⟩ := sender
    simp only [senderBlocks, List.mem_cons] at hblock
    rcases hblock with h | h
    · rw [h]
    · exact ih _ block h

/-- C18: in the page of the handler the block of every sender shows, as "Average Inbound
Voxels/Packet", the figure computed from the totals over all senders, not from the counters of
that sender: with a first sender of 10 voxels in 1 packet and a second of 2 voxels in 2
packets, both blocks show 12 / 3 = 4, where the senders have 10 and 1. -/
theorem statusPage_sender_average (inputs : StatusInputs) (theServer : VoxelServer)
    (stats : PacketProcessorStats) :
    (∃ page : StatusPage, statusPage inputs theServer stats = some page ∧
      ∀ block ∈ page.senders,
        some block.figures.averageInboundVoxelsPerPacket
          = averageVoxelsPerPacket stats.getTotalVoxelsProcessed
              stats.getTotalPacketsProcessed) ∧
    (civetwebRequestHandler sampleStatusInputs sampleLoopState.server sampleStats
        ⟨"/", "GET"⟩).map (fun r => r.page.map (fun page => page.senders.map (fun block =>
          (block.senderNumber, block.figures.totalInboundVoxels,
            block.figures.totalInboundPackets, block.figures.averageInboundVoxelsPerPacket))))
      = some (some [(1, 10, 1, 4), (2, 2, 2, 4)]) ∧
    averageVoxelsPerPacket 10 1 = some 10 ∧ averageVoxelsPerPacket 2 2 = some 1 := by
  refine ⟨?_, by decide, by decide, by decide⟩
  obtain ⟨page, hpage, -, -, -, -, -, haverage, hsenders⟩ := statusPage_eq inputs theServer stats
  refine ⟨page, hpage, ?_⟩
  intro block hblock
  rw [hsenders] at hblock
  rw [senderBlocks_average _ _ _ block hblock]
  exact haverage

/-- C19, as stated, fails: for 16777217 voxels in 1 packet the quotient is 16777217, which no
`float` holds; the figure of the page is the `float` 16777216. -/
theorem statusPage_averageVoxelsPerPacket_rounded :
    (statusPage sampleStatusInputs sampleLoopState.server
        { sampleStats with getTotalVoxelsProcessed := 16777217,
                           getTotalPacketsProcessed := 1 }).map
      (fun page => page.editStatistics.averageInboundVoxelsPerPacket) = some 16777216 ∧
    (statusPage sampleStatusInputs sampleLoopState.server
        { sampleStats with getTotalVoxelsProcessed := 16777217,
                           getTotalPacketsProcessed := 1 }).map
      (fun page => page.editStatistics.averageInboundVoxelsPerPacket) ≠ some (16777217 / 1) := by
  refine ⟨by decide, by decide⟩

/-- C19, amended: the computation of `averageVoxelsPerPacket` never divides by zero, so the
page is always written.  Its figure is 0 when no packet was processed; otherwise the division
is the one of the two `uint64_t` totals, with the fraction dropped, and the figure is its
quotient converted to `float`, a whole number, which is the quotient itself whenever the
quotient is at most `2 ^ 24`. -/
theorem statusPage_averageVoxelsPerPacket (inputs : StatusInputs) (theServer : VoxelServer)
    (stats : PacketProcessorStats) :
    ∃ page : StatusPage, statusPage inputs theServer stats = some page ∧
      (stats.getTotalPacketsProcessed = 0 →
        page.editStatistics.averageInboundVoxelsPerPacket = 0) ∧
      (stats.getTotalPacketsProcessed ≠ 0 →
        divideUInt64 stats.getTotalVoxelsProcessed stats.getTotalPacketsProcessed
          = some (stats.getTotalVoxelsProcessed / stats.getTotalPacketsProcessed) ∧
        page.editStatistics.averageInboundVoxelsPerPacket
          = toFloat (stats.getTotalVoxelsProcessed / stats.getTotalPacketsProcessed) ∧
        (stats.getTotalVoxelsProcessed / stats.getTotalPacketsProcessed ≤ 2 ^ 24 →
          page.editStatistics.averageInboundVoxelsPerPacket
            = stats.getTotalVoxelsProcessed / stats.getTotalPacketsProcessed ∧
          page.editStatistics.averageInboundVoxelsPerPacket * stats.getTotalPacketsProcessed
            ≤ stats.getTotalVoxelsProcessed ∧
          stats.getTotalVoxelsProcessed
            < (page.editStatistics.averageInboundVoxelsPerPacket + 1)
              * stats.getTotalPacketsProcessed)) := by
  obtain ⟨page, hpage, -, -, -, -, -, haverage, -⟩ := statusPage_eq inputs theServer stats
  rw [averageVoxelsPerPacket_eq, Option.some.injEq] at haverage
  refine ⟨page, hpage, ?_, ?_⟩
  · intro hzero
    rw [haverage, if_pos hzero]
    decide
  · intro hne
    rw [haverage, if_neg hne]
    have hpos : 0 < stats.getTotalPacketsProcessed := Nat.pos_of_ne_zero hne
    refine ⟨?_, rfl, ?_⟩
    · unfold divideUInt64
      rw [if_neg hne]
    · intro hsmall
      rw [toFloat_of_le _ hsmall]
      refine ⟨rfl, Nat.div_mul_le_self _ _, ?_⟩
      rw [Nat.mul_comm]
      exact Nat.lt_mul_div_succ _ hpos

theorem statusPage_averageVoxelsPerPacket_witness :
    (statusPage sampleStatusInputs sampleLoopState.server sampleStats).map
      (fun page => page.editStatistics.averageInboundVoxelsPerPacket) = some 4 ∧
    ∃ page : StatusPage,
      statusPage sampleStatusInputs sampleLoopState.server sampleStats = some page ∧
      (sampleStats.getTotalPacketsProcessed = 0 →
        page.editStatistics.averageInboundVoxelsPerPacket = 0) ∧
      (sampleStats.getTotalPacketsProcessed ≠ 0 →
        divideUInt64 12 3 = some (12 / 3) ∧
        page.editStatistics.averageInboundVoxelsPerPacket = toFloat (12 / 3) ∧
        (12 / 3 ≤ 2 ^ 24 →
          page.editStatistics.averageInboundVoxelsPerPacket = 12 / 3 ∧
          page.editStatistics.averageInboundVoxelsPerPacket * 3 ≤ 12 ∧
          12 < (page.editStatistics.averageInboundVoxelsPerPacket + 1) * 3)) :=
  ⟨by decide,
    statusPage_averageVoxelsPerPacket sampleStatusInputs sampleLoopState.server sampleStats⟩

theorem toInt_of_lt (n : Nat) (h : n < 2 ^ 31) : toInt (n : Int) = n := by
  unfold toInt
  norm_num at h ⊢
  omega

theorem hoursAndMinutesText_eq (e : ElapsedTime) (hhours : 0 ≤ e.hours)
    (hminutes : 0 ≤ e.minutes) :
    hoursAndMinutesText e =
      (if e.hours = 0 then "" else if e.hours = 1 then "1 hour "
        else toString e.hours ++ " hours ")
      ++ (if e.minutes = 0 then "" else if e.minutes = 1 then "1 minute "
        else toString e.minutes ++ " minutes ") := by
  have hpart : ∀ (v : Int) (unit : String), 0 ≤ v →
      (if v > 0 then toString v ++ unit ++ (if v > 1 then "s" else "") ++ " " else "")
        = (if v = 0 then "" else if v = 1 then "1" ++ unit ++ " "
            else toString v ++ (unit ++ "s" ++ " ")) := by
    intro v unit hv
    by_cases h0 : v = 0
    · subst h0
      simp
    · by_cases h1 : v = 1
      · subst h1
        simp
        rfl
      · have hpos : v > 0 := by omega
        have hgt : v > 1 := by omega
        simp only [hpos, hgt, if_true, h0, h1, if_false, String.append_assoc]
  unfold hoursAndMinutesText
  rw [hpart e.hours " hour" hhours, hpart e.minutes " minute" hminutes]
  rfl

/-- C20: the break-down of an elapsed time `ms` in milliseconds whose hours fit an `int`: the
handler has `hours = ms / 3600000`, `minutes = (ms / 60000) % 60` and the remainder
`ms % 60000` under a minute, with `hours * 3600000 + minutes * 60000 + remainder = ms`,
`0 ≤ minutes < 60` and `remainder < 60000`; the hours and the minutes are written only when
positive, as "1 hour " or "n hours " and "1 minute " or "n minutes ".  The page is always
written, and both its lines are made this way: the line of the up time from the milliseconds
between `_startedUSecs` and now, the line of the load time, present when the initial load is
complete, from the milliseconds of `getLoadElapsedTime()`. -/
theorem elapsedTime_decomposition (ms : Nat) (hhours : ms / 3600000 < 2 ^ 31) :
    (elapsedTime ms).hours = ms / 3600000 ∧
    (elapsedTime ms).minutes = (ms / 60000) % 60 ∧
    (elapsedTime ms).msecs = ms % 60000 ∧
    (elapsedTime ms).hours * 3600000 + (elapsedTime ms).minutes * 60000
      + (elapsedTime ms).msecs = ms ∧
    0 ≤ (elapsedTime ms).minutes ∧ (elapsedTime ms).minutes < 60 ∧
    (elapsedTime ms).msecs < 60000 ∧
    hoursAndMinutesText (elapsedTime ms) =
      (if (elapsedTime ms).hours = 0 then "" else if (elapsedTime ms).hours = 1 then "1 hour "
        else toString (elapsedTime ms).hours ++ " hours ")
      ++ (if (elapsedTime ms).minutes = 0 then ""
        else if (elapsedTime ms).minutes = 1 then "1 minute "
        else toString (elapsedTime ms).minutes ++ " minutes ") ∧
    (∀ (inputs : StatusInputs) (theServer : VoxelServer) (stats : PacketProcessorStats),
      ∃ page : StatusPage, statusPage inputs theServer stats = some page ∧
        page.uptime
          = { time := elapsedTime (((inputs.usecTimestampNow + 2 ^ 64
                  - inputs._startedUSecs % 2 ^ 64) % 2 ^ 64) / USECS_PER_MSEC)
              hoursAndMinutes := hoursAndMinutesText (elapsedTime
                (((inputs.usecTimestampNow + 2 ^ 64 - inputs._startedUSecs % 2 ^ 64) % 2 ^ 64)
                  / USECS_PER_MSEC))
              secondsPrinted := decide ((elapsedTime (((inputs.usecTimestampNow + 2 ^ 64
                  - inputs._startedUSecs % 2 ^ 64) % 2 ^ 64) / USECS_PER_MSEC)).msecs > 0) } ∧
        page.voxelsLoadTook
          = (if inputs.isInitialLoadComplete then
              some { time := elapsedTime (inputs.getLoadElapsedTime / USECS_PER_MSEC)
                     hoursAndMinutes :=
                       hoursAndMinutesText (elapsedTime (inputs.getLoadElapsedTime / USECS_PER_MSEC))
                     secondsPrinted := true }
             else none)) := by
  have he : elapsedTime ms = ElapsedTime.mk (ms % 60000) ((ms / 60000 % 60 : Nat) : Int)
      ((ms / 3600000 : Nat) : Int) := by
    unfold elapsedTime
    simp only [MSECS_PER_MIN, MSECS_PER_SEC, SECS_PER_MIN, MIN_PER_HOUR]
    norm_num
    exact ⟨toInt_of_lt (ms / 60000 % 60) (by norm_num; omega), toInt_of_lt (ms / 3600000) hhours⟩
  refine ⟨?_, ?_, ?_, ?_, ?_, ?_, ?_, ?_, ?_⟩
  · rw [he]
    norm_cast
  · rw [he]
    norm_cast
  · rw [he]
  · rw [he]
    dsimp only
    norm_cast
    omega
  · rw [he]
    exact Int.natCast_nonneg _
  · rw [he]
    dsimp only
    norm_cast
    omega
  · rw [he]
    dsimp only
    omega
  · apply hoursAndMinutesText_eq
    · rw [he]
      exact Int.natCast_nonneg _
    · rw [he]
      exact Int.natCast_nonneg _
  · intro inputs theServer stats
    obtain ⟨page, hpage, htime, htext, hseconds, hload, -⟩ := statusPage_eq inputs theServer stats
    refine ⟨page, hpage, ?_, hload⟩
    rw [← htime, ← htext, ← hseconds]

theorem elapsedTime_decomposition_witness :
    (elapsedTime 3723500).hours = 1 ∧ (elapsedTime 3723500).minutes = 2 ∧
    (elapsedTime 3723500).msecs = 3500 ∧
    hoursAndMinutesText (elapsedTime 3723500) = "1 hour 2 minutes " ∧
    (elapsedTime 3723500).hours * 3600000 + (elapsedTime 3723500).minutes * 60000
      + (elapsedTime 3723500).msecs = (3723500 : Nat) ∧
    (statusPage sampleStatusInputs sampleLoopState.server sampleStats).map
        (fun page => (page.uptime, page.voxelsLoadTook))
      = some ({ time := { msecs := 3500, minutes := 2, hours := 1 }
                hoursAndMinutes := "1 hour 2 minutes "
                secondsPrinted := true },
              some { time := { msecs := 1200, minutes := 1, hours := 0 }
                     hoursAndMinutes := "1 minute "
                     secondsPrinted := true }) :=
  ⟨(elapsedTime_decomposition 3723500 (by decide)).1,
    (elapsedTime_decomposition 3723500 (by decide)).2.1,
    (elapsedTime_decomposition 3723500 (by decide)).2.2.1,
    (elapsedTime_decomposition 3723500 (by decide)).2.2.2.2.2.2.2.1,
    (elapsedTime_decomposition 3723500 (by decide)).2.2.2.1,
    by decide⟩

end VoxelServer

/-! ### `MyAvatar::renderScreenTint` -/

/-- C28: for every layer and every state of the rave glove, `renderScreenTint` never calls
`setupWorldLight`: the branch that restores the lighting has the condition of the branch before
it and is never taken.  The calls made are `renderRaveGloveStage`, once, when the layer is
`SCREEN_TINT_BEFORE_AVATARS` and the rave glove is active, and none otherwise. -/
theorem renderScreenTint_never_restores (SCREEN_TINT_BEFORE_AVATARS layer : Nat)
    (isRaveGloveActive : Bool) :
    ScreenTintCall.setupWorldLight
      ∉ MyAvatar.renderScreenTint SCREEN_TINT_BEFORE_AVATARS layer isRaveGloveActive ∧
    MyAvatar.renderScreenTint SCREEN_TINT_BEFORE_AVATARS layer isRaveGloveActive
      = (if layer = SCREEN_TINT_BEFORE_AVATARS ∧ isRaveGloveActive = true then
          [ScreenTintCall.renderRaveGloveStage]
         else []) := by
  unfold MyAvatar.renderScreenTint
  by_cases hlayer : layer = SCREEN_TINT_BEFORE_AVATARS
  · cases isRaveGloveActive <;> simp [hlayer]
  · simp [hlayer]

/-! ### The handlers of the receive loop of `VoxelServer::run` -/

namespace VoxelServer

theorem handleVoxelQuery_calls (s : RunState) (node : Node) (a : sockaddr) (d : List Nat)
    (n : Int) :
    ∃ rest : List Call,
      (handleVoxelQuery s node a d n).2 = Call.updateNodeWithData node._uuid a d n :: rest ∧
      (∀ c ∈ rest, c = Call.activatePublicSocket node._uuid
        ∨ c = Call.initializeVoxelSendThread node._uuid) := by
  unfold handleVoxelQuery
  dsimp only
  split <;> split <;> (try split) <;> simp

theorem dispatch_handlers (x : Externals) (s : RunState) (t : Tick) :
    ((dispatch x s t).2.filter Call.isPacketHandler).length ≤ 1 ∧
    Call.sendDomainServerCheckIn ∉ (dispatch x s t).2 := by
  unfold dispatch
  dsimp only
  split
  · split
    · rename_i node hnode
      obtain ⟨rest, hcalls, hrest⟩ := handleVoxelQuery_calls s node t.senderAddress t.packetData
        t.recvfromResult
      rw [hcalls]
      have hnone : rest.filter Call.isPacketHandler = [] := by
        rw [List.filter_eq_nil_iff]
        intro c hc
        rcases hrest c hc with h | h <;> simp [h, Call.isPacketHandler]
      refine ⟨?_, ?_⟩
      · simp [List.filter_cons, Call.isPacketHandler, hnone]
      · intro hmem
        rcases List.mem_cons.mp hmem with h | h
        · simp at h
        · rcases hrest _ h with h2 | h2 <;> simp at h2
    · simp
  · split
    · split <;> simp [Call.isPacketHandler]
    · split <;> simp [Call.isPacketHandler]

/-- C26: an iteration of the loop of `run` that receives a version-matching packet whose type
byte is none of voxel-query, jurisdiction-request, set-voxel, set-voxel-destructive,
erase-voxel and Z-command makes, besides the check-in block and the ping, the one call
`processNodeData` with the packet, so nothing is queued to the edit packet processor or to the
jurisdiction sender; and in every iteration, whatever the packet, at most one call hands the
packet to a handler. -/
theorem run_other_packets (x : Externals) (s : RunState) (t : Tick)
    (hlive : t.numNoReplyDomainCheckIns < x.MAX_SILENT_DOMAIN_SERVER_CHECK_INS)
    (hrecv : UDPSocket.receive t.recvfromResult = true)
    (hversion : x.packetVersionMatch t.packetData = true)
    (htype : t.packetData.headD 0 ≠ x.PACKET_TYPE_VOXEL_QUERY
      ∧ t.packetData.headD 0 ≠ x.PACKET_TYPE_VOXEL_JURISDICTION_REQUEST
      ∧ t.packetData.headD 0 ≠ x.PACKET_TYPE_SET_VOXEL
      ∧ t.packetData.headD 0 ≠ x.PACKET_TYPE_SET_VOXEL_DESTRUCTIVE
      ∧ t.packetData.headD 0 ≠ x.PACKET_TYPE_ERASE_VOXEL
      ∧ t.packetData.headD 0 ≠ x.PACKET_TYPE_Z_COMMAND) :
    (∃ s1 : RunState,
      loopIteration x s t = some (s1, (checkIn x s t).2 ++ [Call.possiblyPingInactiveNodes,
        Call.processNodeData t.senderAddress t.packetData t.recvfromResult]) ∧
      s1.server = s.server ∧ s1.nodeList.nodes = t.processNodeData s.nodeList.nodes) ∧
    (∀ (s0 : RunState) (t0 : Tick) (s1 : RunState) (calls : List Call),
      loopIteration x s0 t0 = some (s1, calls) →
        (calls.filter Call.isPacketHandler).length ≤ 1) := by
  obtain ⟨hq, hj, h1, h2, h3, h4⟩ := htype
  have hc := checkIn_frame x s t
  constructor
  · refine ⟨(dispatch x (checkIn x s t).1 t).1, ?_⟩
    rw [loopIteration_received x s t hlive hrecv hversion]
    have hd : dispatch x (checkIn x s t).1 t
        = ({ (checkIn x s t).1 with nodeList := { (checkIn x s t).1.nodeList with
              nodes := t.processNodeData (checkIn x s t).1.nodeList.nodes } },
            [Call.processNodeData t.senderAddress t.packetData t.recvfromResult]) := by
      unfold dispatch
      dsimp only
      rw [if_neg hq, if_neg hj, if_neg]
      simp only [Bool.and_eq_true, Bool.or_eq_true, decide_eq_true_eq]
      rintro ⟨-, ((h | h) | h) | h⟩
      · exact h1 h
      · exact h2 h
      · exact h3 h
      · exact h4 h
    rw [hd]
    refine ⟨by simp, hc.1, ?_⟩
    show t.processNodeData (checkIn x s t).1.nodeList.nodes = _
    rw [hc.2]
  · intro s0 t0 s1 calls hiter
    unfold loopIteration at hiter
    split at hiter
    · simp at hiter
    · dsimp only at hiter
      have hcheck : (checkIn x s0 t0).2.filter Call.isPacketHandler = [] := by
        rcases checkIn_calls x s0 t0 with h | h <;> simp [h, Call.isPacketHandler]
      split at hiter
      · simp only [Option.some.injEq, Prod.mk.injEq] at hiter
        rw [← hiter.2]
        simp only [List.filter_append, hcheck, List.nil_append, List.length_append]
        have := (dispatch_handlers x (checkIn x s0 t0).1 t0).1
        simpa [Call.isPacketHandler] using this
      · simp only [Option.some.injEq, Prod.mk.injEq] at hiter
        rw [← hiter.2]
        simp [List.filter_append, hcheck, Call.isPacketHandler]

theorem run_other_packets_witness :
    (∃ s1 : RunState,
      loopIteration sampleExternals sampleLoopState (sampleTick [80, 1, 0, 0])
        = some (s1, [Call.possiblyPingInactiveNodes,
            Call.processNodeData { sa_family := 2, s_addr := 3232235777, sin_port := 40102 }
              [80, 1, 0, 0] 4]) ∧
      s1.server = sampleLoopState.server ∧
      s1.nodeList.nodes = sampleLoopState.nodeList.nodes) ∧
    (∀ (s0 : RunState) (t0 : Tick) (s1 : RunState) (calls : List Call),
      loopIteration sampleExternals s0 t0 = some (s1, calls) →
        (calls.filter Call.isPacketHandler).length ≤ 1) :=
  run_other_packets sampleExternals sampleLoopState (sampleTick [80, 1, 0, 0]) (by decide)
    (by decide) (by decide) (by decide)

end VoxelServer

/-! ### The exit of `VoxelServer::run` -/

namespace VoxelServer

theorem runExit_server (x : Externals) (ticks : List Tick) :
    ∀ (s : RunState) (r : VoxelServer × List ShutdownCall),
      runExit x s ticks = some r → r = runShutdown s.server := by
  induction ticks with
  | nil =>
    intro s r h
    simp [runExit] at h
  | cons t ts ih =>
    intro s r h
    unfold runExit at h
    split at h
    · rename_i s1 calls hiter
      rw [ih s1 r h, (loopIteration_frame x s s1 t calls hiter).1]
    · simp only [Option.some.injEq] at h
      exact h.symm

/-- C22: when the loop of `run` is left, `NodeList::clear` is called first; then the
jurisdiction sender and the edit packet processor, which `run` always creates, are each
terminated once and deleted after that; then the persist thread, when one was created, is
terminated once and deleted after that; then the hook is removed, the jurisdiction map, if
there is one, is deleted, and `_jurisdiction` is `NULL` when `run` returns.  For any server, a
worker that was not created is neither terminated nor deleted. -/
theorem run_shutdown (x : Externals) (argv : List String) (nl : NodeList) (ticks : List Tick)
    (r : VoxelServer × List ShutdownCall)
    (hexit : runExit x (loopEntry x argv nl) ticks = some r) :
    r.2 = [ShutdownCall.nodeListClear,
        ShutdownCall.jurisdictionSenderTerminate, ShutdownCall.deleteJurisdictionSender,
        ShutdownCall.voxelServerPacketProcessorTerminate,
        ShutdownCall.deleteVoxelServerPacketProcessor]
      ++ (if (runConfigure x (setArguments argv create))._voxelPersistThread.isSome then
            [ShutdownCall.voxelPersistThreadTerminate, ShutdownCall.deleteVoxelPersistThread]
          else [])
      ++ [ShutdownCall.removeHook]
      ++ (match (runConfigure x (setArguments argv create))._jurisdiction with
          | some jurisdiction => [ShutdownCall.deleteJurisdiction jurisdiction]
          | none => []) ∧
    r.1._jurisdiction = none ∧
    (∀ s : VoxelServer,
      (runShutdown s).2.head? = some ShutdownCall.nodeListClear ∧
      (runShutdown s).2.count ShutdownCall.nodeListClear = 1 ∧
      (runShutdown s).2.count ShutdownCall.jurisdictionSenderTerminate
        = (if s._jurisdictionSender.isSome then 1 else 0) ∧
      (runShutdown s).2.count ShutdownCall.voxelServerPacketProcessorTerminate
        = (if s._voxelServerPacketProcessor.isSome then 1 else 0) ∧
      (runShutdown s).2.count ShutdownCall.voxelPersistThreadTerminate
        = (if s._voxelPersistThread.isSome then 1 else 0) ∧
      (runShutdown s).1._jurisdiction = none) := by
  have hr := runExit_server x ticks _ r hexit
  have hserver : (loopEntry x argv nl).server = runConfigure x (setArguments argv create) := rfl
  rw [hserver] at hr
  have hsender : (runConfigure x (setArguments argv create))._jurisdictionSender.isSome
      = true := by
    rw [runConfigure_jurisdictionSender]
    rfl
  have hprocessor : (runConfigure x (setArguments argv create))._voxelServerPacketProcessor.isSome
      = true := by
    rw [runConfigure_voxelServerPacketProcessor]
    rfl
  refine ⟨?_, ?_, ?_⟩
  · rw [hr]
    unfold runShutdown
    simp only [hsender, hprocessor, if_true]
    simp
  · rw [hr]
    rfl
  · intro s
    unfold runShutdown
    cases s._jurisdictionSender <;> cases s._voxelServerPacketProcessor <;>
      cases s._voxelPersistThread <;> cases s._jurisdiction <;> simp

theorem run_shutdown_witness :
    (runShutdown (runConfigure sampleExternals (setArguments
        ["voxel-server", "--jurisdictionRoot", "00"] create))).2
      = [ShutdownCall.nodeListClear,
          ShutdownCall.jurisdictionSenderTerminate, ShutdownCall.deleteJurisdictionSender,
          ShutdownCall.voxelServerPacketProcessorTerminate,
          ShutdownCall.deleteVoxelServerPacketProcessor,
          ShutdownCall.voxelPersistThreadTerminate, ShutdownCall.deleteVoxelPersistThread,
          ShutdownCall.removeHook,
          ShutdownCall.deleteJurisdiction
            (JurisdictionMap.fromRootAndEndNodes (some "00") none)] ∧
    (runShutdown (runConfigure sampleExternals (setArguments
        ["voxel-server", "--jurisdictionRoot", "00"] create))).1._jurisdiction = none :=
  ⟨(run_shutdown sampleExternals ["voxel-server", "--jurisdictionRoot", "00"] sampleNodeList
      [sampleTimeoutTick, { sampleTimeoutTick with numNoReplyDomainCheckIns := 5 }]
      (runShutdown (runConfigure sampleExternals (setArguments
        ["voxel-server", "--jurisdictionRoot", "00"] create))) (by rfl)).1,
    (run_shutdown sampleExternals ["voxel-server", "--jurisdictionRoot", "00"] sampleNodeList
      [sampleTimeoutTick, { sampleTimeoutTick with numNoReplyDomainCheckIns := 5 }]
      (runShutdown (runConfigure sampleExternals (setArguments
        ["voxel-server", "--jurisdictionRoot", "00"] create))) (by rfl)).2.1⟩

end VoxelServer

/-! ### The check-ins of the loop of `VoxelServer::run` -/

namespace VoxelServer

theorem dispatch_lastDomainServerCheckIn (x : Externals) (s : RunState) (t : Tick) :
    (dispatch x s t).1.lastDomainServerCheckIn = s.lastDomainServerCheckIn := by
  unfold dispatch
  dsimp only
  repeat' split
  all_goals rfl

theorem checkIn_spec (x : Externals) (s : RunState) (t : Tick) :
    (Call.sendDomainServerCheckIn ∈ (checkIn x s t).2 ↔
      (t.usecTimestampNow + 2 ^ 64 - s.lastDomainServerCheckIn % 2 ^ 64) % 2 ^ 64
        ≥ x.DOMAIN_SERVER_CHECK_IN_USECS) ∧
    (checkIn x s t).2.count Call.sendDomainServerCheckIn ≤ 1 ∧
    (checkIn x s t).1.lastDomainServerCheckIn
      = (if (t.usecTimestampNow + 2 ^ 64 - s.lastDomainServerCheckIn % 2 ^ 64) % 2 ^ 64
            ≥ x.DOMAIN_SERVER_CHECK_IN_USECS then t.gettimeofday
         else s.lastDomainServerCheckIn) := by
  unfold checkIn
  split
  · rename_i h
    exact ⟨⟨fun _ => h, fun _ => List.mem_singleton.mpr rfl⟩, by simp, rfl⟩
  · rename_i h
    exact ⟨⟨fun hc => absurd hc (List.not_mem_nil _), fun hc => absurd hc h⟩, by simp, rfl⟩

theorem loopIteration_checkIn (x : Externals) (s s1 : RunState) (t : Tick) (calls : List Call)
    (h : loopIteration x s t = some (s1, calls)) :
    s1.lastDomainServerCheckIn = (checkIn x s t).1.lastDomainServerCheckIn ∧
    (Call.sendDomainServerCheckIn ∈ calls ↔ Call.sendDomainServerCheckIn ∈ (checkIn x s t).2) ∧
    calls.count Call.sendDomainServerCheckIn
      = (checkIn x s t).2.count Call.sendDomainServerCheckIn := by
  unfold loopIteration at h
  split at h
  · simp at h
  · dsimp only at h
    split at h
    · simp only [Option.some.injEq, Prod.mk.injEq] at h
      have hno := (dispatch_handlers x (checkIn x s t).1 t).2
      rw [← h.1, ← h.2, dispatch_lastDomainServerCheckIn]
      refine ⟨rfl, ?_, ?_⟩
      · simp [hno]
      · simp [List.count_eq_zero_of_not_mem hno]
    · simp only [Option.some.injEq, Prod.mk.injEq] at h
      rw [← h.1, ← h.2]
      simp

theorem checkInTimes_chain (x : Externals) (ticks : List Tick) :
    ∀ (s : RunState) (previous : Nat),
      s.lastDomainServerCheckIn ≤ previous → clockOrdered previous ticks →
      List.Chain (fun a b => a + x.DOMAIN_SERVER_CHECK_IN_USECS ≤ b) s.lastDomainServerCheckIn
        (checkInTimes x s ticks) := by
  induction ticks with
  | nil =>
    intro s previous _ _
    exact List.Chain.nil
  | cons t ts ih =>
    intro s previous hlast hclock
    obtain ⟨hprev, hnow, hfit, hrest⟩ := hclock
    unfold checkInTimes
    split
    · rename_i s1 calls hiter
      obtain ⟨hl, hmem, -⟩ := loopIteration_checkIn x s s1 t calls hiter
      obtain ⟨hsent, -, hstored⟩ := checkIn_spec x s t
      have hdiff : (t.usecTimestampNow + 2 ^ 64 - s.lastDomainServerCheckIn % 2 ^ 64) % 2 ^ 64
          = t.usecTimestampNow - s.lastDomainServerCheckIn := by
        norm_num at hfit ⊢
        omega
      rw [hdiff] at hsent hstored
      by_cases hdue : t.usecTimestampNow - s.lastDomainServerCheckIn
          ≥ x.DOMAIN_SERVER_CHECK_IN_USECS
      · have hin : Call.sendDomainServerCheckIn ∈ calls := hmem.mpr (hsent.mpr hdue)
        rw [if_pos hin]
        have hs1 : s1.lastDomainServerCheckIn = t.gettimeofday := by
          rw [hl, hstored, if_pos hdue]
        rw [List.singleton_append]
        refine List.Chain.cons ?_ ?_
        · rw [hs1]
          omega
        · exact ih s1 t.gettimeofday (le_of_eq hs1) hrest
      · have hout : Call.sendDomainServerCheckIn ∉ calls := fun hc =>
          hdue (hsent.mp (hmem.mp hc))
        rw [if_neg hout, List.nil_append]
        have hs1 : s1.lastDomainServerCheckIn = s.lastDomainServerCheckIn := by
          rw [hl, hstored, if_neg hdue]
        rw [← hs1]
        exact ih s1 t.gettimeofday (by omega) hrest
    · exact List.Chain.nil

/-- C21: in every iteration of the loop of `run` that is not the `break`, a check-in is sent,
once, exactly when the current time minus the time of the last check-in (as `uint64_t`) is at
least `DOMAIN_SERVER_CHECK_IN_USECS`, and sending stores the time read by `gettimeofday` as the
time of the last check-in; the last check-in time is 0 at the entry of the loop, so the first
iteration sends one as soon as the clock reads at least `DOMAIN_SERVER_CHECK_IN_USECS`; with a
clock that never goes back, the times of two consecutive check-ins are at least
`DOMAIN_SERVER_CHECK_IN_USECS` apart; and once the unanswered check-ins have reached
`MAX_SILENT_DOMAIN_SERVER_CHECK_INS` the iteration is the `break`: no call is made and no
further iteration runs. -/
theorem run_checkIns (x : Externals) :
    (∀ (s : RunState) (t : Tick),
      t.numNoReplyDomainCheckIns < x.MAX_SILENT_DOMAIN_SERVER_CHECK_INS →
      ∃ (s1 : RunState) (calls : List Call), loopIteration x s t = some (s1, calls) ∧
        (Call.sendDomainServerCheckIn ∈ calls ↔
          (t.usecTimestampNow + 2 ^ 64 - s.lastDomainServerCheckIn % 2 ^ 64) % 2 ^ 64
            ≥ x.DOMAIN_SERVER_CHECK_IN_USECS) ∧
        calls.count Call.sendDomainServerCheckIn ≤ 1 ∧
        s1.lastDomainServerCheckIn
          = (if Call.sendDomainServerCheckIn ∈ calls then t.gettimeofday
             else s.lastDomainServerCheckIn)) ∧
    (∀ (argv : List String) (nl : NodeList) (t : Tick),
      t.numNoReplyDomainCheckIns < x.MAX_SILENT_DOMAIN_SERVER_CHECK_INS →
      x.DOMAIN_SERVER_CHECK_IN_USECS ≤ t.usecTimestampNow → t.usecTimestampNow < 2 ^ 64 →
      (loopEntry x argv nl).lastDomainServerCheckIn = 0 ∧
      ∃ (s1 : RunState) (calls : List Call),
        loopIteration x (loopEntry x argv nl) t = some (s1, calls) ∧
        Call.sendDomainServerCheckIn ∈ calls) ∧
    (∀ (argv : List String) (nl : NodeList) (ticks : List Tick),
      clockOrdered 0 ticks →
      List.Chain' (fun a b => a + x.DOMAIN_SERVER_CHECK_IN_USECS ≤ b)
        (checkInTimes x (loopEntry x argv nl) ticks)) ∧
    (∀ (s : RunState) (t : Tick) (ticks : List Tick),
      t.numNoReplyDomainCheckIns ≥ x.MAX_SILENT_DOMAIN_SERVER_CHECK_INS →
      loopIteration x s t = none ∧ loopState x s (t :: ticks) = none
        ∧ loopCalls x s (t :: ticks) = []) := by
  have hfirst : ∀ (s : RunState) (t : Tick),
      t.numNoReplyDomainCheckIns < x.MAX_SILENT_DOMAIN_SERVER_CHECK_INS →
      ∃ (s1 : RunState) (calls : List Call), loopIteration x s t = some (s1, calls) ∧
        (Call.sendDomainServerCheckIn ∈ calls ↔
          (t.usecTimestampNow + 2 ^ 64 - s.lastDomainServerCheckIn % 2 ^ 64) % 2 ^ 64
            ≥ x.DOMAIN_SERVER_CHECK_IN_USECS) ∧
        calls.count Call.sendDomainServerCheckIn ≤ 1 ∧
        s1.lastDomainServerCheckIn
          = (if Call.sendDomainServerCheckIn ∈ calls then t.gettimeofday
             else s.lastDomainServerCheckIn) := by
    intro s t hlive
    obtain ⟨s1, rest, hiter⟩ := loopIteration_live x s t hlive
    obtain ⟨hl, hmem, hcount⟩ := loopIteration_checkIn x s s1 t _ hiter
    obtain ⟨hsent, hone, hstored⟩ := checkIn_spec x s t
    refine ⟨s1, _, hiter, hmem.trans hsent, by rw [hcount]; exact hone, ?_⟩
    rw [hl, hstored]
    by_cases hdue : (t.usecTimestampNow + 2 ^ 64 - s.lastDomainServerCheckIn % 2 ^ 64) % 2 ^ 64
        ≥ x.DOMAIN_SERVER_CHECK_IN_USECS
    · rw [if_pos hdue, if_pos (hmem.mpr (hsent.mpr hdue))]
    · rw [if_neg hdue, if_neg (fun hc => hdue (hsent.mp (hmem.mp hc)))]
  refine ⟨hfirst, ?_, ?_, ?_⟩
  · intro argv nl t hlive hclock hfit
    refine ⟨rfl, ?_⟩
    obtain ⟨s1, calls, hiter, hiff, -, -⟩ := hfirst (loopEntry x argv nl) t hlive
    refine ⟨s1, calls, hiter, hiff.mpr ?_⟩
    have hzero : (loopEntry x argv nl).lastDomainServerCheckIn = 0 := rfl
    rw [hzero]
    norm_num at hfit ⊢
    omega
  · intro argv nl ticks hclock
    have hchain := checkInTimes_chain x ticks (loopEntry x argv nl) 0 (le_of_eq rfl) hclock
    have hcons : List.Chain' (fun a b => a + x.DOMAIN_SERVER_CHECK_IN_USECS ≤ b)
        ((loopEntry x argv nl).lastDomainServerCheckIn
          :: checkInTimes x (loopEntry x argv nl) ticks) := hchain
    exact hcons.tail
  · intro s t ticks hsilent
    have hbreak := loopIteration_break x s t hsilent
    refine ⟨hbreak, ?_, ?_⟩
    · unfold loopState
      rw [hbreak]
    · unfold loopCalls
      rw [hbreak]

theorem run_checkIns_witness :
    checkInTimes sampleExternals (loopEntry sampleExternals ["voxel-server"] sampleNodeList)
      [sampleTimeoutTick, sampleTick sampleSetVoxelPacket,
        { sampleTimeoutTick with usecTimestampNow := 1700000001250000,
                                 gettimeofday := 1700000001250002 }]
      = [1700000000000003, 1700000001250002] ∧
    List.Chain' (fun a b => a + sampleExternals.DOMAIN_SERVER_CHECK_IN_USECS ≤ b)
      (checkInTimes sampleExternals (loopEntry sampleExternals ["voxel-server"] sampleNodeList)
        [sampleTimeoutTick, sampleTick sampleSetVoxelPacket,
          { sampleTimeoutTick with usecTimestampNow := 1700000001250000,
                                   gettimeofday := 1700000001250002 }]) ∧
    loopIteration sampleExternals sampleLoopState
      { sampleTimeoutTick with numNoReplyDomainCheckIns := 5 } = none :=
  ⟨by decide,
    (run_checkIns sampleExternals).2.2.1 ["voxel-server"] sampleNodeList
      [sampleTimeoutTick, sampleTick sampleSetVoxelPacket,
        { sampleTimeoutTick with usecTimestampNow := 1700000001250000,
                                 gettimeofday := 1700000001250002 }]
      ⟨by decide, by decide, by decide, by decide, by decide, by decide, by decide, by decide,
        by decide, trivial⟩,
    ((run_checkIns sampleExternals).2.2.2 sampleLoopState
      { sampleTimeoutTick with numNoReplyDomainCheckIns := 5 } [] (by decide)).1⟩

end VoxelServer

/-! ### The send threads started by the loop of `VoxelServer::run` -/

namespace VoxelServer

theorem find_storeNode_other (nodeUUID : List Nat) (node1 : Node)
    (huuid : node1._uuid ≠ nodeUUID) :
    ∀ nodes : List Node,
      (storeNode node1 nodes).find? (fun n => n._uuid == nodeUUID)
        = nodes.find? (fun n => n._uuid == nodeUUID) := by
  intro nodes
  induction nodes with
  | nil => rfl
  | cons n ns ih =>
    unfold storeNode
    by_cases hn : (n._uuid == node1._uuid) = true
    · rw [if_pos hn]
      have hnu : n._uuid = node1._uuid := beq_iff_eq.mp hn
      have h1 : (node1._uuid == nodeUUID) = false := by simpa using huuid
      have h2 : (n._uuid == nodeUUID) = false := by
        rw [hnu]
        exact h1
      rw [List.find?_cons, List.find?_cons, h1, h2]
    · rw [if_neg hn, List.find?_cons, List.find?_cons, ih]

/-- The query branch for a node without linked data, or with linked data whose send thread
is or is not initialized, when the callback is `attachVoxelNodeDataToNode`: afterwards the node
has a session record with the send thread initialized, and `initializeVoxelSendThread` was
called exactly when it was not so before. -/
theorem handleVoxelQuery_initialize (s : RunState) (node : Node) (a : sockaddr) (d : List Nat)
    (n : Int) (hcallback : s.nodeList.linkedDataCreateCallback = some attachVoxelNodeDataToNode) :
    ∃ node3 : Node,
      (handleVoxelQuery s node a d n).1.nodeList.nodes = storeNode node3 s.nodeList.nodes ∧
      (handleVoxelQuery s node a d n).1.nodeList.linkedDataCreateCallback
        = s.nodeList.linkedDataCreateCallback ∧
      node3._uuid = node._uuid ∧ node3._linkedData = some (VoxelNodeData.mk true) ∧
      ∀ u : List Nat,
        (handleVoxelQuery s node a d n).2.count (Call.initializeVoxelSendThread u)
          = (if u = node._uuid ∧ node._linkedData ≠ some (VoxelNodeData.mk true) then 1
             else 0) := by
  obtain ⟨uuid, publicSocket, activeSocket, linkedData⟩ := node
  refine ⟨Node.mk uuid publicSocket
    (if activeSocket.isNone then some publicSocket else activeSocket)
    (some (VoxelNodeData.mk true)), ?_, rfl, rfl, rfl, ?_⟩
  · unfold handleVoxelQuery NodeList.updateNodeWithData
    rw [hcallback]
    rcases linkedData with _ | ⟨_ | _⟩ <;> rcases activeSocket with _ | socket <;>
      simp [attachVoxelNodeDataToNode, Node.activatePublicSocket, VoxelNodeData.create,
        VoxelNodeData.isVoxelSendThreadInitalized, VoxelNodeData.initializeVoxelSendThread]
  · intro u
    unfold handleVoxelQuery NodeList.updateNodeWithData
    rw [hcallback]
    by_cases hu : u = uuid
    · subst hu
      rcases linkedData with _ | ⟨_ | _⟩ <;> rcases activeSocket with _ | socket <;>
        simp [attachVoxelNodeDataToNode, Node.activatePublicSocket, VoxelNodeData.create,
          VoxelNodeData.isVoxelSendThreadInitalized, VoxelNodeData.initializeVoxelSendThread]
    · have hne : ¬ uuid = u := fun h => hu h.symm
      rcases linkedData with _ | ⟨_ | _⟩ <;> rcases activeSocket with _ | socket <;>
        simp [attachVoxelNodeDataToNode, Node.activatePublicSocket, VoxelNodeData.create,
          VoxelNodeData.isVoxelSendThreadInitalized, VoxelNodeData.initializeVoxelSendThread,
          hu, hne]

theorem sendThreadInitialized_eq (nl : NodeList) (u : List Nat) :
    nl.sendThreadInitialized u
      = match nl.nodes.find? (fun n => n._uuid == u) with
        | some node => decide (node._linkedData = some (VoxelNodeData.mk true))
        | none => false := by
  unfold NodeList.sendThreadInitialized NodeList.nodeWithUUID
  cases nl.nodes.find? (fun n => n._uuid == u) with
  | none => rfl
  | some node =>
    obtain ⟨uuid, publicSocket, activeSocket, linkedData⟩ := node
    rcases linkedData with _ | ⟨_ | _⟩ <;>
      simp [VoxelNodeData.isVoxelSendThreadInitalized]

/-- The query branch of the dispatch never starts a second send thread for a client: the calls
of `initializeVoxelSendThread` for a UUID, plus 1 if the send thread of that UUID is not
initialized afterwards, are at most 1 if it was not initialized before and 0 if it was. -/
theorem dispatch_initialize (x : Externals) (s : RunState) (t : Tick) (u : List Nat)
    (hcallback : s.nodeList.linkedDataCreateCallback = some attachVoxelNodeDataToNode)
    (htype : t.packetData.headD 0 = x.PACKET_TYPE_VOXEL_QUERY) :
    (dispatch x s t).2.count (Call.initializeVoxelSendThread u)
        + (if (dispatch x s t).1.nodeList.sendThreadInitialized u then 0 else 1)
      ≤ (if s.nodeList.sendThreadInitialized u then 0 else 1) := by
  unfold dispatch
  dsimp only
  rw [if_pos htype]
  cases hfind : s.nodeList.nodeWithUUID
      ((t.packetData.drop (x.numBytesForPacketHeader t.packetData)).take
        x.NUM_BYTES_RFC4122_UUID) with
  | none => simp
  | some node =>
    dsimp only
    have huuid := nodeWithUUID_uuid _ _ _ hfind
    obtain ⟨node3, hnodes, -, huuid3, hlinked3, hcount⟩ :=
      handleVoxelQuery_initialize s node t.senderAddress t.packetData t.recvfromResult hcallback
    have hfind2 : s.nodeList.nodes.find? (fun n => n._uuid == node._uuid) = some node := by
      rw [huuid]
      exact hfind
    rw [hcount u, sendThreadInitialized_eq, sendThreadInitialized_eq, hnodes]
    by_cases hu : u = node._uuid
    · subst hu
      rw [find_storeNode node._uuid node3 huuid3 s.nodeList.nodes node hfind2, hfind2]
      by_cases hstarted : node._linkedData = some (VoxelNodeData.mk true)
      · simp [hstarted, hlinked3]
      · simp [hstarted, hlinked3]
    · have hother : node3._uuid ≠ u := by
        rw [huuid3]
        exact fun h => hu h.symm
      rw [find_storeNode_other u node3 hother]
      simp [hu]

theorem loopIteration_initialize (x : Externals) (s s1 : RunState) (t : Tick)
    (calls : List Call) (u : List Nat)
    (hcallback : s.nodeList.linkedDataCreateCallback = some attachVoxelNodeDataToNode)
    (hquery : t.isVoxelQueryOrDropped x)
    (hiter : loopIteration x s t = some (s1, calls)) :
    calls.count (Call.initializeVoxelSendThread u)
        + (if s1.nodeList.sendThreadInitialized u then 0 else 1)
      ≤ (if s.nodeList.sendThreadInitialized u then 0 else 1) := by
  have hc := checkIn_frame x s t
  have hcheck : (checkIn x s t).2.count (Call.initializeVoxelSendThread u) = 0 := by
    rcases checkIn_calls x s t with h | h <;> simp [h]
  unfold loopIteration at hiter
  split at hiter
  · simp at hiter
  · dsimp only at hiter
    split at hiter
    · rename_i hreceived
      simp only [Option.some.injEq, Prod.mk.injEq] at hiter
      have hd := dispatch_initialize x (checkIn x s t).1 t u (by rw [hc.2]; exact hcallback)
        (hquery hreceived)
      rw [hc.2] at hd
      rw [← hiter.1, ← hiter.2]
      simp only [List.count_append, hcheck]
      simpa using hd
    · simp only [Option.some.injEq, Prod.mk.injEq] at hiter
      rw [← hiter.1, ← hiter.2, hc.2]
      simp [List.count_append, hcheck]

theorem loopCalls_initialize (x : Externals) (u : List Nat) (ticks : List Tick) :
    ∀ s : RunState,
      s.nodeList.linkedDataCreateCallback = some attachVoxelNodeDataToNode →
      (∀ t ∈ ticks, t.isVoxelQueryOrDropped x) →
      (loopCalls x s ticks).count (Call.initializeVoxelSendThread u)
        ≤ (if s.nodeList.sendThreadInitialized u then 0 else 1) := by
  induction ticks with
  | nil =>
    intro s _ _
    simp [loopCalls]
  | cons t ts ih =>
    intro s hcallback hquery
    unfold loopCalls
    split
    · rename_i s1 calls hiter
      have hstep := loopIteration_initialize x s s1 t calls u hcallback
        (hquery t (List.mem_cons_self _ _)) hiter
      have hcallback1 := (loopIteration_frame x s s1 t calls hiter).2.trans hcallback
      have hrest := ih s1 hcallback1 (fun t1 ht1 => hquery t1 (List.mem_cons_of_mem _ ht1))
      rw [List.count_append]
      omega
    · simp

theorem handleVoxelQuery_initializes_iff (s : RunState) (node : Node) (a : sockaddr)
    (d : List Nat) (n : Int) (u : List Nat) :
    Call.initializeVoxelSendThread u ∈ (handleVoxelQuery s node a d n).2 ↔
      u = node._uuid ∧ ∃ nodeData : VoxelNodeData,
        (s.nodeList.updateNodeWithData node)._linkedData = some nodeData ∧
        nodeData.isVoxelSendThreadInitalized = false := by
  unfold handleVoxelQuery
  generalize s.nodeList.updateNodeWithData node = node1
  obtain ⟨uuid1, publicSocket1, activeSocket1, linkedData1⟩ := node1
  rcases linkedData1 with _ | ⟨_ | _⟩ <;> rcases activeSocket1 with _ | socket <;>
    simp [Node.activatePublicSocket, VoxelNodeData.isVoxelSendThreadInitalized,
      VoxelNodeData.initializeVoxelSendThread]

/-- C25: a client never gets a second send worker.  In a state `s` that the loop of
`VoxelServer::run` reaches, (1) over every sequence of iterations that each receive a voxel
query (or drop what they receive), `initializeVoxelSendThread` is called at most once for each
client UUID; (2) the handling of a voxel query calls `initializeVoxelSendThread` for a UUID
exactly when `nodeWithUUID` finds the node of the UUID in the packet, that UUID is the one
initialized, and the node, after `updateNodeWithData`, has linked data whose
`isVoxelSendThreadInitalized` is false; (3) a voxel query whose UUID is not in the node list
leaves the state unchanged and makes no call. -/
theorem run_initializes_once (x : Externals) (argv : List String) (nl : NodeList)
    (ticks0 : List Tick) (s : RunState)
    (hreached : loopState x (loopEntry x argv nl) ticks0 = some s) :
    (∀ ticks : List Tick, (∀ t ∈ ticks, t.isVoxelQueryOrDropped x) →
      ∀ u : List Nat, (loopCalls x s ticks).count (Call.initializeVoxelSendThread u) ≤ 1) ∧
    (∀ (t : Tick) (u : List Nat), t.packetData.headD 0 = x.PACKET_TYPE_VOXEL_QUERY →
      (Call.initializeVoxelSendThread u ∈ (dispatch x s t).2 ↔
        ∃ node : Node,
          s.nodeList.nodeWithUUID
            ((t.packetData.drop (x.numBytesForPacketHeader t.packetData)).take
              x.NUM_BYTES_RFC4122_UUID) = some node ∧
          u = node._uuid ∧
          ∃ nodeData : VoxelNodeData,
            (s.nodeList.updateNodeWithData node)._linkedData = some nodeData ∧
            nodeData.isVoxelSendThreadInitalized = false)) ∧
    (∀ t : Tick, t.packetData.headD 0 = x.PACKET_TYPE_VOXEL_QUERY →
      s.nodeList.nodeWithUUID
        ((t.packetData.drop (x.numBytesForPacketHeader t.packetData)).take
          x.NUM_BYTES_RFC4122_UUID) = none →
      dispatch x s t = (s, [])) := by
  have hcallback := (loopState_workers x argv nl ticks0 s hreached).2.2
  refine ⟨?_, ?_, ?_⟩
  · intro ticks hquery u
    have hcount := loopCalls_initialize x u ticks s hcallback hquery
    split at hcount <;> omega
  · intro t u htype
    unfold dispatch
    dsimp only
    rw [if_pos htype]
    cases hfind : s.nodeList.nodeWithUUID
        ((t.packetData.drop (x.numBytesForPacketHeader t.packetData)).take
          x.NUM_BYTES_RFC4122_UUID) with
    | none => simp
    | some node =>
      dsimp only
      rw [handleVoxelQuery_initializes_iff]
      constructor
      · rintro ⟨hu, hdata⟩
        exact ⟨node, rfl, hu, hdata⟩
      · rintro ⟨node1, hnode, hu, hdata⟩
        cases Option.some.inj hnode
        exact ⟨hu, hdata⟩
  · intro t htype hfind
    unfold dispatch
    dsimp only
    rw [if_pos htype, hfind]

theorem run_initializes_once_witness :
    (loopCalls sampleExternals sampleLoopState
        [sampleTick (sampleVoxelQueryPacket 7), sampleTick (sampleVoxelQueryPacket 7),
          sampleTick (sampleVoxelQueryPacket 9)]).count
      (Call.initializeVoxelSendThread (List.replicate 16 7)) = 1 ∧
    (loopCalls sampleExternals sampleLoopState
        [sampleTick (sampleVoxelQueryPacket 7), sampleTick (sampleVoxelQueryPacket 7),
          sampleTick (sampleVoxelQueryPacket 9)]).count
      (Call.initializeVoxelSendThread (List.replicate 16 7)) ≤ 1 :=
  ⟨by decide,
    (run_initializes_once sampleExternals ["voxel-server"] sampleNodeList [sampleTimeoutTick]
      sampleLoopState rfl).1
      [sampleTick (sampleVoxelQueryPacket 7), sampleTick (sampleVoxelQueryPacket 7),
        sampleTick (sampleVoxelQueryPacket 9)]
      (by
        intro t ht _
        simp only [List.mem_cons, List.mem_singleton, List.not_mem_nil, or_false] at ht
        rcases ht with rfl | rfl | rfl <;> rfl)
      (List.replicate 16 7)⟩

end VoxelServer

/-! ### `PairingHandler::sendPairRequest` -/

namespace PairingHandler

theorem digitChar_toNat_ne_zero (n : Nat) (h : n < 10) : (Nat.digitChar n).toNat ≠ 0 := by
  interval_cases n <;> decide

theorem toDigitsCore_toNat_ne_zero (fuel : Nat) : ∀ (n : Nat) (ds : List Char),
    (∀ c ∈ ds, c.toNat ≠ 0) → ∀ c ∈ Nat.toDigitsCore 10 fuel n ds, c.toNat ≠ 0 := by
  induction fuel with
  | zero =>
    intro n ds h
    simpa [Nat.toDigitsCore] using h
  | succ fuel ih =>
    intro n ds h
    unfold Nat.toDigitsCore
    dsimp only
    have hds : ∀ c ∈ Nat.digitChar (n % 10) :: ds, c.toNat ≠ 0 := by
      intro c hc
      rcases List.mem_cons.mp hc with rfl | hc
      · exact digitChar_toNat_ne_zero _ (Nat.mod_lt _ (by decide))
      · exact h c hc
    split
    · exact hds
    · exact ih _ _ hds

theorem toString_nat_ne_zero (n : Nat) : ∀ c ∈ (toString n).data, c.toNat ≠ 0 := by
  intro c hc
  have hrepr : toString n = (Nat.toDigits 10 n).asString := rfl
  rw [hrepr] at hc
  exact toDigitsCore_toNat_ne_zero _ _ _ (by simp) c hc

theorem toString_lowByte_ne_zero (v : Int) : ∀ c ∈ (toString (lowByte v)).data, c.toNat ≠ 0 := by
  have hnonneg : 0 ≤ lowByte v := Int.emod_nonneg _ (by decide)
  obtain ⟨n, hn⟩ := Int.eq_ofNat_of_zero_le hnonneg
  rw [hn]
  exact toString_nat_ne_zero n

theorem pairText_ne_zero (localAddress : Int) (listenPort : Nat) :
    ∀ c ∈ (pairText localAddress listenPort).data, c.toNat ≠ 0 := by
  intro c hc
  unfold pairText at hc
  simp only [String.data_append, List.mem_append] at hc
  rcases hc with ((((((((hc | hc) | hc) | hc) | hc) | hc) | hc) | hc) | hc) | hc
  · simp only [List.mem_cons, List.mem_singleton, List.not_mem_nil, or_false] at hc
    rcases hc with rfl | rfl | rfl | rfl | rfl <;> decide
  · exact toString_lowByte_ne_zero _ c hc
  · rw [List.mem_singleton] at hc
    subst hc
    decide
  · exact toString_lowByte_ne_zero _ c hc
  · rw [List.mem_singleton] at hc
    subst hc
    decide
  · exact toString_lowByte_ne_zero _ c hc
  · rw [List.mem_singleton] at hc
    subst hc
    decide
  · exact toString_lowByte_ne_zero _ c hc
  · rw [List.mem_singleton] at hc
    subst hc
    decide
  · exact toString_nat_ne_zero _ c hc

theorem cString_append_replicate (k : Nat) : ∀ l : List Char, (∀ c ∈ l, c.toNat ≠ 0) →
    cString (l ++ List.replicate k (Char.ofNat 0)) = l := by
  intro l
  induction l with
  | nil =>
    intro _
    cases k with
    | zero => rfl
    | succ k => simp [cString, List.replicate_succ]
  | cons a l ih =>
    intro h
    have ha : a.toNat ≠ 0 := h a (List.mem_cons_self _ _)
    have hl := ih (fun c hc => h c (List.mem_cons_of_mem _ hc))
    unfold cString at hl ⊢
    simp only [List.cons_append, List.takeWhile_cons, ha, ne_eq, not_false_eq_true,
      decide_True, ite_true, hl]

/-- When the formatted text has at most 23 characters and the name of the pairing server
resolves, `sendPairRequest` sends the text in the zero-padded `pairPacket`, with the length of
the text as byte count, to the resolved address on port `htons(7247)`. -/
theorem sendPairRequest_of_fits (e : Environment) (hostAddress : Nat)
    (hfits : (pairText e.getLocalAddress e.getSocketListenPort).length ≤ 23)
    (hhost : e.gethostbyname PAIRING_SERVER_HOSTNAME = some hostAddress) :
    sendPairRequest e = some
      { destAddress := ⟨UDPSocket.AF_INET, hostAddress, e.htons 7247⟩
        data := (pairText e.getLocalAddress e.getSocketListenPort).data
          ++ List.replicate (24 - (pairText e.getLocalAddress e.getSocketListenPort).length)
              (Char.ofNat 0)
        byteLength := (pairText e.getLocalAddress e.getSocketListenPort).length } := by
  unfold sendPairRequest sprintf
  dsimp only
  rw [if_pos (by omega), hhost]
  dsimp only
  rw [cString_append_replicate _ _ (pairText_ne_zero _ _)]
  rfl

/-- C27: the pair request does not always fit its buffer.  For the local address
192.168.100.100 (the `int` 1684318400) and the listen port 40102 the formatted text is
"Find 192.168.100.100:40102", of 26 characters and not of at most 23: with its NUL `sprintf`
writes 27 bytes into the 24 of `pairPacket`, and the call has no defined result. -/
theorem sendPairRequest_overflows :
    pairText 1684318400 40102 = "Find 192.168.100.100:40102" ∧
    (pairText 1684318400 40102).length = 26 ∧
    ¬ (pairText 1684318400 40102).length ≤ 23 ∧
    sendPairRequest (samplePairingEnvironment 1684318400 40102) = none := by
  refine ⟨by decide, by decide, by decide, by decide⟩

/-- C23: for every local address the four numbers printed after "Find " are the bytes 0 to 3
of the address, each from 0 to 255, also for a negative `int`, and they add up to the address
modulo `2 ^ 32`.  For the address 10.200.150.250 (the negative `int` -90781686) and the listen
port 65535 the text is "Find 10.200.150.250:65535", of 25 characters, which `sprintf` writes
past the end of `pairPacket`: the call has no defined result and need not send the text.  For
the same address and the port 80 the 22 characters of the text are sent to the pairing server
on port `htons(7247)`. -/
theorem sendPairRequest_announces :
    (∀ localAddress : Int,
      (0 ≤ lowByte localAddress ∧ lowByte localAddress ≤ 255) ∧
      (0 ≤ lowByte (localAddress >>> (8 : Nat)) ∧ lowByte (localAddress >>> (8 : Nat)) ≤ 255) ∧
      (0 ≤ lowByte (localAddress >>> (16 : Nat)) ∧ lowByte (localAddress >>> (16 : Nat)) ≤ 255) ∧
      (0 ≤ lowByte (localAddress >>> (24 : Nat)) ∧ lowByte (localAddress >>> (24 : Nat)) ≤ 255) ∧
      lowByte localAddress + 256 * lowByte (localAddress >>> (8 : Nat))
          + 65536 * lowByte (localAddress >>> (16 : Nat))
          + 16777216 * lowByte (localAddress >>> (24 : Nat))
        = localAddress % 2 ^ 32) ∧
    pairText (-90781686) 65535 = "Find 10.200.150.250:65535" ∧
    sendPairRequest (samplePairingEnvironment (-90781686) 65535) = none ∧
    sendPairRequest (samplePairingEnvironment (-90781686) 80)
      = some { destAddress := ⟨2, 16777343, 20252⟩
               data := "Find 10.200.150.250:80".data ++ [Char.ofNat 0, Char.ofNat 0]
               byteLength := 22 } := by
  refine ⟨?_, by decide, by decide, by decide⟩
  intro localAddress
  simp only [lowByte, Int.shiftRight_eq_div_pow]
  norm_num
  omega

/-! ### `MyAvatar::applyHardCollision` -/

theorem glm.dot_projection {K : Type} [LinearOrderedField K] (v p : glm.vec3 K)
    (l elasticity c : K) (hl : l * l = glm.dot p p) (hne : l ≠ 0) :
    glm.dot ((v.sub (((p.divide l).scale (glm.dot v (p.divide l))).scale elasticity)).scale c) p
      = c * (1 - elasticity) * glm.dot v p := by
  unfold glm.dot at hl
  simp only [glm.dot, glm.vec3.sub, glm.vec3.scale, glm.vec3.divide]
  field_simp
  have h2 : l ^ 2 = p.x * p.x + p.y * p.y + p.z * p.z := by rw [← hl]; ring
  linear_combination (c * elasticity * (v.x * p.x + v.y * p.y + v.z * p.z)) * h2

theorem MyAvatar.applyHardCollision_velocity {K : Type} [LinearOrderedField K] (sqrt : K → K)
    (EPSILON : K) (avatar : MyAvatar K) (penetration : glm.vec3 K) (elasticity damping : K)
    (hlength : glm.length sqrt penetration > EPSILON) :
    (MyAvatar.applyHardCollision sqrt EPSILON avatar penetration elasticity damping)._position
      = avatar._position.sub penetration ∧
    ∃ c : K,
      (MyAvatar.applyHardCollision sqrt EPSILON avatar penetration elasticity damping)._velocity
        = (avatar._velocity.sub
            (((penetration.divide (glm.length sqrt penetration)).scale
              (glm.dot avatar._velocity (penetration.divide (glm.length sqrt penetration)))).scale
              elasticity)).scale c := by
  unfold MyAvatar.applyHardCollision
  dsimp only
  rw [if_pos hlength]
  split
  · refine ⟨rfl, glm.clamp (1 - damping) 0 1 * 0, ?_⟩
    simp [glm.vec3.scale]
  · exact ⟨rfl, glm.clamp (1 - damping) 0 1, rfl⟩

/-- In every linearly ordered field, with any function `sqrt` that squares to the squared
length of the penetration: with elasticity 1 and a penetration longer than `EPSILON`,
`applyHardCollision` moves the position back by the penetration and leaves a velocity that is
orthogonal to the penetration. -/
theorem MyAvatar.applyHardCollision_exact {K : Type} [LinearOrderedField K] (sqrt : K → K)
    (EPSILON : K) (avatar : MyAvatar K) (penetration : glm.vec3 K) (damping : K)
    (hsqrt : sqrt (glm.dot penetration penetration) * sqrt (glm.dot penetration penetration)
      = glm.dot penetration penetration)
    (hEPSILON : 0 ≤ EPSILON)
    (hlength : glm.length sqrt penetration > EPSILON) :
    (MyAvatar.applyHardCollision sqrt EPSILON avatar penetration 1 damping)._position
      = avatar._position.sub penetration ∧
    glm.dot (MyAvatar.applyHardCollision sqrt EPSILON avatar penetration 1 damping)._velocity
      penetration = 0 := by
  obtain ⟨hposition, c, hvelocity⟩ :=
    MyAvatar.applyHardCollision_velocity sqrt EPSILON avatar penetration 1 damping hlength
  refine ⟨hposition, ?_⟩
  have hne : glm.length sqrt penetration ≠ 0 := ne_of_gt (lt_of_le_of_lt hEPSILON hlength)
  rw [hvelocity, glm.dot_projection avatar._velocity penetration (glm.length sqrt penetration) 1 c
    hsqrt hne]
  ring

/-- The collision of `sampleAvatar` with a surface it has entered by (0, 4, 0), evaluated on
the rationals with damping 1/2: the avatar is moved back and keeps half of the velocity
components along the surface. -/
theorem MyAvatar.applyHardCollision_sample :
    MyAvatar.applyHardCollision sampleSqrt (1 / 1000) (sampleAvatar ℚ) ⟨0, 4, 0⟩ 1 (1 / 2)
      = { _position := ⟨10, -3, 10⟩
          _velocity := ⟨3 / 2, 0, 2⟩
          _thrust := ⟨0, 0, 0⟩
          _elapsedTimeSinceCollision := 0 } := by
  norm_num [MyAvatar.applyHardCollision, sampleAvatar, sampleSqrt, glm.dot, glm.length,
    glm.clamp, glm.vec3.sub, glm.vec3.scale, glm.vec3.divide, MyAvatar.HALTING_VELOCITY]

/-- C24: over the real numbers, with the real square root in `glm::length`, for every avatar
(position, velocity, thrust), every damping and every penetration whose length is greater than
`EPSILON` (a constant that is not negative), `applyHardCollision` with elasticity 1 leaves the
position at the old position minus the penetration and a velocity whose dot product with the
penetration is 0. -/
theorem MyAvatar.applyHardCollision_inelastic (EPSILON : ℝ) (avatar : MyAvatar ℝ)
    (penetration : glm.vec3 ℝ) (damping : ℝ) (hEPSILON : 0 ≤ EPSILON)
    (hlength : glm.length Real.sqrt penetration > EPSILON) :
    (MyAvatar.applyHardCollision Real.sqrt EPSILON avatar penetration 1 damping)._position
      = avatar._position.sub penetration ∧
    glm.dot (MyAvatar.applyHardCollision Real.sqrt EPSILON avatar penetration 1 damping)._velocity
      penetration = 0 := by
  obtain ⟨hposition, c, hvelocity⟩ :=
    MyAvatar.applyHardCollision_velocity Real.sqrt EPSILON avatar penetration 1 damping hlength
  refine ⟨hposition, ?_⟩
  have hne : glm.length Real.sqrt penetration ≠ 0 := ne_of_gt (lt_of_le_of_lt hEPSILON hlength)
  have hnonneg : 0 ≤ glm.dot penetration penetration := by
    unfold glm.dot
    nlinarith [mul_self_nonneg penetration.x, mul_self_nonneg penetration.y,
      mul_self_nonneg penetration.z]
  rw [hvelocity, glm.dot_projection avatar._velocity penetration
    (glm.length Real.sqrt penetration) 1 c (Real.mul_self_sqrt hnonneg) hne]
  ring

theorem MyAvatar.applyHardCollision_inelastic_witness :
    (0 : ℝ) ≤ 1 / 1000 ∧
    glm.length Real.sqrt (⟨0, 4, 0⟩ : glm.vec3 ℝ) > 1 / 1000 ∧
    (MyAvatar.applyHardCollision Real.sqrt (1 / 1000) (sampleAvatar ℝ) ⟨0, 4, 0⟩ 1
      (1 / 2))._position = ⟨10, -3, 10⟩ ∧
    glm.dot (MyAvatar.applyHardCollision Real.sqrt (1 / 1000) (sampleAvatar ℝ) ⟨0, 4, 0⟩ 1
      (1 / 2))._velocity ⟨0, 4, 0⟩ = 0 :=
  have hroot : glm.length Real.sqrt (⟨0, 4, 0⟩ : glm.vec3 ℝ) = 4 := by
    have hsquare : glm.dot (⟨0, 4, 0⟩ : glm.vec3 ℝ) ⟨0, 4, 0⟩ = 4 * 4 := by
      norm_num [glm.dot]
    unfold glm.length
    rw [hsquare]
    exact Real.sqrt_mul_self (by norm_num)
  have hlength : glm.length Real.sqrt (⟨0, 4, 0⟩ : glm.vec3 ℝ) > 1 / 1000 := by
    rw [hroot]
    norm_num
  have hresult := MyAvatar.applyHardCollision_inelastic (1 / 1000) (sampleAvatar ℝ) ⟨0, 4, 0⟩
    (1 / 2) (by norm_num) hlength
  ⟨by norm_num, hlength,
    hresult.1.trans (by norm_num [sampleAvatar, glm.vec3.sub]),
    hresult.2⟩
